import Mathlib

/-!
# nalu-wind: continuity advection element kernel and SST effective diffusivity

A verification development for two pieces of the nalu-wind flow solver:

* `ContinuityAdvElemKernel` (src/kernel/ContinuityAdvElemKernel.C): constructor,
  `setup` and `execute`;
* `EffSSTDiffFluxCoeffAlg` (src/ngp_algorithms/EffSSTDiffFluxCoeffAlg.C):
  constructor and `execute`.

Modelling conventions.

* `DoubleType` / `double` values are rationals (`ℚ`).  The code is rendered twice.
  In `execute` and everything named without a suffix each operation is the exact
  rational one (division is the rational division of Mathlib; the source never
  guards a divisor): a statement about these is a statement in exact arithmetic.
  In `executeDouble` each operation is rounded to the nearest binary64 number (see
  "Binary64 arithmetic"): a statement about these is a statement about the
  floating-point results.
* Views and buffers (`SharedMemView`, scratch views, nodal fields) are total
  functions of their indices; a write is a pointwise function update.
* A C++ `for (int i = 0; i < n; ++i)` loop is a left fold over `List.range n`
  whose step function is the loop body, in source order.
* Template parameter `AlgTraits` is a record of the three topology constants.
-/

namespace sierra
namespace nalu

/-! ## Shared vocabulary -/

/-- Compile-time topology descriptor (`AlgTraits`): only the three constants that
the kernel reads. -/
structure AlgTraits where
  nDim_ : Nat
  nodesPerElement_ : Nat
  numScsIp_ : Nat

/-- The reference-element outputs named in the kernel (the members of the
`ELEM_DATA_NEEDED` enumeration that this source file mentions). -/
inductive ELEM_DATA_NEEDED where
  | SCS_AREAV
  | SCS_GRAD_OP
  | SCS_SHIFTED_GRAD_OP
  | SCS_SHAPE_FCN
  | SCS_SHIFTED_SHAPE_FCN
  deriving DecidableEq

/-- Coordinate sets a reference-element evaluation can be tied to. -/
inductive COORDS_TYPES where
  | CURRENT_COORDINATES
  | MODEL_COORDINATES
  deriving DecidableEq

/-- Field states accepted by `get_field_ordinal`. -/
inductive FieldState where
  | StateNone
  | StateNP1
  deriving DecidableEq

/-- Surface master element: the kernel only uses its adjacent-node table
`adjacentNodes()`, a flat array read at `2*ip` and `2*ip+1`. -/
structure MasterElement where
  adjacentNodes : Nat → Nat

/-- Repository of master elements, `MasterElementRepo::get_surface_master_element`. -/
structure MasterElementRepo where
  get_surface_master_element : AlgTraits → MasterElement

/-- The part of `SolutionOptions` the kernel constructor consults. -/
structure SolutionOptions where
  does_mesh_move : Bool
  cvfemShiftMdot_ : Bool
  get_shifted_grad_op : String → Bool
  cvfemReducedSensPoisson_ : Bool
  get_mdot_interp : ℚ
  get_coordinates_name : String

/-- A mesh part, as far as the selection of nodes goes: the node indices that
belong to it. -/
structure Part where
  containsNode : Nat → Bool

/-- The mesh meta data: field lookup `get_field_ordinal(meta, name)` and
`get_field_ordinal(meta, name, state)`, and the two ownership parts. -/
structure MetaData where
  get_field_ordinal : String → Nat
  get_field_ordinal_state : String → FieldState → Nat
  locally_owned_part : Part
  globally_shared_part : Part

/-- The part of `TimeIntegrator` that `setup` consults. -/
structure TimeIntegrator where
  get_time_step : ℚ
  get_gamma1 : ℚ

/-! ## Data requirement declaration -/

/-- The data-requirement declaration (`ElemDataRequests`): the surface master
element, the coordinate fields, the gathered nodal fields with their per-node
width, and the reference-element outputs requested per coordinate set. -/
structure ElemDataRequests where
  cvfem_surface_me : Option MasterElement
  coordsFields : List (Nat × Nat × COORDS_TYPES)
  fields : List (Nat × Nat)
  meCalls : List (ELEM_DATA_NEEDED × COORDS_TYPES)

/-- Modelled from the spec: the insertion used by every `add_*` member of
`ElemDataRequests` (the class is declared outside `src/`).  A declaration that is
already present is not recorded a second time ("deduplicates identical
declarations"); a new one is recorded. -/
def insertRequest {α : Type} [DecidableEq α] (x : α) (l : List α) : List α :=
  if x ∈ l then l else l ++ [x]

/-- Modelled from the spec: `ElemDataRequests::add_cvfem_surface_me`. -/
def ElemDataRequests.add_cvfem_surface_me (d : ElemDataRequests) (me : MasterElement) :
    ElemDataRequests :=
  { d with cvfem_surface_me := some me }

/-- Modelled from the spec: `ElemDataRequests::add_coordinates_field`. -/
def ElemDataRequests.add_coordinates_field (d : ElemDataRequests) (field : Nat)
    (scalarsPerNode : Nat) (cType : COORDS_TYPES) : ElemDataRequests :=
  { d with coordsFields := insertRequest (field, scalarsPerNode, cType) d.coordsFields }

/-- Modelled from the spec: `ElemDataRequests::add_gathered_nodal_field`. -/
def ElemDataRequests.add_gathered_nodal_field (d : ElemDataRequests) (field : Nat)
    (scalarsPerNode : Nat) : ElemDataRequests :=
  { d with fields := insertRequest (field, scalarsPerNode) d.fields }

/-- Modelled from the spec: `ElemDataRequests::add_master_element_call`. -/
def ElemDataRequests.add_master_element_call (d : ElemDataRequests)
    (data : ELEM_DATA_NEEDED) (cType : COORDS_TYPES) : ElemDataRequests :=
  { d with meCalls := insertRequest (data, cType) d.meCalls }

/-! ## Scratch staging -/

/-- Reference-element output bundle of one element (`MasterElementViews`):
indices are `(ip, j)` for area vectors, `(ip, ic, j)` for gradient operators and
`(ip, ic)` for shape functions. -/
structure MasterElementViews where
  scs_areav : Nat → Nat → ℚ
  dndx : Nat → Nat → Nat → ℚ
  dndx_shifted : Nat → Nat → Nat → ℚ
  scs_shape_fcn : Nat → Nat → ℚ
  scs_shifted_shape_fcn : Nat → Nat → ℚ

/-- Scratch staging of one element (`ScratchViews`): gathered nodal fields looked up
by field ordinal, and the reference-element bundle per coordinate set. -/
structure ScratchViews where
  get_scratch_view_1D : Nat → Nat → ℚ
  get_scratch_view_2D : Nat → Nat → Nat → ℚ
  get_me_views : COORDS_TYPES → MasterElementViews

/-! ## The continuity advection kernel -/

/-- Members of `ContinuityAdvElemKernel<AlgTraits>`. -/
structure ContinuityAdvElemKernel where
  velocityRTM_ : Nat
  Gpdx_ : Nat
  pressure_ : Nat
  densityNp1_ : Nat
  coordinates_ : Nat
  Udiag_ : Nat
  meSCS_ : MasterElement
  projTimeScale_ : ℚ
  meshMotion_ : Bool
  shiftMdot_ : Bool
  shiftPoisson_ : Bool
  reducedSensitivities_ : Bool
  interpTogether_ : ℚ
  om_interpTogether_ : ℚ

/-- The constructor (lines 29-72).  It returns the new kernel together with the
data-requirement declaration after the registrations.  `projTimeScale0` is the
value `projTimeScale_` holds before the first `setup` (the constructor does not
assign it). -/
def ContinuityAdvElemKernel.construct (AT : AlgTraits) (repo : MasterElementRepo)
    (projTimeScale0 : ℚ) (metaData : MetaData) (solnOpts : SolutionOptions)
    (dataPreReqs : ElemDataRequests) : ContinuityAdvElemKernel × ElemDataRequests :=
  let meshMotion_ := solnOpts.does_mesh_move
  let shiftMdot_ := solnOpts.cvfemShiftMdot_
  let shiftPoisson_ := solnOpts.get_shifted_grad_op "pressure"
  let reducedSensitivities_ := solnOpts.cvfemReducedSensPoisson_
  let interpTogether_ := solnOpts.get_mdot_interp
  let om_interpTogether_ := 1 - interpTogether_
  let velocity_name := if meshMotion_ then "velocity_rtm" else "velocity"
  let velocityRTM_ := metaData.get_field_ordinal velocity_name
  let Gpdx_ := metaData.get_field_ordinal "dpdx"
  let pressure_ := metaData.get_field_ordinal "pressure"
  let densityNp1_ := metaData.get_field_ordinal_state "density" FieldState.StateNP1
  let coordinates_ := metaData.get_field_ordinal solnOpts.get_coordinates_name
  let Udiag_ := metaData.get_field_ordinal "momentum_diag"
  let meSCS_ := repo.get_surface_master_element AT
  let d := dataPreReqs.add_cvfem_surface_me meSCS_
  let d := d.add_coordinates_field coordinates_ AT.nDim_ COORDS_TYPES.CURRENT_COORDINATES
  let d := d.add_gathered_nodal_field velocityRTM_ AT.nDim_
  let d := d.add_gathered_nodal_field densityNp1_ 1
  let d := d.add_gathered_nodal_field pressure_ 1
  let d := d.add_gathered_nodal_field Udiag_ 1
  let d := d.add_gathered_nodal_field Gpdx_ AT.nDim_
  let d := d.add_master_element_call ELEM_DATA_NEEDED.SCS_AREAV
    COORDS_TYPES.CURRENT_COORDINATES
  let d := if !shiftPoisson_ || !reducedSensitivities_ then
      d.add_master_element_call ELEM_DATA_NEEDED.SCS_GRAD_OP
        COORDS_TYPES.CURRENT_COORDINATES
    else d
  let d := if shiftPoisson_ || reducedSensitivities_ then
      d.add_master_element_call ELEM_DATA_NEEDED.SCS_SHIFTED_GRAD_OP
        COORDS_TYPES.CURRENT_COORDINATES
    else d
  let d := d.add_master_element_call
    (if shiftMdot_ then ELEM_DATA_NEEDED.SCS_SHIFTED_SHAPE_FCN
      else ELEM_DATA_NEEDED.SCS_SHAPE_FCN)
    COORDS_TYPES.CURRENT_COORDINATES
  ({ velocityRTM_ := velocityRTM_, Gpdx_ := Gpdx_, pressure_ := pressure_,
     densityNp1_ := densityNp1_, coordinates_ := coordinates_, Udiag_ := Udiag_,
     meSCS_ := meSCS_, projTimeScale_ := projTimeScale0,
     meshMotion_ := meshMotion_, shiftMdot_ := shiftMdot_,
     shiftPoisson_ := shiftPoisson_, reducedSensitivities_ := reducedSensitivities_,
     interpTogether_ := interpTogether_, om_interpTogether_ := om_interpTogether_ }, d)

/-- The member `setup` (lines 74-81). -/
def ContinuityAdvElemKernel.setup (K : ContinuityAdvElemKernel)
    (timeIntegrator : TimeIntegrator) : ContinuityAdvElemKernel :=
  let dt := timeIntegrator.get_time_step
  let gamma1 := timeIntegrator.get_gamma1
  { K with projTimeScale_ := dt / gamma1 }

/-- A kernel in the state in which `execute` finds it: built by the constructor
from the solver options, then passed through `setup` once. -/
def ContinuityAdvElemKernel.constructed (AT : AlgTraits) (repo : MasterElementRepo)
    (projTimeScale0 : ℚ) (metaData : MetaData) (solnOpts : SolutionOptions)
    (dataPreReqs : ElemDataRequests) (timeIntegrator : TimeIntegrator) :
    ContinuityAdvElemKernel :=
  (ContinuityAdvElemKernel.construct AT repo projTimeScale0 metaData solnOpts
    dataPreReqs).1.setup timeIntegrator

/-- Gradient operator of the residual (line 106). -/
def ContinuityAdvElemKernel.v_dndx (K : ContinuityAdvElemKernel)
    (meViews : MasterElementViews) : Nat → Nat → Nat → ℚ :=
  if K.shiftPoisson_ then meViews.dndx_shifted else meViews.dndx

/-- Gradient operator of the Jacobian (line 107). -/
def ContinuityAdvElemKernel.v_dndx_lhs (K : ContinuityAdvElemKernel)
    (meViews : MasterElementViews) : Nat → Nat → Nat → ℚ :=
  if K.shiftPoisson_ || K.reducedSensitivities_ then meViews.dndx_shifted else meViews.dndx

/-- Shape function used for interpolation (line 108). -/
def ContinuityAdvElemKernel.v_shape_function (K : ContinuityAdvElemKernel)
    (meViews : MasterElementViews) : Nat → Nat → ℚ :=
  if K.shiftMdot_ then meViews.scs_shifted_shape_fcn else meViews.scs_shape_fcn

/-- The compound assignment `a[i] += v` on a one-dimensional array (`a[i] -= v` is
`a[i] += -v`). -/
def addAt (a : Nat → ℚ) (i : Nat) (v : ℚ) : Nat → ℚ :=
  Function.update a i (a i + v)

/-- The compound assignment `a(i,j) += v` on a two-dimensional view (`a(i,j) -= v`
is `a(i,j) += -v`). -/
def addAt2 (a : Nat → Nat → ℚ) (i j : Nat) (v : ℚ) : Nat → Nat → ℚ :=
  Function.update a i (Function.update (a i) j (a i j + v))

/-- The fixed-size work arrays of `execute` (lines 91-94) together with the scalar
`rhoIp`, as they stand inside one integration point. -/
@[ext]
structure IpWork where
  rhoIp : ℚ
  w_uIp : Nat → ℚ
  w_rho_uIp : Nat → ℚ
  w_Gpdx_Ip : Nat → ℚ
  w_dpdxIp : Nat → ℚ

/-- State of the work data after lines 116-123: `rhoIp = 0` and every one of the
`nDim_` entries of each work array set to zero. -/
def IpWork.zero : IpWork :=
  { rhoIp := 0, w_uIp := fun _ => 0, w_rho_uIp := fun _ => 0,
    w_Gpdx_Ip := fun _ => 0, w_dpdxIp := fun _ => 0 }

/-- First nodal loop (lines 125-128): the integration-point time scale. -/
def ContinuityAdvElemKernel.projTimeScaleIP (AT : AlgTraits)
    (v_shape_function : Nat → Nat → ℚ) (v_udiag : Nat → ℚ) (ip : Nat) : ℚ :=
  (List.range AT.nodesPerElement_).foldl
    (fun projTimeScaleIP ic =>
      let r := v_shape_function ip ic
      projTimeScaleIP + r / v_udiag ic)
    0

/-- Body of the inner `j` loop (lines 139-145), acting on the work arrays and
`lhsfac`. -/
def ContinuityAdvElemKernel.jBody (v_Gpdx v_velocity : Nat → Nat → ℚ)
    (v_dndx v_dndx_lhs : Nat → Nat → Nat → ℚ) (v_scs_areav : Nat → Nat → ℚ)
    (ip ic : Nat) (r nodalPressure nodalRho udiagInv projTimeScaleIP : ℚ)
    (s : IpWork × ℚ) (j : Nat) : IpWork × ℚ :=
  ({ rhoIp := s.1.rhoIp,
     w_Gpdx_Ip := addAt s.1.w_Gpdx_Ip j (r * v_Gpdx ic j * udiagInv),
     w_uIp := addAt s.1.w_uIp j (r * v_velocity ic j),
     w_rho_uIp := addAt s.1.w_rho_uIp j (r * nodalRho * v_velocity ic j),
     w_dpdxIp := addAt s.1.w_dpdxIp j (v_dndx ip ic j * nodalPressure) },
   s.2 + -v_dndx_lhs ip ic j * v_scs_areav ip j * projTimeScaleIP)

/-- Body of the second nodal loop (lines 130-149), acting on the work data and
on `lhs`. -/
def ContinuityAdvElemKernel.icBody (K : ContinuityAdvElemKernel) (AT : AlgTraits)
    (v_densityNp1 v_pressure v_udiag : Nat → ℚ) (v_velocity v_Gpdx : Nat → Nat → ℚ)
    (v_scs_areav : Nat → Nat → ℚ) (v_dndx v_dndx_lhs : Nat → Nat → Nat → ℚ)
    (v_shape_function : Nat → Nat → ℚ) (ip il ir : Nat) (projTimeScaleIP : ℚ)
    (s : IpWork × (Nat → Nat → ℚ)) (ic : Nat) : IpWork × (Nat → Nat → ℚ) :=
  let r := v_shape_function ip ic
  let nodalPressure := v_pressure ic
  let nodalRho := v_densityNp1 ic
  let udiagInv := 1 / v_udiag ic
  let w : IpWork := { s.1 with rhoIp := s.1.rhoIp + r * nodalRho }
  let t := (List.range AT.nDim_).foldl
    (ContinuityAdvElemKernel.jBody v_Gpdx v_velocity v_dndx v_dndx_lhs v_scs_areav
      ip ic r nodalPressure nodalRho udiagInv projTimeScaleIP)
    (w, 0)
  let lhsfac := t.2
  let lhs := addAt2 s.2 il ic (lhsfac / K.projTimeScale_)
  let lhs := addAt2 lhs ir ic (-(lhsfac / K.projTimeScale_))
  (t.1, lhs)

/-- Mass-flow assembly loop (lines 152-156). -/
def ContinuityAdvElemKernel.mdotLoop (K : ContinuityAdvElemKernel) (AT : AlgTraits)
    (v_scs_areav : Nat → Nat → ℚ) (ip : Nat) (projTimeScaleIP : ℚ) (w : IpWork) : ℚ :=
  (List.range AT.nDim_).foldl
    (fun mdot j =>
      mdot + (K.interpTogether_ * w.w_rho_uIp j + K.om_interpTogether_ * w.rhoIp * w.w_uIp j -
              (projTimeScaleIP * w.w_dpdxIp j - w.w_Gpdx_Ip j)) * v_scs_areav ip j)
    0

/-- Body of the integration-point loop (lines 112-161), acting on `(lhs, rhs)`.
Besides the two buffers it returns the local `mdot` of this integration point
(line 152-156), the value that lines 159-160 scatter. -/
def ContinuityAdvElemKernel.ipStep (K : ContinuityAdvElemKernel) (AT : AlgTraits)
    (scratchViews : ScratchViews) (s : (Nat → Nat → ℚ) × (Nat → ℚ)) (ip : Nat) :
    ((Nat → Nat → ℚ) × (Nat → ℚ)) × ℚ :=
  let v_densityNp1 := scratchViews.get_scratch_view_1D K.densityNp1_
  let v_pressure := scratchViews.get_scratch_view_1D K.pressure_
  let v_udiag := scratchViews.get_scratch_view_1D K.Udiag_
  let v_velocity := scratchViews.get_scratch_view_2D K.velocityRTM_
  let v_Gpdx := scratchViews.get_scratch_view_2D K.Gpdx_
  let meViews := scratchViews.get_me_views COORDS_TYPES.CURRENT_COORDINATES
  let v_scs_areav := meViews.scs_areav
  let v_dndx := K.v_dndx meViews
  let v_dndx_lhs := K.v_dndx_lhs meViews
  let v_shape_function := K.v_shape_function meViews
  let lrscv := K.meSCS_.adjacentNodes
  let il := lrscv (2 * ip)
  let ir := lrscv (2 * ip + 1)
  let projTimeScaleIP :=
    ContinuityAdvElemKernel.projTimeScaleIP AT v_shape_function v_udiag ip
  let t := (List.range AT.nodesPerElement_).foldl
    (K.icBody AT v_densityNp1 v_pressure v_udiag v_velocity v_Gpdx v_scs_areav
      v_dndx v_dndx_lhs v_shape_function ip il ir projTimeScaleIP)
    (IpWork.zero, s.1)
  let mdot := K.mdotLoop AT v_scs_areav ip projTimeScaleIP t.1
  let rhs := addAt s.2 il (-(mdot / K.projTimeScale_))
  let rhs := addAt rhs ir (mdot / K.projTimeScale_)
  ((t.2, rhs), mdot)

/-- The buffers `(lhs, rhs)` after one pass through the body of the
integration-point loop. -/
def ContinuityAdvElemKernel.ipBody (K : ContinuityAdvElemKernel) (AT : AlgTraits)
    (scratchViews : ScratchViews) (s : (Nat → Nat → ℚ) × (Nat → ℚ)) (ip : Nat) :
    (Nat → Nat → ℚ) × (Nat → ℚ) :=
  (K.ipStep AT scratchViews s ip).1

/-- The member `execute` (lines 83-162): the loop over the integration points,
returning the buffers `(lhs, rhs)` after the call. -/
def ContinuityAdvElemKernel.execute (K : ContinuityAdvElemKernel) (AT : AlgTraits)
    (lhs : Nat → Nat → ℚ) (rhs : Nat → ℚ) (scratchViews : ScratchViews) :
    (Nat → Nat → ℚ) × (Nat → ℚ) :=
  (List.range AT.numScsIp_).foldl (K.ipBody AT scratchViews) (lhs, rhs)

/-! ## Closed forms named in the specification -/

/-- Mass flow rate at an integration point in the form of the specification, with
a weight `cT` on the "together" form and a weight `cS` on the "split" form. -/
def massFlowBlend (cT cS : ℚ) (K : ContinuityAdvElemKernel) (AT : AlgTraits)
    (sv : ScratchViews) (ip : Nat) : ℚ :=
  let me := sv.get_me_views COORDS_TYPES.CURRENT_COORDINATES
  let N := K.v_shape_function me
  let rho := sv.get_scratch_view_1D K.densityNp1_
  let p := sv.get_scratch_view_1D K.pressure_
  let udiag := sv.get_scratch_view_1D K.Udiag_
  let u := sv.get_scratch_view_2D K.velocityRTM_
  let Gpdx := sv.get_scratch_view_2D K.Gpdx_
  let nodes := Finset.range AT.nodesPerElement_
  ∑ j in Finset.range AT.nDim_,
    (cT * (∑ ic in nodes, N ip ic * rho ic * u ic j)
      + cS * (∑ ic in nodes, N ip ic * rho ic) * (∑ ic in nodes, N ip ic * u ic j)
      - ((∑ ic in nodes, N ip ic / udiag ic) * (∑ ic in nodes, K.v_dndx me ip ic j * p ic)
          - (∑ ic in nodes, N ip ic * Gpdx ic j / udiag ic)))
    * me.scs_areav ip j

/-- Jacobian factor `f(ip, ic)` as the specification words it. -/
def lhsFactorFormula (K : ContinuityAdvElemKernel) (AT : AlgTraits)
    (sv : ScratchViews) (ip ic : Nat) : ℚ :=
  Neg.neg
      (∑ k in Finset.range AT.nodesPerElement_,
        K.v_shape_function (sv.get_me_views COORDS_TYPES.CURRENT_COORDINATES) ip k /
          sv.get_scratch_view_1D K.Udiag_ k)
    * ∑ j in Finset.range AT.nDim_,
        K.v_dndx_lhs (sv.get_me_views COORDS_TYPES.CURRENT_COORDINATES) ip ic j *
          (sv.get_me_views COORDS_TYPES.CURRENT_COORDINATES).scs_areav ip j

/-- Contribution of integration point `ip` to `lhs(a, b)`. -/
def ipLhsDelta (K : ContinuityAdvElemKernel) (AT : AlgTraits) (sv : ScratchViews)
    (ip a b : Nat) : ℚ :=
  (if a = K.meSCS_.adjacentNodes (2 * ip) ∧ b < AT.nodesPerElement_ then
      lhsFactorFormula K AT sv ip b / K.projTimeScale_ else 0)
  + (if a = K.meSCS_.adjacentNodes (2 * ip + 1) ∧ b < AT.nodesPerElement_ then
      -(lhsFactorFormula K AT sv ip b / K.projTimeScale_) else 0)

/-- Contribution of integration point `ip` to `rhs(i)`. -/
def ipRhsDelta (K : ContinuityAdvElemKernel) (AT : AlgTraits) (sv : ScratchViews)
    (ip i : Nat) : ℚ :=
  (if i = K.meSCS_.adjacentNodes (2 * ip) then
      -(massFlowBlend K.interpTogether_ K.om_interpTogether_ K AT sv ip
          / K.projTimeScale_) else 0)
  + (if i = K.meSCS_.adjacentNodes (2 * ip + 1) then
      massFlowBlend K.interpTogether_ K.om_interpTogether_ K AT sv ip
          / K.projTimeScale_ else 0)


/-- The scratch staging `sv` with the reference-element bundle of the current
coordinates replaced by `me`. -/
def ScratchViews.withMeViews (sv : ScratchViews) (me : MasterElementViews) : ScratchViews :=
  { sv with get_me_views := fun c =>
      if c = COORDS_TYPES.CURRENT_COORDINATES then me else sv.get_me_views c }

/-- The bundle `me` with the gradient operator that the residual does not select
(line 106) replaced by `X`. -/
def replaceUnselectedResidualOp (K : ContinuityAdvElemKernel) (me : MasterElementViews)
    (X : Nat → Nat → Nat → ℚ) : MasterElementViews :=
  if K.shiftPoisson_ then { me with dndx := X } else { me with dndx_shifted := X }

/-- The bundle `me` with the gradient operator that the Jacobian does not select
(line 107) replaced by `X`. -/
def replaceUnselectedJacobianOp (K : ContinuityAdvElemKernel) (me : MasterElementViews)
    (X : Nat → Nat → Nat → ℚ) : MasterElementViews :=
  if K.shiftPoisson_ || K.reducedSensitivities_ then { me with dndx := X }
  else { me with dndx_shifted := X }

/-! ## What `execute` reads, and what the constructor declared -/

/-- One access of `execute` to the scratch staging: a gathered nodal field read
through `get_scratch_view_1D` (a scalar per node) or `get_scratch_view_2D` (`nDim_`
scalars per node), or one reference-element output of `get_me_views(cType)`. -/
inductive ScratchRead where
  | view1D (field : Nat)
  | view2D (field : Nat)
  | meView (cType : COORDS_TYPES) (data : ELEM_DATA_NEEDED)
  deriving DecidableEq

/-- The accesses of `execute` to the scratch staging, in source order (lines 96-108):
`scs_areav` is the output `SCS_AREAV`, `dndx` is `SCS_GRAD_OP`, `dndx_shifted` is
`SCS_SHIFTED_GRAD_OP`, `scs_shape_fcn` is `SCS_SHAPE_FCN` and `scs_shifted_shape_fcn`
is `SCS_SHIFTED_SHAPE_FCN`. -/
def ContinuityAdvElemKernel.executeReads (K : ContinuityAdvElemKernel) : List ScratchRead :=
  [ ScratchRead.view1D K.densityNp1_,
    ScratchRead.view1D K.pressure_,
    ScratchRead.view1D K.Udiag_,
    ScratchRead.view2D K.velocityRTM_,
    ScratchRead.view2D K.Gpdx_,
    ScratchRead.meView COORDS_TYPES.CURRENT_COORDINATES ELEM_DATA_NEEDED.SCS_AREAV,
    ScratchRead.meView COORDS_TYPES.CURRENT_COORDINATES
      (if K.shiftPoisson_ then ELEM_DATA_NEEDED.SCS_SHIFTED_GRAD_OP
        else ELEM_DATA_NEEDED.SCS_GRAD_OP),
    ScratchRead.meView COORDS_TYPES.CURRENT_COORDINATES
      (if K.shiftPoisson_ || K.reducedSensitivities_ then
        ELEM_DATA_NEEDED.SCS_SHIFTED_GRAD_OP else ELEM_DATA_NEEDED.SCS_GRAD_OP),
    ScratchRead.meView COORDS_TYPES.CURRENT_COORDINATES
      (if K.shiftMdot_ then ELEM_DATA_NEEDED.SCS_SHIFTED_SHAPE_FCN
        else ELEM_DATA_NEEDED.SCS_SHAPE_FCN) ]

/-- Whether the declaration `d` covers the access `r`: a nodal field read as a
scalar is registered with width 1, one read as a vector with width `nDim_`, and a
reference-element output is registered for its coordinate set. -/
def ElemDataRequests.declares (AT : AlgTraits) (d : ElemDataRequests) : ScratchRead → Prop
  | ScratchRead.view1D field => (field, 1) ∈ d.fields
  | ScratchRead.view2D field => (field, AT.nDim_) ∈ d.fields
  | ScratchRead.meView cType data => (data, cType) ∈ d.meCalls

instance ElemDataRequests.decidableDeclares (AT : AlgTraits) (d : ElemDataRequests)
    (r : ScratchRead) : Decidable (d.declares AT r) :=
  match r with
  | ScratchRead.view1D field => inferInstanceAs (Decidable ((field, 1) ∈ d.fields))
  | ScratchRead.view2D field => inferInstanceAs (Decidable ((field, AT.nDim_) ∈ d.fields))
  | ScratchRead.meView cType data => inferInstanceAs (Decidable ((data, cType) ∈ d.meCalls))

/-- The two bundles hold the same values of the output `data` at every index
within the topology bounds. -/
def MasterElementViews.agreeOn (AT : AlgTraits) (data : ELEM_DATA_NEEDED)
    (m m2 : MasterElementViews) : Prop :=
  match data with
  | ELEM_DATA_NEEDED.SCS_AREAV =>
      ∀ ip, ip < AT.numScsIp_ → ∀ j, j < AT.nDim_ → m.scs_areav ip j = m2.scs_areav ip j
  | ELEM_DATA_NEEDED.SCS_GRAD_OP =>
      ∀ ip, ip < AT.numScsIp_ → ∀ ic, ic < AT.nodesPerElement_ → ∀ j, j < AT.nDim_ →
        m.dndx ip ic j = m2.dndx ip ic j
  | ELEM_DATA_NEEDED.SCS_SHIFTED_GRAD_OP =>
      ∀ ip, ip < AT.numScsIp_ → ∀ ic, ic < AT.nodesPerElement_ → ∀ j, j < AT.nDim_ →
        m.dndx_shifted ip ic j = m2.dndx_shifted ip ic j
  | ELEM_DATA_NEEDED.SCS_SHAPE_FCN =>
      ∀ ip, ip < AT.numScsIp_ → ∀ ic, ic < AT.nodesPerElement_ →
        m.scs_shape_fcn ip ic = m2.scs_shape_fcn ip ic
  | ELEM_DATA_NEEDED.SCS_SHIFTED_SHAPE_FCN =>
      ∀ ip, ip < AT.numScsIp_ → ∀ ic, ic < AT.nodesPerElement_ →
        m.scs_shifted_shape_fcn ip ic = m2.scs_shifted_shape_fcn ip ic

/-- The two scratch stagings hold the same values of everything `d` declares:
every registered nodal field at its registered width on the nodes of the element,
and every registered reference-element output.  Whatever `d` does not declare may
differ. -/
def ScratchViews.agreeOnDeclared (AT : AlgTraits) (d : ElemDataRequests)
    (sv sv2 : ScratchViews) : Prop :=
  (∀ field, (field, 1) ∈ d.fields → ∀ ic, ic < AT.nodesPerElement_ →
      sv.get_scratch_view_1D field ic = sv2.get_scratch_view_1D field ic)
  ∧ (∀ field, (field, AT.nDim_) ∈ d.fields → ∀ ic, ic < AT.nodesPerElement_ →
      ∀ j, j < AT.nDim_ →
      sv.get_scratch_view_2D field ic j = sv2.get_scratch_view_2D field ic j)
  ∧ (∀ data cType, (data, cType) ∈ d.meCalls →
      MasterElementViews.agreeOn AT data (sv.get_me_views cType) (sv2.get_me_views cType))

/-! ## The SST effective-diffusivity algorithm -/

/-- A node selector (`stk::mesh::Selector` at node rank): the predicate it
evaluates on a node index. -/
structure Selector where
  selects : Nat → Bool

/-- Selector of a part. -/
def Selector.ofPart (p : Part) : Selector :=
  { selects := p.containsNode }

/-- Union of selectors, `a | b`. -/
def Selector.union (a b : Selector) : Selector :=
  { selects := fun n => a.selects n || b.selects n }

/-- Intersection of selectors, `a & b`. -/
def Selector.inter (a b : Selector) : Selector :=
  { selects := fun n => a.selects n && b.selects n }

/-- A nodal scalar field (`ScalarFieldType`): its ordinal in the meta data and the
nodes that carry it. -/
structure ScalarFieldType where
  mesh_meta_data_ordinal : Nat
  definedOn : Nat → Bool

/-- The selector `stk::mesh::selectField(f)`: the nodes that carry `f`. -/
def selectField (f : ScalarFieldType) : Selector :=
  { selects := f.definedOn }

/-- The device mesh (`ngp::Mesh`) at node rank: nodes are indexed `0 .. numNodes-1`
(owned, shared and ghosted ones alike). -/
structure NgpMesh where
  numNodes : Nat

/-- The part of `Realm` the algorithm consults. -/
structure Realm where
  meta_data : MetaData
  ngp_mesh : NgpMesh

/-- Device-side field storage (`ngp::FieldManager` with its `ngp::Field`s): the value
of component 0 of every field at every mesh index, and the modified-on-device mark
of every field. -/
structure NgpFieldManager where
  values : Nat → Nat → ℚ
  modifiedOnDevice : Nat → Bool

/-- Read access `field.get(meshIdx, 0)`. -/
def NgpFieldManager.get (fm : NgpFieldManager) (field meshIdx : Nat) : ℚ :=
  fm.values field meshIdx

/-- Write access `field.get(meshIdx, 0) = v`. -/
def NgpFieldManager.set (fm : NgpFieldManager) (field meshIdx : Nat) (v : ℚ) :
    NgpFieldManager :=
  { fm with values :=
      Function.update fm.values field (Function.update (fm.values field) meshIdx v) }

/-- Modelled from the spec: `ngp::Field::modify_on_device` (the device field proxy
is declared outside `src/`): it records that the field was modified on the
device. -/
def NgpFieldManager.modify_on_device (fm : NgpFieldManager) (field : Nat) :
    NgpFieldManager :=
  { fm with modifiedOnDevice := Function.update fm.modifiedOnDevice field true }

/-- The nodes of `mesh` picked by `sel`, in index order. -/
def selectedEntities (mesh : NgpMesh) (sel : Selector) : List Nat :=
  (List.range mesh.numNodes).filter sel.selects

/-- Modelled from the spec: `nalu_ngp::run_entity_algorithm` at node rank
(declared outside `src/`): the functor runs once on every node the selector picks.
The data-parallel dispatch is rendered as a fold in index order. -/
def run_entity_algorithm {σ : Type} (mesh : NgpMesh) (sel : Selector)
    (functor : σ → Nat → σ) (s : σ) : σ :=
  (selectedEntities mesh sel).foldl functor s

/-- Members of `EffSSTDiffFluxCoeffAlg` (with `realm_` and `partVec_` of its base
`Algorithm`). -/
structure EffSSTDiffFluxCoeffAlg where
  realm_ : Realm
  partVec_ : List Part
  viscField_ : ScalarFieldType
  visc_ : Nat
  tvisc_ : Nat
  evisc_ : Nat
  fOneBlend_ : Nat
  sigmaOne_ : ℚ
  sigmaTwo_ : ℚ

/-- The constructor (lines 19-35). -/
def EffSSTDiffFluxCoeffAlg.construct (realm : Realm) (part : Part)
    (visc tvisc evisc : ScalarFieldType) (sigmaOne sigmaTwo : ℚ) :
    EffSSTDiffFluxCoeffAlg :=
  { realm_ := realm,
    partVec_ := [part],
    viscField_ := visc,
    visc_ := visc.mesh_meta_data_ordinal,
    tvisc_ := tvisc.mesh_meta_data_ordinal,
    evisc_ := evisc.mesh_meta_data_ordinal,
    fOneBlend_ := realm.meta_data.get_field_ordinal "sst_f_one_blending",
    sigmaOne_ := sigmaOne,
    sigmaTwo_ := sigmaTwo }

/-- The selector built by `execute` (lines 44-46). -/
def EffSSTDiffFluxCoeffAlg.sel (A : EffSSTDiffFluxCoeffAlg) : Selector :=
  let meta := A.realm_.meta_data
  Selector.inter
    (Selector.union (Selector.ofPart meta.locally_owned_part)
      (Selector.ofPart meta.globally_shared_part))
    (selectField A.viscField_)

/-- The functor of `execute` (lines 61-64) at one node. -/
def EffSSTDiffFluxCoeffAlg.nodeBody (visc tvisc evisc fOneBlend : Nat)
    (sigmaOne sigmaTwo : ℚ) (fm : NgpFieldManager) (meshIdx : Nat) : NgpFieldManager :=
  let blendedConstant :=
    fm.get fOneBlend meshIdx * sigmaOne + (1 - fm.get fOneBlend meshIdx) * sigmaTwo
  fm.set evisc meshIdx (fm.get visc meshIdx + fm.get tvisc meshIdx * blendedConstant)

/-- The member `execute` (lines 37-68), acting on the device field storage. -/
def EffSSTDiffFluxCoeffAlg.execute (A : EffSSTDiffFluxCoeffAlg)
    (fieldMgr : NgpFieldManager) : NgpFieldManager :=
  let sel := A.sel
  let ngpMesh := A.realm_.ngp_mesh
  let visc := A.visc_
  let tvisc := A.tvisc_
  let evisc := A.evisc_
  let fOneBlend := A.fOneBlend_
  let sigmaOne := A.sigmaOne_
  let sigmaTwo := A.sigmaTwo_
  let fm := run_entity_algorithm ngpMesh sel
    (EffSSTDiffFluxCoeffAlg.nodeBody visc tvisc evisc fOneBlend sigmaOne sigmaTwo)
    fieldMgr
  fm.modify_on_device evisc

/-- The nodes on which `execute` runs its functor, that is, the nodes whose
effective-diffusivity value it writes. -/
def EffSSTDiffFluxCoeffAlg.writtenNodes (A : EffSSTDiffFluxCoeffAlg) : List Nat :=
  selectedEntities A.realm_.ngp_mesh A.sel

/-- The value the blend law assigns at node `n`, read from the storage `fm`. -/
def blendLaw (visc tvisc fOneBlend : Nat) (sigmaOne sigmaTwo : ℚ) (fm : NgpFieldManager)
    (n : Nat) : ℚ :=
  fm.get visc n + fm.get tvisc n *
    (fm.get fOneBlend n * sigmaOne + (1 - fm.get fOneBlend n) * sigmaTwo)

/-! ## A concrete element used to exercise the statements

Three nodes, two dimensions, three integration points, the adjacent-node table
of a triangle. -/

/-- Topology constants of the example element. -/
def exampleTraits : AlgTraits :=
  { nDim_ := 2, nodesPerElement_ := 3, numScsIp_ := 3 }

/-- Adjacent-node table `0 1 1 2 0 2` of the example element. -/
def exampleMasterElement : MasterElement :=
  { adjacentNodes := fun k => [0, 1, 1, 2, 0, 2].getD k 0 }

/-- Reference-element outputs of the example element. -/
def exampleMeViews : MasterElementViews :=
  { scs_areav := fun ip j => (ip : ℚ) + 2 * j - 1,
    dndx := fun ip ic j => (ip : ℚ) - ic + j,
    dndx_shifted := fun ip ic j => (ip : ℚ) + ic - 2 * j,
    scs_shape_fcn := fun ip ic => if ic = ip then 1 / 2 else 1 / 4,
    scs_shifted_shape_fcn := fun ip ic => if ic = ip then 1 else 0 }

/-- Gathered nodal data of the example element. -/
def exampleScratch : ScratchViews :=
  { get_scratch_view_1D := fun field ic => (field : ℚ) + ic + 1,
    get_scratch_view_2D := fun field ic j => (field : ℚ) * ic - j,
    get_me_views := fun _ => exampleMeViews }

/-- Solver options of the example: shifted mass flow off, shifted pressure gradient
off, reduced sensitivities on, blend factor one third. -/
def exampleOptions : SolutionOptions :=
  { does_mesh_move := false, cvfemShiftMdot_ := false,
    get_shifted_grad_op := fun _ => false, cvfemReducedSensPoisson_ := true,
    get_mdot_interp := 1 / 3, get_coordinates_name := "coordinates" }

/-- Field ordinals of the example. -/
def exampleOrdinal (name : String) : Nat :=
  if name = "velocity" then 0
  else if name = "velocity_rtm" then 1
  else if name = "dpdx" then 2
  else if name = "pressure" then 3
  else if name = "density" then 4
  else if name = "coordinates" then 5
  else if name = "momentum_diag" then 6
  else if name = "viscosity" then 7
  else if name = "turbulent_viscosity" then 8
  else if name = "effective_viscosity" then 9
  else if name = "sst_f_one_blending" then 10
  else 11

/-- Meta data of the example: nodes 0 and 3 are locally owned, nodes 1 and 4 are
shared. -/
def exampleMetaData : MetaData :=
  { get_field_ordinal := exampleOrdinal,
    get_field_ordinal_state := fun name _ => exampleOrdinal name,
    locally_owned_part := { containsNode := fun n => decide (n = 0 ∨ n = 3) },
    globally_shared_part := { containsNode := fun n => decide (n = 1 ∨ n = 4) } }

/-- Master-element repository of the example. -/
def exampleRepo : MasterElementRepo :=
  { get_surface_master_element := fun _ => exampleMasterElement }

/-- Empty data-requirement declaration. -/
def emptyRequests : ElemDataRequests :=
  { cvfem_surface_me := none, coordsFields := [], fields := [], meCalls := [] }

/-- Time integrator of the example: `dt = 1/2`, `gamma1 = 3/2`. -/
def exampleTimeIntegrator : TimeIntegrator :=
  { get_time_step := 1 / 2, get_gamma1 := 3 / 2 }

/-- The example kernel: constructed from the example options, then set up. -/
def exampleKernel : ContinuityAdvElemKernel :=
  ContinuityAdvElemKernel.constructed exampleTraits exampleRepo 1 exampleMetaData
    exampleOptions emptyRequests exampleTimeIntegrator

/-- The example options with the blend factor set to one ("together" form only). -/
def exampleOptionsTogether : SolutionOptions :=
  { exampleOptions with get_mdot_interp := 1 }

/-- The example options with the blend factor set to zero ("split" form only). -/
def exampleOptionsSplit : SolutionOptions :=
  { exampleOptions with get_mdot_interp := 0 }

/-- Initial residual buffer of the example. -/
def exampleRhs : Nat → ℚ := fun i => (i : ℚ) + 5

/-- Initial Jacobian buffer of the example. -/
def exampleLhs : Nat → Nat → ℚ := fun a b => (a : ℚ) - 2 * b

/-! ## A concrete mesh used to exercise the statements

Five nodes: nodes 0 and 3 are locally owned, nodes 1 and 4 are shared, node 2 is
ghosted.  The molecular viscosity lives on nodes 0, 2, 3 and 4; the turbulent and
the effective viscosity live on all five nodes. -/

/-- The example realm. -/
def exampleRealm : Realm :=
  { meta_data := exampleMetaData, ngp_mesh := { numNodes := 5 } }

/-- Molecular viscosity of the example: ordinal 7, on nodes 0, 2, 3 and 4. -/
def exampleVisc : ScalarFieldType :=
  { mesh_meta_data_ordinal := 7,
    definedOn := fun n => decide (n = 0 ∨ n = 2 ∨ n = 3 ∨ n = 4) }

/-- Turbulent viscosity of the example: ordinal 8, on all nodes. -/
def exampleTvisc : ScalarFieldType :=
  { mesh_meta_data_ordinal := 8, definedOn := fun n => decide (n < 5) }

/-- Effective viscosity of the example: ordinal 9, on all nodes. -/
def exampleEvisc : ScalarFieldType :=
  { mesh_meta_data_ordinal := 9, definedOn := fun n => decide (n < 5) }

/-- The example algorithm with `sigmaOne = 2`, `sigmaTwo = 3`. -/
def exampleAlg : EffSSTDiffFluxCoeffAlg :=
  EffSSTDiffFluxCoeffAlg.construct exampleRealm { containsNode := fun _ => true }
    exampleVisc exampleTvisc exampleEvisc 2 3

/-- Device storage of the example: viscosity `1`, turbulent viscosity `10`, the
blending field (ordinal 10) equal to `0`, `1`, `1`, `1/2`, `1` on nodes 0 to 4,
and every other value (the effective viscosity among them) equal to `7`. -/
def exampleFields : NgpFieldManager :=
  { values := fun field n =>
      if field = 7 then 1
      else if field = 8 then 10
      else if field = 10 then (if n = 0 then 0 else if n = 3 then 1 / 2 else 1)
      else 7,
    modifiedOnDevice := fun _ => false }

/-- The example scratch staging with data changed that the example kernel did not
declare: the scalar view of every field other than density (4), pressure (3) and
momentum_diag (6), the vector view of every field other than velocity (0) and
dpdx (2), the shifted shape function, and the whole bundle of the model
coordinates. -/
def exampleScratchAltered : ScratchViews :=
  { get_scratch_view_1D := fun field ic =>
      if field = 3 ∨ field = 4 ∨ field = 6 then exampleScratch.get_scratch_view_1D field ic
      else 100,
    get_scratch_view_2D := fun field ic j =>
      if field = 0 ∨ field = 2 then exampleScratch.get_scratch_view_2D field ic j
      else 200,
    get_me_views := fun c =>
      if c = COORDS_TYPES.CURRENT_COORDINATES then
        { exampleMeViews with scs_shifted_shape_fcn := fun _ _ => 300 }
      else
        { scs_areav := fun _ _ => 400, dndx := fun _ _ _ => 400,
          dndx_shifted := fun _ _ _ => 400, scs_shape_fcn := fun _ _ => 400,
          scs_shifted_shape_fcn := fun _ _ => 400 } }

/-! ## Device freshness -/

/-- Modelled from the spec: `ngp::Field::need_sync_to_host` (the device field proxy
is declared outside `src/`): a host synchronization is owed for a field, that is,
the device copy is the fresh one and the host copy is stale, exactly while the
field carries the modified-on-device mark. -/
def NgpFieldManager.need_sync_to_host (fm : NgpFieldManager) (field : Nat) : Bool :=
  fm.modifiedOnDevice field

/-- Modelled from the spec: `ngp::Field::sync_to_host` (declared outside `src/`):
the explicit synchronization, after which the host copy is fresh again and the
modified-on-device mark is cleared. -/
def NgpFieldManager.sync_to_host (fm : NgpFieldManager) (field : Nat) : NgpFieldManager :=
  { fm with modifiedOnDevice := Function.update fm.modifiedOnDevice field false }

/-- The storage after the nodal writes of `execute` (lines 59-64), before line 67
marks the field. -/
def EffSSTDiffFluxCoeffAlg.afterNodalWrites (A : EffSSTDiffFluxCoeffAlg)
    (fieldMgr : NgpFieldManager) : NgpFieldManager :=
  run_entity_algorithm A.realm_.ngp_mesh A.sel
    (EffSSTDiffFluxCoeffAlg.nodeBody A.visc_ A.tvisc_ A.evisc_ A.fOneBlend_ A.sigmaOne_
      A.sigmaTwo_)
    fieldMgr

/-- The example mesh with every node ghosted: the selector of `execute` picks no
node. -/
def exampleRealmGhosted : Realm :=
  { meta_data :=
      { exampleMetaData with
        locally_owned_part := { containsNode := fun _ => false },
        globally_shared_part := { containsNode := fun _ => false } },
    ngp_mesh := { numNodes := 5 } }

/-- The example options with the reduced-sensitivity flag cleared: residual and
Jacobian use the same (standard) gradient operator. -/
def exampleOptionsStandard : SolutionOptions :=
  { exampleOptions with cvfemReducedSensPoisson_ := false }

/-- The example scratch staging with other nodal pressures (field 3) and all else
equal. -/
def exampleScratchPressure : ScratchViews :=
  { exampleScratch with
    get_scratch_view_1D := fun field ic =>
      if field = 3 then 2 * (ic : ℚ) * ic - 7 else exampleScratch.get_scratch_view_1D field ic }

/-- A scratch staging with uniform density whose shape-function weights do not sum
to one: every scalar nodal value is `2`, the velocity is that of the example, and
every standard shape-function weight is `1/2` (three nodes, sum `3/2`). -/
def exampleScratchNoUnity : ScratchViews :=
  { get_scratch_view_1D := fun _ _ => 2,
    get_scratch_view_2D := exampleScratch.get_scratch_view_2D,
    get_me_views := fun _ => { exampleMeViews with scs_shape_fcn := fun _ _ => 1 / 2 } }

/-! ## `execute` with every division and every access inspected

The same statements as in `ContinuityAdvElemKernel.execute`, in the same order,
with each division reporting a zero divisor and each indexed access reporting an
index outside the extent of its dimension.  Extents: a scalar nodal view has
`nodesPerElement_` entries and a vector one `nodesPerElement_ x nDim_`; the area
vectors are `numScsIp_ x nDim_`, the gradient operators
`numScsIp_ x nodesPerElement_ x nDim_`, the shape functions
`numScsIp_ x nodesPerElement_`; `lhs` is `nodesPerElement_ x nodesPerElement_` and
`rhs` has `nodesPerElement_` entries; the work arrays have `nDim_` entries; the
adjacent-node table has `2 * numScsIp_` entries. -/

/-- What an inspected operation can report. -/
inductive Fault where
  | divisionByZero
  | outOfRange
  deriving DecidableEq

/-- The division `a / b`, reporting a zero divisor. -/
def checkedDiv (a b : ℚ) : Except Fault ℚ :=
  if b = 0 then Except.error Fault.divisionByZero else Except.ok (a / b)

/-- The read `t[k]` of an integer table with `n` entries. -/
def readIndex (n : Nat) (t : Nat → Nat) (k : Nat) : Except Fault Nat :=
  if k < n then Except.ok (t k) else Except.error Fault.outOfRange

/-- The read `v(i)` of a view with `n` entries. -/
def read1 (n : Nat) (v : Nat → ℚ) (i : Nat) : Except Fault ℚ :=
  if i < n then Except.ok (v i) else Except.error Fault.outOfRange

/-- The read `v(i,j)` of a view of extent `n1 x n2`. -/
def read2 (n1 n2 : Nat) (v : Nat → Nat → ℚ) (i j : Nat) : Except Fault ℚ :=
  if i < n1 ∧ j < n2 then Except.ok (v i j) else Except.error Fault.outOfRange

/-- The read `v(i,j,k)` of a view of extent `n1 x n2 x n3`. -/
def read3 (n1 n2 n3 : Nat) (v : Nat → Nat → Nat → ℚ) (i j k : Nat) : Except Fault ℚ :=
  if i < n1 ∧ j < n2 ∧ k < n3 then Except.ok (v i j k) else Except.error Fault.outOfRange

/-- The compound assignment `a[i] += v` on an array with `n` entries. -/
def addAtChecked (n : Nat) (a : Nat → ℚ) (i : Nat) (v : ℚ) : Except Fault (Nat → ℚ) :=
  if i < n then Except.ok (addAt a i v) else Except.error Fault.outOfRange

/-- The compound assignment `a(i,j) += v` on a view of extent `n1 x n2`. -/
def addAt2Checked (n1 n2 : Nat) (a : Nat → Nat → ℚ) (i j : Nat) (v : ℚ) :
    Except Fault (Nat → Nat → ℚ) :=
  if i < n1 ∧ j < n2 then Except.ok (addAt2 a i j v) else Except.error Fault.outOfRange

/-- First nodal loop (lines 125-128), inspected. -/
def ContinuityAdvElemKernel.projTimeScaleIPChecked (AT : AlgTraits)
    (v_shape_function : Nat → Nat → ℚ) (v_udiag : Nat → ℚ) (ip : Nat) : Except Fault ℚ :=
  (List.range AT.nodesPerElement_).foldlM
    (fun projTimeScaleIP ic => do
      let r ← read2 AT.numScsIp_ AT.nodesPerElement_ v_shape_function ip ic
      let udiag ← read1 AT.nodesPerElement_ v_udiag ic
      let q ← checkedDiv r udiag
      pure (projTimeScaleIP + q))
    0

/-- Body of the inner `j` loop (lines 139-145), inspected. -/
def ContinuityAdvElemKernel.jBodyChecked (AT : AlgTraits) (v_Gpdx v_velocity : Nat → Nat → ℚ)
    (v_dndx v_dndx_lhs : Nat → Nat → Nat → ℚ) (v_scs_areav : Nat → Nat → ℚ)
    (ip ic : Nat) (r nodalPressure nodalRho udiagInv projTimeScaleIP : ℚ)
    (s : IpWork × ℚ) (j : Nat) : Except Fault (IpWork × ℚ) := do
  let gpdx ← read2 AT.nodesPerElement_ AT.nDim_ v_Gpdx ic j
  let w_Gpdx_Ip ← addAtChecked AT.nDim_ s.1.w_Gpdx_Ip j (r * gpdx * udiagInv)
  let vel ← read2 AT.nodesPerElement_ AT.nDim_ v_velocity ic j
  let w_uIp ← addAtChecked AT.nDim_ s.1.w_uIp j (r * vel)
  let vel2 ← read2 AT.nodesPerElement_ AT.nDim_ v_velocity ic j
  let w_rho_uIp ← addAtChecked AT.nDim_ s.1.w_rho_uIp j (r * nodalRho * vel2)
  let dndx ← read3 AT.numScsIp_ AT.nodesPerElement_ AT.nDim_ v_dndx ip ic j
  let w_dpdxIp ← addAtChecked AT.nDim_ s.1.w_dpdxIp j (dndx * nodalPressure)
  let dndx_lhs ← read3 AT.numScsIp_ AT.nodesPerElement_ AT.nDim_ v_dndx_lhs ip ic j
  let areav ← read2 AT.numScsIp_ AT.nDim_ v_scs_areav ip j
  pure ({ rhoIp := s.1.rhoIp, w_Gpdx_Ip := w_Gpdx_Ip, w_uIp := w_uIp,
          w_rho_uIp := w_rho_uIp, w_dpdxIp := w_dpdxIp },
        s.2 + -dndx_lhs * areav * projTimeScaleIP)

/-- Body of the second nodal loop (lines 130-149), inspected. -/
def ContinuityAdvElemKernel.icBodyChecked (K : ContinuityAdvElemKernel) (AT : AlgTraits)
    (v_densityNp1 v_pressure v_udiag : Nat → ℚ) (v_velocity v_Gpdx : Nat → Nat → ℚ)
    (v_scs_areav : Nat → Nat → ℚ) (v_dndx v_dndx_lhs : Nat → Nat → Nat → ℚ)
    (v_shape_function : Nat → Nat → ℚ) (ip il ir : Nat) (projTimeScaleIP : ℚ)
    (s : IpWork × (Nat → Nat → ℚ)) (ic : Nat) : Except Fault (IpWork × (Nat → Nat → ℚ)) := do
  let r ← read2 AT.numScsIp_ AT.nodesPerElement_ v_shape_function ip ic
  let nodalPressure ← read1 AT.nodesPerElement_ v_pressure ic
  let nodalRho ← read1 AT.nodesPerElement_ v_densityNp1 ic
  let udiag ← read1 AT.nodesPerElement_ v_udiag ic
  let udiagInv ← checkedDiv 1 udiag
  let w : IpWork := { s.1 with rhoIp := s.1.rhoIp + r * nodalRho }
  let t ← (List.range AT.nDim_).foldlM
    (ContinuityAdvElemKernel.jBodyChecked AT v_Gpdx v_velocity v_dndx v_dndx_lhs
      v_scs_areav ip ic r nodalPressure nodalRho udiagInv projTimeScaleIP)
    (w, 0)
  let lhsfac := t.2
  let q ← checkedDiv lhsfac K.projTimeScale_
  let lhs ← addAt2Checked AT.nodesPerElement_ AT.nodesPerElement_ s.2 il ic q
  let q2 ← checkedDiv lhsfac K.projTimeScale_
  let lhs ← addAt2Checked AT.nodesPerElement_ AT.nodesPerElement_ lhs ir ic (-q2)
  pure (t.1, lhs)

/-- Mass-flow assembly loop (lines 152-156), inspected. -/
def ContinuityAdvElemKernel.mdotLoopChecked (K : ContinuityAdvElemKernel) (AT : AlgTraits)
    (v_scs_areav : Nat → Nat → ℚ) (ip : Nat) (projTimeScaleIP : ℚ) (w : IpWork) :
    Except Fault ℚ :=
  (List.range AT.nDim_).foldlM
    (fun mdot j => do
      let rho_u ← read1 AT.nDim_ w.w_rho_uIp j
      let u ← read1 AT.nDim_ w.w_uIp j
      let dpdx ← read1 AT.nDim_ w.w_dpdxIp j
      let gpdx ← read1 AT.nDim_ w.w_Gpdx_Ip j
      let areav ← read2 AT.numScsIp_ AT.nDim_ v_scs_areav ip j
      pure (mdot + (K.interpTogether_ * rho_u + K.om_interpTogether_ * w.rhoIp * u -
              (projTimeScaleIP * dpdx - gpdx)) * areav))
    0

/-- Body of the integration-point loop (lines 112-161), inspected.  Lines 116-123
write the work arrays at `j < nDim_` only, by the loop bound, and are rendered by
`IpWork.zero` as in `ipStep`. -/
def ContinuityAdvElemKernel.ipStepChecked (K : ContinuityAdvElemKernel) (AT : AlgTraits)
    (scratchViews : ScratchViews) (s : (Nat → Nat → ℚ) × (Nat → ℚ)) (ip : Nat) :
    Except Fault (((Nat → Nat → ℚ) × (Nat → ℚ)) × ℚ) := do
  let v_densityNp1 := scratchViews.get_scratch_view_1D K.densityNp1_
  let v_pressure := scratchViews.get_scratch_view_1D K.pressure_
  let v_udiag := scratchViews.get_scratch_view_1D K.Udiag_
  let v_velocity := scratchViews.get_scratch_view_2D K.velocityRTM_
  let v_Gpdx := scratchViews.get_scratch_view_2D K.Gpdx_
  let meViews := scratchViews.get_me_views COORDS_TYPES.CURRENT_COORDINATES
  let v_scs_areav := meViews.scs_areav
  let v_dndx := K.v_dndx meViews
  let v_dndx_lhs := K.v_dndx_lhs meViews
  let v_shape_function := K.v_shape_function meViews
  let lrscv := K.meSCS_.adjacentNodes
  let il ← readIndex (2 * AT.numScsIp_) lrscv (2 * ip)
  let ir ← readIndex (2 * AT.numScsIp_) lrscv (2 * ip + 1)
  let projTimeScaleIP ←
    ContinuityAdvElemKernel.projTimeScaleIPChecked AT v_shape_function v_udiag ip
  let t ← (List.range AT.nodesPerElement_).foldlM
    (K.icBodyChecked AT v_densityNp1 v_pressure v_udiag v_velocity v_Gpdx v_scs_areav
      v_dndx v_dndx_lhs v_shape_function ip il ir projTimeScaleIP)
    (IpWork.zero, s.1)
  let mdot ← K.mdotLoopChecked AT v_scs_areav ip projTimeScaleIP t.1
  let q ← checkedDiv mdot K.projTimeScale_
  let rhs ← addAtChecked AT.nodesPerElement_ s.2 il (-q)
  let q2 ← checkedDiv mdot K.projTimeScale_
  let rhs ← addAtChecked AT.nodesPerElement_ rhs ir q2
  pure ((t.2, rhs), mdot)

/-- The member `execute` (lines 83-162), inspected: the buffers `(lhs, rhs)` after
the call, or the first fault met. -/
def ContinuityAdvElemKernel.executeChecked (K : ContinuityAdvElemKernel) (AT : AlgTraits)
    (lhs : Nat → Nat → ℚ) (rhs : Nat → ℚ) (scratchViews : ScratchViews) :
    Except Fault ((Nat → Nat → ℚ) × (Nat → ℚ)) :=
  (List.range AT.numScsIp_).foldlM
    (fun s ip => do
      let r ← K.ipStepChecked AT scratchViews s ip
      pure r.1)
    (lhs, rhs)

/-- The example scratch staging with a zero `momentum_diag` (field 6) at node 1 and
all else equal. -/
def exampleScratchZeroDiag : ScratchViews :=
  { exampleScratch with
    get_scratch_view_1D := fun field ic =>
      if field = 6 ∧ ic = 1 then 0 else exampleScratch.get_scratch_view_1D field ic }

/-! ## Binary64 arithmetic

`DoubleType` values are IEEE 754 binary64 numbers.  Every finite one is a rational,
so the binary64 rendering keeps `ℚ` as carrier and rounds the exact result of each
operation to the nearest binary64 number, ties to even, one operation at a time
(no fused multiply-add).  The rendering is meant for normal, finite results: a zero
divisor, overflow and subnormal results are outside it. -/

/-- The integer nearest to `N / D`, ties to even. -/
def roundHalfEven (N D : Nat) : Nat :=
  let q := N / D
  let r := N % D
  if 2 * r < D then q else if D < 2 * r then q + 1 else if q % 2 = 0 then q else q + 1

/-- The number of halvings that bring `n` below 2, counted with at most `fuel`
steps: the binary logarithm of `n`, rounded down, when `fuel` is at least that. -/
def binaryLog : Nat → Nat → Nat
  | 0, _ => 0
  | fuel + 1, n => if n < 2 then 0 else binaryLog fuel (n / 2) + 1

/-- The exponent `e` with `2^e <= n / d < 2^(e+1)`, for positive `n` and `d`. -/
def floorLog2 (n d : Nat) : Int :=
  let e0 : Int := (binaryLog n n : Int) - (binaryLog d d : Int)
  if 0 ≤ e0 then
    if d * 2 ^ e0.toNat ≤ n then e0 else e0 - 1
  else
    if d ≤ n * 2 ^ (-e0).toNat then e0 else e0 - 1

/-- Rounding to binary64: the number with a 53-bit significand nearest to `x`, ties
to even. -/
def roundDouble (x : ℚ) : ℚ :=
  if x.num = 0 then 0
  else
    let n := x.num.natAbs
    let d := x.den
    let s : Int := 52 - floorLog2 n d
    let a : ℚ :=
      if 0 ≤ s then (roundHalfEven (n * 2 ^ s.toNat) d : ℚ) / ((2 ^ s.toNat : Nat) : ℚ)
      else (roundHalfEven n (d * 2 ^ (-s).toNat) : ℚ) * ((2 ^ (-s).toNat : Nat) : ℚ)
    if x.num < 0 then -a else a

/-- Binary64 addition. -/
def dadd (a b : ℚ) : ℚ := roundDouble (a + b)

/-- Binary64 subtraction. -/
def dsub (a b : ℚ) : ℚ := roundDouble (a - b)

/-- Binary64 multiplication. -/
def dmul (a b : ℚ) : ℚ := roundDouble (a * b)

/-- Binary64 division. -/
def ddiv (a b : ℚ) : ℚ := roundDouble (a / b)

/-- The compound assignment `a[i] += v` in binary64. -/
def daddAt (a : Nat → ℚ) (i : Nat) (v : ℚ) : Nat → ℚ :=
  Function.update a i (dadd (a i) v)

/-- The compound assignment `a(i,j) += v` in binary64. -/
def daddAt2 (a : Nat → Nat → ℚ) (i j : Nat) (v : ℚ) : Nat → Nat → ℚ :=
  Function.update a i (Function.update (a i) j (dadd (a i j) v))

/-- The compound assignment `a[i] -= v` in binary64. -/
def dsubAt (a : Nat → ℚ) (i : Nat) (v : ℚ) : Nat → ℚ :=
  Function.update a i (dsub (a i) v)

/-- The compound assignment `a(i,j) -= v` in binary64. -/
def dsubAt2 (a : Nat → Nat → ℚ) (i j : Nat) (v : ℚ) : Nat → Nat → ℚ :=
  Function.update a i (Function.update (a i) j (dsub (a i j) v))

/-! ## `execute` in binary64

The same statements as in `ContinuityAdvElemKernel.execute`, in the same order and
with the grouping of the C++ expressions, each operation rounded to binary64. -/

/-- First nodal loop (lines 125-128) in binary64. -/
def ContinuityAdvElemKernel.projTimeScaleIPDouble (AT : AlgTraits)
    (v_shape_function : Nat → Nat → ℚ) (v_udiag : Nat → ℚ) (ip : Nat) : ℚ :=
  (List.range AT.nodesPerElement_).foldl
    (fun projTimeScaleIP ic =>
      let r := v_shape_function ip ic
      dadd projTimeScaleIP (ddiv r (v_udiag ic)))
    0

/-- Body of the inner `j` loop (lines 139-145) in binary64. -/
def ContinuityAdvElemKernel.jBodyDouble (v_Gpdx v_velocity : Nat → Nat → ℚ)
    (v_dndx v_dndx_lhs : Nat → Nat → Nat → ℚ) (v_scs_areav : Nat → Nat → ℚ)
    (ip ic : Nat) (r nodalPressure nodalRho udiagInv projTimeScaleIP : ℚ)
    (s : IpWork × ℚ) (j : Nat) : IpWork × ℚ :=
  ({ rhoIp := s.1.rhoIp,
     w_Gpdx_Ip := daddAt s.1.w_Gpdx_Ip j (dmul (dmul r (v_Gpdx ic j)) udiagInv),
     w_uIp := daddAt s.1.w_uIp j (dmul r (v_velocity ic j)),
     w_rho_uIp := daddAt s.1.w_rho_uIp j (dmul (dmul r nodalRho) (v_velocity ic j)),
     w_dpdxIp := daddAt s.1.w_dpdxIp j (dmul (v_dndx ip ic j) nodalPressure) },
   dadd s.2 (dmul (dmul (-v_dndx_lhs ip ic j) (v_scs_areav ip j)) projTimeScaleIP))

/-- Body of the second nodal loop (lines 130-149) in binary64. -/
def ContinuityAdvElemKernel.icBodyDouble (K : ContinuityAdvElemKernel) (AT : AlgTraits)
    (v_densityNp1 v_pressure v_udiag : Nat → ℚ) (v_velocity v_Gpdx : Nat → Nat → ℚ)
    (v_scs_areav : Nat → Nat → ℚ) (v_dndx v_dndx_lhs : Nat → Nat → Nat → ℚ)
    (v_shape_function : Nat → Nat → ℚ) (ip il ir : Nat) (projTimeScaleIP : ℚ)
    (s : IpWork × (Nat → Nat → ℚ)) (ic : Nat) : IpWork × (Nat → Nat → ℚ) :=
  let r := v_shape_function ip ic
  let nodalPressure := v_pressure ic
  let nodalRho := v_densityNp1 ic
  let udiagInv := ddiv 1 (v_udiag ic)
  let w : IpWork := { s.1 with rhoIp := dadd s.1.rhoIp (dmul r nodalRho) }
  let t := (List.range AT.nDim_).foldl
    (ContinuityAdvElemKernel.jBodyDouble v_Gpdx v_velocity v_dndx v_dndx_lhs v_scs_areav
      ip ic r nodalPressure nodalRho udiagInv projTimeScaleIP)
    (w, 0)
  let lhsfac := t.2
  let lhs := daddAt2 s.2 il ic (ddiv lhsfac K.projTimeScale_)
  let lhs := dsubAt2 lhs ir ic (ddiv lhsfac K.projTimeScale_)
  (t.1, lhs)

/-- Mass-flow assembly loop (lines 152-156) in binary64. -/
def ContinuityAdvElemKernel.mdotLoopDouble (K : ContinuityAdvElemKernel) (AT : AlgTraits)
    (v_scs_areav : Nat → Nat → ℚ) (ip : Nat) (projTimeScaleIP : ℚ) (w : IpWork) : ℚ :=
  (List.range AT.nDim_).foldl
    (fun mdot j =>
      dadd mdot
        (dmul
          (dsub
            (dadd (dmul K.interpTogether_ (w.w_rho_uIp j))
              (dmul (dmul K.om_interpTogether_ w.rhoIp) (w.w_uIp j)))
            (dsub (dmul projTimeScaleIP (w.w_dpdxIp j)) (w.w_Gpdx_Ip j)))
          (v_scs_areav ip j)))
    0

/-- Body of the integration-point loop (lines 112-161) in binary64, acting on
`(lhs, rhs)`. -/
def ContinuityAdvElemKernel.ipBodyDouble (K : ContinuityAdvElemKernel) (AT : AlgTraits)
    (scratchViews : ScratchViews) (s : (Nat → Nat → ℚ) × (Nat → ℚ)) (ip : Nat) :
    (Nat → Nat → ℚ) × (Nat → ℚ) :=
  let v_densityNp1 := scratchViews.get_scratch_view_1D K.densityNp1_
  let v_pressure := scratchViews.get_scratch_view_1D K.pressure_
  let v_udiag := scratchViews.get_scratch_view_1D K.Udiag_
  let v_velocity := scratchViews.get_scratch_view_2D K.velocityRTM_
  let v_Gpdx := scratchViews.get_scratch_view_2D K.Gpdx_
  let meViews := scratchViews.get_me_views COORDS_TYPES.CURRENT_COORDINATES
  let v_scs_areav := meViews.scs_areav
  let v_dndx := K.v_dndx meViews
  let v_dndx_lhs := K.v_dndx_lhs meViews
  let v_shape_function := K.v_shape_function meViews
  let lrscv := K.meSCS_.adjacentNodes
  let il := lrscv (2 * ip)
  let ir := lrscv (2 * ip + 1)
  let projTimeScaleIP :=
    ContinuityAdvElemKernel.projTimeScaleIPDouble AT v_shape_function v_udiag ip
  let t := (List.range AT.nodesPerElement_).foldl
    (K.icBodyDouble AT v_densityNp1 v_pressure v_udiag v_velocity v_Gpdx v_scs_areav
      v_dndx v_dndx_lhs v_shape_function ip il ir projTimeScaleIP)
    (IpWork.zero, s.1)
  let mdot := K.mdotLoopDouble AT v_scs_areav ip projTimeScaleIP t.1
  let rhs := dsubAt s.2 il (ddiv mdot K.projTimeScale_)
  let rhs := daddAt rhs ir (ddiv mdot K.projTimeScale_)
  (t.2, rhs)

/-- The member `execute` (lines 83-162) in binary64. -/
def ContinuityAdvElemKernel.executeDouble (K : ContinuityAdvElemKernel) (AT : AlgTraits)
    (lhs : Nat → Nat → ℚ) (rhs : Nat → ℚ) (scratchViews : ScratchViews) :
    (Nat → Nat → ℚ) × (Nat → ℚ) :=
  (List.range AT.numScsIp_).foldl (K.ipBodyDouble AT scratchViews) (lhs, rhs)

/-- The functor of `EffSSTDiffFluxCoeffAlg::execute` (lines 61-64) at one node in
binary64. -/
def EffSSTDiffFluxCoeffAlg.nodeBodyDouble (visc tvisc evisc fOneBlend : Nat)
    (sigmaOne sigmaTwo : ℚ) (fm : NgpFieldManager) (meshIdx : Nat) : NgpFieldManager :=
  let blendedConstant :=
    dadd (dmul (fm.get fOneBlend meshIdx) sigmaOne)
      (dmul (dsub 1 (fm.get fOneBlend meshIdx)) sigmaTwo)
  fm.set evisc meshIdx (dadd (fm.get visc meshIdx) (dmul (fm.get tvisc meshIdx) blendedConstant))

/-- The member `EffSSTDiffFluxCoeffAlg::execute` (lines 37-68) in binary64. -/
def EffSSTDiffFluxCoeffAlg.executeDouble (A : EffSSTDiffFluxCoeffAlg)
    (fieldMgr : NgpFieldManager) : NgpFieldManager :=
  let sel := A.sel
  let ngpMesh := A.realm_.ngp_mesh
  let visc := A.visc_
  let tvisc := A.tvisc_
  let evisc := A.evisc_
  let fOneBlend := A.fOneBlend_
  let sigmaOne := A.sigmaOne_
  let sigmaTwo := A.sigmaTwo_
  let fm := run_entity_algorithm ngpMesh sel
    (EffSSTDiffFluxCoeffAlg.nodeBodyDouble visc tvisc evisc fOneBlend sigmaOne sigmaTwo)
    fieldMgr
  fm.modify_on_device evisc

/-! ## Concrete binary64 inputs -/

/-- The example kernel as the code holds it in binary64 for the blend factor `c` (a
binary64 number): `om_interpTogether_` is `1.0 - interpTogether_` (line 39) and
`projTimeScale_` is `dt / gamma1` (line 80) with `dt = 0.5`, `gamma1 = 1.5`, each
rounded. -/
def exampleKernelBinary64 (c : ℚ) : ContinuityAdvElemKernel :=
  { exampleKernel with
    interpTogether_ := c,
    om_interpTogether_ := dsub 1 c,
    projTimeScale_ := ddiv (1 / 2) (3 / 2) }

/-- The example kernel in binary64 with the blend factor nearest to `1/3`. -/
def exampleKernelDouble : ContinuityAdvElemKernel :=
  exampleKernelBinary64 (roundDouble (1 / 3))

/-- The example kernel in binary64 with the reduced-sensitivity flag cleared. -/
def exampleKernelStandardDouble : ContinuityAdvElemKernel :=
  { exampleKernelDouble with reducedSensitivities_ := false }

/-- A scratch staging with the uniform density `5` (field 4), the standard
shape-function weights `1/2, 1/4, 1/4` of the example (they sum to one) and a
velocity (field 0) that differs from node to node: the binary64 number nearest to
`2^ic / 10 - j`.  All values are binary64 numbers. -/
def exampleScratchUniformDensity : ScratchViews :=
  { exampleScratch with
    get_scratch_view_1D := fun field ic =>
      if field = 4 then 5 else exampleScratch.get_scratch_view_1D field ic,
    get_scratch_view_2D := fun field ic j =>
      if field = 0 then roundDouble ((2 : ℚ) ^ ic / 10 - j)
      else exampleScratch.get_scratch_view_2D field ic j }

/-- The staging `exampleScratchUniformDensity` with the density of the example
(`5, 6, 7` at the three nodes) in place of the uniform one. -/
def exampleScratchVaryingDensity : ScratchViews :=
  { exampleScratchUniformDensity with
    get_scratch_view_1D := exampleScratch.get_scratch_view_1D }

/-- The example algorithm with both coefficients equal to the binary64 number
nearest to `0.856`. -/
def exampleAlgDouble : EffSSTDiffFluxCoeffAlg :=
  EffSSTDiffFluxCoeffAlg.construct exampleRealm { containsNode := fun _ => true }
    exampleVisc exampleTvisc exampleEvisc (roundDouble (856 / 1000)) (roundDouble (856 / 1000))

/-- Device storage in binary64: viscosity `0`, turbulent viscosity `1`, the blending
field (ordinal 10) equal to `0.375` at node 0 and to the binary64 number nearest to
`0.3` elsewhere, every other value `7`. -/
def exampleFieldsDouble : NgpFieldManager :=
  { values := fun field n =>
      if field = 7 then 0
      else if field = 8 then 1
      else if field = 10 then (if n = 0 then 3 / 8 else roundDouble (3 / 10))
      else 7,
    modifiedOnDevice := fun _ => false }
/-! ## Loop lemmas -/

theorem addAt_apply (a : Nat → ℚ) (i k : Nat) (v : ℚ) :
    addAt a i v k = a k + if k = i then v else 0 := by
  unfold addAt
  by_cases h : k = i
  · subst h; simp
  · simp [Function.update_noteq h, h]

theorem addAt2_apply (a : Nat → Nat → ℚ) (i j k l : Nat) (v : ℚ) :
    addAt2 a i j v k l = a k l + if k = i ∧ l = j then v else 0 := by
  unfold addAt2
  by_cases h : k = i
  · subst h
    by_cases h2 : l = j
    · subst h2; simp
    · simp [Function.update_noteq h2, h2]
  · simp [Function.update_noteq h, h]

theorem foldl_range_add (f : Nat → ℚ) (a : ℚ) (n : Nat) :
    (List.range n).foldl (fun acc i => acc + f i) a
      = a + ∑ i in Finset.range n, f i := by
  induction n with
  | zero => simp
  | succ n ih =>
    simp [List.range_succ, List.foldl_append, ih, Finset.sum_range_succ, add_assoc]

theorem projTimeScaleIP_eq_sum (AT : AlgTraits) (N : Nat → Nat → ℚ) (u : Nat → ℚ)
    (ip : Nat) :
    ContinuityAdvElemKernel.projTimeScaleIP AT N u ip
      = ∑ ic in Finset.range AT.nodesPerElement_, N ip ic / u ic := by
  unfold ContinuityAdvElemKernel.projTimeScaleIP
  simpa using foldl_range_add (fun ic => N ip ic / u ic) 0 AT.nodesPerElement_

theorem jLoop_eq (G V : Nat → Nat → ℚ) (d dl : Nat → Nat → Nat → ℚ) (A : Nat → Nat → ℚ)
    (ip ic : Nat) (r nP nR uI p : ℚ) (w : IpWork) (fac : ℚ) (n : Nat) :
    (List.range n).foldl
        (ContinuityAdvElemKernel.jBody G V d dl A ip ic r nP nR uI p) (w, fac)
      = ({ rhoIp := w.rhoIp,
           w_uIp := fun j => w.w_uIp j + if j < n then r * V ic j else 0,
           w_rho_uIp := fun j => w.w_rho_uIp j + if j < n then r * nR * V ic j else 0,
           w_Gpdx_Ip := fun j => w.w_Gpdx_Ip j + if j < n then r * G ic j * uI else 0,
           w_dpdxIp := fun j => w.w_dpdxIp j + if j < n then d ip ic j * nP else 0 },
         fac + ∑ j in Finset.range n, -dl ip ic j * A ip j * p) := by
  induction n with
  | zero => simp
  | succ n ih =>
    rw [List.range_succ, List.foldl_append, ih]
    simp only [List.foldl_cons, List.foldl_nil, ContinuityAdvElemKernel.jBody,
      Finset.sum_range_succ, add_assoc]
    refine Prod.ext ?_ rfl
    ext j
    · rfl
    all_goals
      simp only [addAt_apply]
      by_cases h1 : j = n
      · subst h1; simp
      · by_cases h2 : j < n
        · have h3 : j < n + 1 := by omega
          simp [h1, h2, h3]
        · have h3 : ¬ j < n + 1 := by omega
          simp [h1, h2, h3]

theorem icLoop_eq (K : ContinuityAdvElemKernel) (AT : AlgTraits) (rho p u : Nat → ℚ)
    (V G : Nat → Nat → ℚ) (A : Nat → Nat → ℚ) (d dl : Nat → Nat → Nat → ℚ)
    (N : Nat → Nat → ℚ) (ip il ir : Nat) (ts : ℚ) (w : IpWork) (lhs : Nat → Nat → ℚ)
    (m : Nat) :
    (List.range m).foldl (K.icBody AT rho p u V G A d dl N ip il ir ts) (w, lhs)
      = ({ rhoIp := w.rhoIp + ∑ ic in Finset.range m, N ip ic * rho ic,
           w_uIp := fun j => w.w_uIp j +
             ∑ ic in Finset.range m, if j < AT.nDim_ then N ip ic * V ic j else 0,
           w_rho_uIp := fun j => w.w_rho_uIp j +
             ∑ ic in Finset.range m, if j < AT.nDim_ then N ip ic * rho ic * V ic j else 0,
           w_Gpdx_Ip := fun j => w.w_Gpdx_Ip j +
             ∑ ic in Finset.range m, if j < AT.nDim_ then N ip ic * G ic j * (1 / u ic) else 0,
           w_dpdxIp := fun j => w.w_dpdxIp j +
             ∑ ic in Finset.range m, if j < AT.nDim_ then d ip ic j * p ic else 0 },
         fun a b => lhs a b
           + (if a = il ∧ b < m then
                (∑ j in Finset.range AT.nDim_, -dl ip b j * A ip j * ts) / K.projTimeScale_
              else 0)
           + (if a = ir ∧ b < m then
                -((∑ j in Finset.range AT.nDim_, -dl ip b j * A ip j * ts) / K.projTimeScale_)
              else 0)) := by
  induction m with
  | zero => simp
  | succ m ih =>
    rw [List.range_succ, List.foldl_append, ih]
    simp only [List.foldl_cons, List.foldl_nil, ContinuityAdvElemKernel.icBody, jLoop_eq,
      Finset.sum_range_succ, zero_add]
    refine Prod.ext ?_ ?_
    · ext j
      · simp [add_assoc]
      all_goals simp only [add_assoc]
    · funext a b
      simp only [addAt2_apply]
      by_cases hb : b = m
      · subst hb
        by_cases h1 : a = il <;> by_cases h2 : a = ir <;> simp [h1, h2]
      · by_cases hb2 : b < m
        · have hb3 : b < m + 1 := by omega
          simp [hb, hb2, hb3]
        · have hb3 : ¬ b < m + 1 := by omega
          simp [hb, hb2, hb3]

theorem mdotLoop_eq (K : ContinuityAdvElemKernel) (AT : AlgTraits) (A : Nat → Nat → ℚ)
    (ip : Nat) (ts : ℚ) (w : IpWork) :
    K.mdotLoop AT A ip ts w
      = ∑ j in Finset.range AT.nDim_,
          (K.interpTogether_ * w.w_rho_uIp j + K.om_interpTogether_ * w.rhoIp * w.w_uIp j -
            (ts * w.w_dpdxIp j - w.w_Gpdx_Ip j)) * A ip j := by
  unfold ContinuityAdvElemKernel.mdotLoop
  simpa using foldl_range_add
    (fun j => (K.interpTogether_ * w.w_rho_uIp j + K.om_interpTogether_ * w.rhoIp * w.w_uIp j -
            (ts * w.w_dpdxIp j - w.w_Gpdx_Ip j)) * A ip j) 0 AT.nDim_

/-- One pass through the body of the integration-point loop in closed form. -/
theorem ipStep_eq (K : ContinuityAdvElemKernel) (AT : AlgTraits) (sv : ScratchViews)
    (lhs : Nat → Nat → ℚ) (rhs : Nat → ℚ) (ip : Nat) :
    K.ipStep AT sv (lhs, rhs) ip
      = ((fun a b => lhs a b
            + (if a = K.meSCS_.adjacentNodes (2 * ip) ∧ b < AT.nodesPerElement_ then
                lhsFactorFormula K AT sv ip b / K.projTimeScale_ else 0)
            + (if a = K.meSCS_.adjacentNodes (2 * ip + 1) ∧ b < AT.nodesPerElement_ then
                -(lhsFactorFormula K AT sv ip b / K.projTimeScale_) else 0),
          fun i => rhs i
            + (if i = K.meSCS_.adjacentNodes (2 * ip) then
                -(massFlowBlend K.interpTogether_ K.om_interpTogether_ K AT sv ip
                    / K.projTimeScale_) else 0)
            + (if i = K.meSCS_.adjacentNodes (2 * ip + 1) then
                massFlowBlend K.interpTogether_ K.om_interpTogether_ K AT sv ip
                    / K.projTimeScale_ else 0)),
         massFlowBlend K.interpTogether_ K.om_interpTogether_ K AT sv ip) := by
  have hm : K.mdotLoop AT (sv.get_me_views COORDS_TYPES.CURRENT_COORDINATES).scs_areav ip
      (ContinuityAdvElemKernel.projTimeScaleIP AT
        (K.v_shape_function (sv.get_me_views COORDS_TYPES.CURRENT_COORDINATES))
        (sv.get_scratch_view_1D K.Udiag_) ip)
      ((List.range AT.nodesPerElement_).foldl
        (K.icBody AT (sv.get_scratch_view_1D K.densityNp1_)
          (sv.get_scratch_view_1D K.pressure_) (sv.get_scratch_view_1D K.Udiag_)
          (sv.get_scratch_view_2D K.velocityRTM_) (sv.get_scratch_view_2D K.Gpdx_)
          (sv.get_me_views COORDS_TYPES.CURRENT_COORDINATES).scs_areav
          (K.v_dndx (sv.get_me_views COORDS_TYPES.CURRENT_COORDINATES))
          (K.v_dndx_lhs (sv.get_me_views COORDS_TYPES.CURRENT_COORDINATES))
          (K.v_shape_function (sv.get_me_views COORDS_TYPES.CURRENT_COORDINATES))
          ip (K.meSCS_.adjacentNodes (2 * ip)) (K.meSCS_.adjacentNodes (2 * ip + 1))
          (ContinuityAdvElemKernel.projTimeScaleIP AT
            (K.v_shape_function (sv.get_me_views COORDS_TYPES.CURRENT_COORDINATES))
            (sv.get_scratch_view_1D K.Udiag_) ip))
        (IpWork.zero, lhs)).1
      = massFlowBlend K.interpTogether_ K.om_interpTogether_ K AT sv ip := by
    rw [icLoop_eq, mdotLoop_eq, projTimeScaleIP_eq_sum]
    unfold massFlowBlend
    refine Finset.sum_congr rfl (fun j hj => ?_)
    have hj2 : j < AT.nDim_ := Finset.mem_range.mp hj
    simp only [IpWork.zero, hj2, if_true, zero_add, mul_one_div]
  unfold ContinuityAdvElemKernel.ipStep
  simp only [hm]
  refine Prod.ext (Prod.ext ?_ ?_) rfl
  · rw [icLoop_eq, projTimeScaleIP_eq_sum]
    funext a b
    have hf : (∑ j in Finset.range AT.nDim_,
          -K.v_dndx_lhs (sv.get_me_views COORDS_TYPES.CURRENT_COORDINATES) ip b j *
            (sv.get_me_views COORDS_TYPES.CURRENT_COORDINATES).scs_areav ip j *
            ∑ ic in Finset.range AT.nodesPerElement_,
              K.v_shape_function (sv.get_me_views COORDS_TYPES.CURRENT_COORDINATES) ip ic /
                sv.get_scratch_view_1D K.Udiag_ ic)
        = lhsFactorFormula K AT sv ip b := by
      unfold lhsFactorFormula
      rw [Finset.mul_sum]
      refine Finset.sum_congr rfl (fun j _ => ?_)
      ring
    simp only [hf]
  · funext i
    simp only [addAt_apply]

theorem ipBody_eq (K : ContinuityAdvElemKernel) (AT : AlgTraits) (sv : ScratchViews)
    (s : (Nat → Nat → ℚ) × (Nat → ℚ)) (ip : Nat) :
    K.ipBody AT sv s ip
      = (fun a b => s.1 a b + ipLhsDelta K AT sv ip a b,
         fun i => s.2 i + ipRhsDelta K AT sv ip i) := by
  obtain ⟨lhs, rhs⟩ := s
  unfold ContinuityAdvElemKernel.ipBody
  rw [ipStep_eq]
  simp only [ipLhsDelta, ipRhsDelta, add_assoc]

/-- The whole of `execute` in closed form: every buffer entry receives the sum of
the contributions of the integration points. -/
theorem execute_eq (K : ContinuityAdvElemKernel) (AT : AlgTraits) (sv : ScratchViews)
    (lhs : Nat → Nat → ℚ) (rhs : Nat → ℚ) :
    K.execute AT lhs rhs sv
      = (fun a b => lhs a b + ∑ ip in Finset.range AT.numScsIp_, ipLhsDelta K AT sv ip a b,
         fun i => rhs i + ∑ ip in Finset.range AT.numScsIp_, ipRhsDelta K AT sv ip i) := by
  unfold ContinuityAdvElemKernel.execute
  induction AT.numScsIp_ with
  | zero => simp
  | succ n ih =>
    rw [List.range_succ, List.foldl_append, ih]
    simp only [List.foldl_cons, List.foldl_nil, ipBody_eq, Finset.sum_range_succ, add_assoc]

theorem sum_ipRhsDelta (K : ContinuityAdvElemKernel) (AT : AlgTraits) (sv : ScratchViews)
    (ip : Nat) (hl : K.meSCS_.adjacentNodes (2 * ip) < AT.nodesPerElement_)
    (hr : K.meSCS_.adjacentNodes (2 * ip + 1) < AT.nodesPerElement_) :
    ∑ i in Finset.range AT.nodesPerElement_, ipRhsDelta K AT sv ip i = 0 := by
  unfold ipRhsDelta
  rw [Finset.sum_add_distrib, Finset.sum_ite_eq', Finset.sum_ite_eq']
  simp [Finset.mem_range, hl, hr]

theorem sum_ipLhsDelta (K : ContinuityAdvElemKernel) (AT : AlgTraits) (sv : ScratchViews)
    (ip b : Nat) (hl : K.meSCS_.adjacentNodes (2 * ip) < AT.nodesPerElement_)
    (hr : K.meSCS_.adjacentNodes (2 * ip + 1) < AT.nodesPerElement_) :
    ∑ a in Finset.range AT.nodesPerElement_, ipLhsDelta K AT sv ip a b = 0 := by
  unfold ipLhsDelta
  by_cases hb : b < AT.nodesPerElement_
  · simp only [hb, and_true]
    rw [Finset.sum_add_distrib, Finset.sum_ite_eq', Finset.sum_ite_eq']
    simp [Finset.mem_range, hl, hr]
  · simp [hb]

/-! ## Claims on `ContinuityAdvElemKernel` -/

/-- C1 (conservation of the residual scatter).  One pass through the body of the
integration-point loop changes `rhs` only at `il = lrscv[2*ip]` and
`ir = lrscv[2*ip+1]`: it subtracts `mdot/projTimeScale_` at `il` and adds the same
quantity at `ir`, where `mdot` is the local mass flow of that pass; when `il = ir`
the pass leaves `rhs` as it was.  When every entry of the adjacent-node table that
is read lies below `nodesPerElement_`, the sum of the `rhs` entries after `execute`
equals the sum before. -/
theorem continuity_execute_rhs_conservation (K : ContinuityAdvElemKernel)
    (AT : AlgTraits) (sv : ScratchViews) (lhs : Nat → Nat → ℚ) (rhs : Nat → ℚ) :
    (∀ ip i, (K.ipBody AT sv (lhs, rhs) ip).2 i
        = rhs i
          - (if i = K.meSCS_.adjacentNodes (2 * ip) then
              (K.ipStep AT sv (lhs, rhs) ip).2 / K.projTimeScale_ else 0)
          + (if i = K.meSCS_.adjacentNodes (2 * ip + 1) then
              (K.ipStep AT sv (lhs, rhs) ip).2 / K.projTimeScale_ else 0))
    ∧ (∀ ip, K.meSCS_.adjacentNodes (2 * ip) = K.meSCS_.adjacentNodes (2 * ip + 1) →
        (K.ipBody AT sv (lhs, rhs) ip).2 = rhs)
    ∧ ((∀ ip, ip < AT.numScsIp_ →
          K.meSCS_.adjacentNodes (2 * ip) < AT.nodesPerElement_ ∧
          K.meSCS_.adjacentNodes (2 * ip + 1) < AT.nodesPerElement_) →
        ∑ i in Finset.range AT.nodesPerElement_, (K.execute AT lhs rhs sv).2 i
          = ∑ i in Finset.range AT.nodesPerElement_, rhs i) := by
  refine ⟨?_, ?_, ?_⟩
  · intro ip i
    rw [ipBody_eq, ipStep_eq]
    simp only [ipRhsDelta]
    split_ifs <;> ring
  · intro ip h
    rw [ipBody_eq]
    funext i
    simp only [ipRhsDelta, h]
    split_ifs <;> ring
  · intro h
    rw [execute_eq]
    simp only [Finset.sum_add_distrib]
    rw [Finset.sum_comm]
    have hz : ∑ ip in Finset.range AT.numScsIp_,
        ∑ i in Finset.range AT.nodesPerElement_, ipRhsDelta K AT sv ip i = 0 :=
      Finset.sum_eq_zero (fun ip hip =>
        sum_ipRhsDelta K AT sv ip (h ip (Finset.mem_range.mp hip)).1
          (h ip (Finset.mem_range.mp hip)).2)
    rw [hz, add_zero]

/-- Witness of C1 on the example element: its adjacent-node table is in range and
the residual sum is conserved. -/
theorem continuity_execute_rhs_conservation_witness :
    (∀ ip, ip < exampleTraits.numScsIp_ →
        exampleKernel.meSCS_.adjacentNodes (2 * ip) < exampleTraits.nodesPerElement_ ∧
        exampleKernel.meSCS_.adjacentNodes (2 * ip + 1) < exampleTraits.nodesPerElement_)
    ∧ ∑ i in Finset.range exampleTraits.nodesPerElement_,
          (exampleKernel.execute exampleTraits exampleLhs exampleRhs exampleScratch).2 i
        = ∑ i in Finset.range exampleTraits.nodesPerElement_, exampleRhs i :=
  ⟨by decide,
   (continuity_execute_rhs_conservation exampleKernel exampleTraits exampleScratch
      exampleLhs exampleRhs).2.2 (by decide)⟩

/-- The rounding `roundDouble` on numbers whose binary64 neighbours are known: `0.1`,
`1/3`, `0.856`, exact values, the ties `2^53 + 1` (down to even) and `2^53 + 3` (up
to even), a negative number, `0.1 + 0.2 = 0.30000000000000004`, `1e23` and a small
number. -/
theorem roundDouble_samples :
    roundDouble (1 / 10) = 3602879701896397 / 36028797018963968
    ∧ roundDouble (1 / 3) = 6004799503160661 / 18014398509481984
    ∧ roundDouble (856 / 1000) = 7710162562058289 / 9007199254740992
    ∧ roundDouble (3 / 8) = 3 / 8
    ∧ roundDouble (-7) = -7
    ∧ roundDouble (9007199254740993) = 9007199254740992
    ∧ roundDouble (9007199254740995) = 9007199254740996
    ∧ roundDouble (-(1 / 3)) = -(6004799503160661 / 18014398509481984)
    ∧ dadd (roundDouble (1 / 10)) (roundDouble (2 / 10))
        = 1351079888211149 / 4503599627370496
    ∧ roundDouble (100000000000000000000000) = 99999999999999991611392
    ∧ roundDouble (1 / 3221225472) = 6004799503160661 / 19342813113834066795298816 := by
  decide!

/-- C3, amended to exact arithmetic (Jacobian contribution).  With every operation
of `execute` exact: one pass through the body of the integration-point loop adds
`f(ip,ic)/projTimeScale_` to `lhs(il,ic)` and subtracts the same value from
`lhs(ir,ic)` for every node `ic < nodesPerElement_`, with
`f(ip,ic) = -(sum_k N(ip,k)/udiag_k) * sum_j dndx_lhs(ip,ic,j) * areav(ip,j)` built
from the time scale summed over all nodes; `execute` adds up these contributions
over the integration points and changes nothing else in `lhs`.  When the
adjacent-node table is in range, every exact column sum of `lhs` is the same after
the exact `execute` as before.  (In binary64 a column sum can move by rounding.) -/
theorem continuity_execute_lhs_jacobian (K : ContinuityAdvElemKernel) (AT : AlgTraits)
    (sv : ScratchViews) (lhs : Nat → Nat → ℚ) (rhs : Nat → ℚ) :
    (∀ ip a ic, (K.ipBody AT sv (lhs, rhs) ip).1 a ic
        = lhs a ic
          + (if a = K.meSCS_.adjacentNodes (2 * ip) ∧ ic < AT.nodesPerElement_ then
              lhsFactorFormula K AT sv ip ic / K.projTimeScale_ else 0)
          - (if a = K.meSCS_.adjacentNodes (2 * ip + 1) ∧ ic < AT.nodesPerElement_ then
              lhsFactorFormula K AT sv ip ic / K.projTimeScale_ else 0))
    ∧ (∀ a ic, (K.execute AT lhs rhs sv).1 a ic
        = lhs a ic + ∑ ip in Finset.range AT.numScsIp_,
            ((if a = K.meSCS_.adjacentNodes (2 * ip) ∧ ic < AT.nodesPerElement_ then
                lhsFactorFormula K AT sv ip ic / K.projTimeScale_ else 0)
              - (if a = K.meSCS_.adjacentNodes (2 * ip + 1) ∧ ic < AT.nodesPerElement_ then
                lhsFactorFormula K AT sv ip ic / K.projTimeScale_ else 0)))
    ∧ (∀ a ic,
        (∀ ip, ip < AT.numScsIp_ →
          a ≠ K.meSCS_.adjacentNodes (2 * ip) ∧ a ≠ K.meSCS_.adjacentNodes (2 * ip + 1)) →
        (K.execute AT lhs rhs sv).1 a ic = lhs a ic)
    ∧ (∀ a ic, ¬ ic < AT.nodesPerElement_ → (K.execute AT lhs rhs sv).1 a ic = lhs a ic)
    ∧ ((∀ ip, ip < AT.numScsIp_ →
          K.meSCS_.adjacentNodes (2 * ip) < AT.nodesPerElement_ ∧
          K.meSCS_.adjacentNodes (2 * ip + 1) < AT.nodesPerElement_) →
        ∀ ic, ∑ a in Finset.range AT.nodesPerElement_, (K.execute AT lhs rhs sv).1 a ic
          = ∑ a in Finset.range AT.nodesPerElement_, lhs a ic) := by
  refine ⟨?_, ?_, ?_, ?_, ?_⟩
  · intro ip a ic
    rw [ipBody_eq]
    simp only [ipLhsDelta]
    split_ifs <;> ring
  · intro a ic
    rw [execute_eq]
    simp only [ipLhsDelta]
    congr 1
    refine Finset.sum_congr rfl (fun ip _ => ?_)
    split_ifs <;> ring
  · intro a ic h
    rw [execute_eq]
    simp only
    rw [Finset.sum_eq_zero, add_zero]
    intro ip hip
    unfold ipLhsDelta
    have h2 := h ip (Finset.mem_range.mp hip)
    simp [h2.1, h2.2]
  · intro a ic hic
    rw [execute_eq]
    simp only
    rw [Finset.sum_eq_zero, add_zero]
    intro ip _
    unfold ipLhsDelta
    simp [hic]
  · intro h ic
    rw [execute_eq]
    simp only [Finset.sum_add_distrib]
    rw [Finset.sum_comm]
    have hz : ∑ ip in Finset.range AT.numScsIp_,
        ∑ a in Finset.range AT.nodesPerElement_, ipLhsDelta K AT sv ip a ic = 0 :=
      Finset.sum_eq_zero (fun ip hip =>
        sum_ipLhsDelta K AT sv ip ic (h ip (Finset.mem_range.mp hip)).1
          (h ip (Finset.mem_range.mp hip)).2)
    rw [hz, add_zero]

/-- Witness of C3 on the example element: the adjacent-node table is in range and
the exact sum of column 1 of `lhs` is unchanged by the exact `execute`. -/
theorem continuity_execute_lhs_jacobian_witness :
    (∀ ip, ip < exampleTraits.numScsIp_ →
        exampleKernel.meSCS_.adjacentNodes (2 * ip) < exampleTraits.nodesPerElement_ ∧
        exampleKernel.meSCS_.adjacentNodes (2 * ip + 1) < exampleTraits.nodesPerElement_)
    ∧ ∑ a in Finset.range exampleTraits.nodesPerElement_,
          (exampleKernel.execute exampleTraits exampleLhs exampleRhs exampleScratch).1 a 1
        = ∑ a in Finset.range exampleTraits.nodesPerElement_, exampleLhs a 1 :=
  ⟨by decide,
   (continuity_execute_lhs_jacobian exampleKernel exampleTraits exampleScratch
      exampleLhs exampleRhs).2.2.2.2 (by decide) 1⟩

/-- C3, counterexample in binary64.  On the example element (adjacent-node table in
range, `momentum_diag` `7, 8, 9`, blend factor and time scale the binary64 numbers
nearest to `1/3`) column 1 of `lhs` holds `-2, -1, 0` before `execute`, with sum
`-3`.  After the binary64 `execute` it holds the three binary64 numbers below; their
exact sum is `-3 + 2^-52`, and added up in binary64 they give
`-2.9999999999999996 = -3 + 2^-51`: the column sum is not the one before. -/
theorem continuity_column_sum_binary64 :
    (∀ ip, ip < exampleTraits.numScsIp_ →
        exampleKernelDouble.meSCS_.adjacentNodes (2 * ip) < exampleTraits.nodesPerElement_ ∧
        exampleKernelDouble.meSCS_.adjacentNodes (2 * ip + 1)
          < exampleTraits.nodesPerElement_)
    ∧ (exampleKernelDouble.executeDouble exampleTraits exampleLhs exampleRhs
          exampleScratch).1 0 1 = -963381616718019 / 281474976710656
    ∧ (exampleKernelDouble.executeDouble exampleTraits exampleLhs exampleRhs
          exampleScratch).1 1 1 = -8028738621413473 / 4503599627370496
    ∧ (exampleKernelDouble.executeDouble exampleTraits exampleLhs exampleRhs
          exampleScratch).1 2 1 = 4966022803395145 / 2251799813685248
    ∧ ∑ a in Finset.range exampleTraits.nodesPerElement_, exampleLhs a 1 = -3
    ∧ ∑ a in Finset.range exampleTraits.nodesPerElement_,
          (exampleKernelDouble.executeDouble exampleTraits exampleLhs exampleRhs
            exampleScratch).1 a 1
        = -3 + 1 / 2 ^ 52
    ∧ dadd (dadd (dadd 0
          ((exampleKernelDouble.executeDouble exampleTraits exampleLhs exampleRhs
            exampleScratch).1 0 1))
          ((exampleKernelDouble.executeDouble exampleTraits exampleLhs exampleRhs
            exampleScratch).1 1 1))
          ((exampleKernelDouble.executeDouble exampleTraits exampleLhs exampleRhs
            exampleScratch).1 2 1)
        = -3 + 1 / 2 ^ 51
    ∧ ∑ a in Finset.range exampleTraits.nodesPerElement_,
          (exampleKernelDouble.executeDouble exampleTraits exampleLhs exampleRhs
            exampleScratch).1 a 1
        ≠ ∑ a in Finset.range exampleTraits.nodesPerElement_, exampleLhs a 1 := by
  have h0 : (exampleKernelDouble.executeDouble exampleTraits exampleLhs exampleRhs
      exampleScratch).1 0 1 = -963381616718019 / 281474976710656 := by decide!
  have h1 : (exampleKernelDouble.executeDouble exampleTraits exampleLhs exampleRhs
      exampleScratch).1 1 1 = -8028738621413473 / 4503599627370496 := by decide!
  have h2 : (exampleKernelDouble.executeDouble exampleTraits exampleLhs exampleRhs
      exampleScratch).1 2 1 = 4966022803395145 / 2251799813685248 := by decide!
  have n3 : exampleTraits.nodesPerElement_ = 3 := rfl
  have before : ∑ a in Finset.range exampleTraits.nodesPerElement_, exampleLhs a 1 = -3 := by
    rw [n3]
    simp only [Finset.sum_range_succ, Finset.sum_range_zero, exampleLhs]
    norm_num
  have after : ∑ a in Finset.range exampleTraits.nodesPerElement_,
      (exampleKernelDouble.executeDouble exampleTraits exampleLhs exampleRhs
        exampleScratch).1 a 1 = -3 + 1 / 2 ^ 52 := by
    rw [n3]
    simp only [Finset.sum_range_succ, Finset.sum_range_zero, h0, h1, h2]
    norm_num
  refine ⟨by decide, h0, h1, h2, before, after, ?_, ?_⟩
  · rw [h0, h1, h2]
    decide!
  · rw [before, after]
    norm_num

/-- C5 (`setup`).  After `setup` the stored `projTimeScale_` is `dt / gamma1`; a
`setup` that follows another leaves the state of a single `setup`; the result does
not depend on the value stored before; and no other member changes. -/
theorem continuity_setup_projTimeScale (K : ContinuityAdvElemKernel)
    (a b : TimeIntegrator) (previous : ℚ) :
    (K.setup b).projTimeScale_ = b.get_time_step / b.get_gamma1
    ∧ (K.setup a).setup b = K.setup b
    ∧ ({ K with projTimeScale_ := previous }).setup b = K.setup b
    ∧ ((K.setup b).velocityRTM_ = K.velocityRTM_
        ∧ (K.setup b).Gpdx_ = K.Gpdx_
        ∧ (K.setup b).pressure_ = K.pressure_
        ∧ (K.setup b).densityNp1_ = K.densityNp1_
        ∧ (K.setup b).coordinates_ = K.coordinates_
        ∧ (K.setup b).Udiag_ = K.Udiag_
        ∧ (K.setup b).meSCS_ = K.meSCS_
        ∧ (K.setup b).meshMotion_ = K.meshMotion_
        ∧ (K.setup b).shiftMdot_ = K.shiftMdot_
        ∧ (K.setup b).shiftPoisson_ = K.shiftPoisson_
        ∧ (K.setup b).reducedSensitivities_ = K.reducedSensitivities_
        ∧ (K.setup b).interpTogether_ = K.interpTogether_
        ∧ (K.setup b).om_interpTogether_ = K.om_interpTogether_) := by
  refine ⟨rfl, rfl, rfl, ?_⟩
  exact ⟨rfl, rfl, rfl, rfl, rfl, rfl, rfl, rfl, rfl, rfl, rfl, rfl, rfl⟩

theorem execute_rhs_eq (K : ContinuityAdvElemKernel) (AT : AlgTraits) (sv : ScratchViews)
    (lhs : Nat → Nat → ℚ) (rhs : Nat → ℚ) (i : Nat) :
    (K.execute AT lhs rhs sv).2 i
      = rhs i + ∑ ip in Finset.range AT.numScsIp_, ipRhsDelta K AT sv ip i := by
  rw [execute_eq]

theorem execute_lhs_eq (K : ContinuityAdvElemKernel) (AT : AlgTraits) (sv : ScratchViews)
    (lhs : Nat → Nat → ℚ) (rhs : Nat → ℚ) (a b : Nat) :
    (K.execute AT lhs rhs sv).1 a b
      = lhs a b + ∑ ip in Finset.range AT.numScsIp_, ipLhsDelta K AT sv ip a b := by
  rw [execute_eq]

/-- C9 (the reduced-sensitivity flag touches the Jacobian only).  With all other
members equal, `execute` produces the same `rhs` with `reducedSensitivities_` set
and cleared.  The residual reads the shifted gradient operator exactly when
`shiftPoisson_` is set and the Jacobian reads it exactly when `shiftPoisson_` or
`reducedSensitivities_` is set: the selected operators are as stated, the `rhs` is
unchanged by any replacement of the operator the residual does not select, and the
`lhs` is unchanged by any replacement of the operator the Jacobian does not
select. -/
theorem continuity_reduced_sensitivities_rhs (K : ContinuityAdvElemKernel)
    (AT : AlgTraits) (sv : ScratchViews) (lhs : Nat → Nat → ℚ) (rhs : Nat → ℚ)
    (X : Nat → Nat → Nat → ℚ) :
    (({ K with reducedSensitivities_ := true }).execute AT lhs rhs sv).2
      = (({ K with reducedSensitivities_ := false }).execute AT lhs rhs sv).2
    ∧ (∀ me, K.v_dndx me = if K.shiftPoisson_ = true then me.dndx_shifted else me.dndx)
    ∧ (∀ me, K.v_dndx_lhs me
        = if K.shiftPoisson_ = true ∨ K.reducedSensitivities_ = true then me.dndx_shifted
          else me.dndx)
    ∧ (K.execute AT lhs rhs
        (sv.withMeViews (replaceUnselectedResidualOp K
          (sv.get_me_views COORDS_TYPES.CURRENT_COORDINATES) X))).2
        = (K.execute AT lhs rhs sv).2
    ∧ (K.execute AT lhs rhs
        (sv.withMeViews (replaceUnselectedJacobianOp K
          (sv.get_me_views COORDS_TYPES.CURRENT_COORDINATES) X))).1
        = (K.execute AT lhs rhs sv).1 := by
  refine ⟨?_, ?_, ?_, ?_, ?_⟩
  · funext i
    rw [execute_rhs_eq, execute_rhs_eq]
    rfl
  · intro me
    unfold ContinuityAdvElemKernel.v_dndx
    rfl
  · intro me
    unfold ContinuityAdvElemKernel.v_dndx_lhs
    cases K.shiftPoisson_ <;> cases K.reducedSensitivities_ <;> rfl
  · funext i
    rw [execute_rhs_eq, execute_rhs_eq]
    congr 1
    refine Finset.sum_congr rfl (fun ip _ => ?_)
    unfold ipRhsDelta massFlowBlend replaceUnselectedResidualOp ScratchViews.withMeViews
      ContinuityAdvElemKernel.v_dndx ContinuityAdvElemKernel.v_shape_function
    cases K.shiftPoisson_ <;> cases K.shiftMdot_ <;> rfl
  · funext a b
    rw [execute_lhs_eq, execute_lhs_eq]
    congr 1
    refine Finset.sum_congr rfl (fun ip _ => ?_)
    unfold ipLhsDelta lhsFactorFormula replaceUnselectedJacobianOp ScratchViews.withMeViews
      ContinuityAdvElemKernel.v_dndx_lhs ContinuityAdvElemKernel.v_shape_function
    cases K.shiftPoisson_ <;> cases K.reducedSensitivities_ <;> cases K.shiftMdot_ <;> rfl

theorem mem_insertRequest {α : Type} [DecidableEq α] (x y : α) (l : List α) :
    y ∈ insertRequest x l ↔ y = x ∨ y ∈ l := by
  unfold insertRequest
  by_cases h : x ∈ l
  · rw [if_pos h]
    constructor
    · exact fun hy => Or.inr hy
    · rintro (rfl | hy)
      · exact h
      · exact hy
  · rw [if_neg h]
    simp [or_comm]

/-- Every access of `execute` is covered by the declaration the constructor leaves. -/
theorem construct_declares_reads (AT : AlgTraits) (repo : MasterElementRepo)
    (projTimeScale0 : ℚ) (metaData : MetaData) (solnOpts : SolutionOptions)
    (dataPreReqs : ElemDataRequests) (r : ScratchRead)
    (hr : r ∈ (ContinuityAdvElemKernel.construct AT repo projTimeScale0 metaData solnOpts
      dataPreReqs).1.executeReads) :
    (ContinuityAdvElemKernel.construct AT repo projTimeScale0 metaData solnOpts
      dataPreReqs).2.declares AT r := by
  simp only [ContinuityAdvElemKernel.construct, ContinuityAdvElemKernel.executeReads,
    List.mem_cons, List.mem_singleton, List.not_mem_nil, or_false] at hr
  rcases Bool.eq_false_or_eq_true (solnOpts.get_shifted_grad_op "pressure") with h1 | h1 <;>
    rcases Bool.eq_false_or_eq_true solnOpts.cvfemReducedSensPoisson_ with h2 | h2 <;>
    rcases Bool.eq_false_or_eq_true solnOpts.cvfemShiftMdot_ with h3 | h3 <;>
    rcases hr with h | h | h | h | h | h | h | h | h <;> subst h <;>
    simp [ContinuityAdvElemKernel.construct, ElemDataRequests.declares,
      ElemDataRequests.add_cvfem_surface_me, ElemDataRequests.add_coordinates_field,
      ElemDataRequests.add_gathered_nodal_field, ElemDataRequests.add_master_element_call,
      mem_insertRequest, h1, h2, h3]

theorem massFlowBlend_congr (cT cS : ℚ) (K : ContinuityAdvElemKernel) (AT : AlgTraits)
    (sv sv2 : ScratchViews) (ip : Nat)
    (hN : ∀ ic, ic < AT.nodesPerElement_ →
      K.v_shape_function (sv.get_me_views COORDS_TYPES.CURRENT_COORDINATES) ip ic
        = K.v_shape_function (sv2.get_me_views COORDS_TYPES.CURRENT_COORDINATES) ip ic)
    (hrho : ∀ ic, ic < AT.nodesPerElement_ →
      sv.get_scratch_view_1D K.densityNp1_ ic = sv2.get_scratch_view_1D K.densityNp1_ ic)
    (hp : ∀ ic, ic < AT.nodesPerElement_ →
      sv.get_scratch_view_1D K.pressure_ ic = sv2.get_scratch_view_1D K.pressure_ ic)
    (hud : ∀ ic, ic < AT.nodesPerElement_ →
      sv.get_scratch_view_1D K.Udiag_ ic = sv2.get_scratch_view_1D K.Udiag_ ic)
    (hu : ∀ ic, ic < AT.nodesPerElement_ → ∀ j, j < AT.nDim_ →
      sv.get_scratch_view_2D K.velocityRTM_ ic j = sv2.get_scratch_view_2D K.velocityRTM_ ic j)
    (hG : ∀ ic, ic < AT.nodesPerElement_ → ∀ j, j < AT.nDim_ →
      sv.get_scratch_view_2D K.Gpdx_ ic j = sv2.get_scratch_view_2D K.Gpdx_ ic j)
    (hd : ∀ ic, ic < AT.nodesPerElement_ → ∀ j, j < AT.nDim_ →
      K.v_dndx (sv.get_me_views COORDS_TYPES.CURRENT_COORDINATES) ip ic j
        = K.v_dndx (sv2.get_me_views COORDS_TYPES.CURRENT_COORDINATES) ip ic j)
    (hA : ∀ j, j < AT.nDim_ →
      (sv.get_me_views COORDS_TYPES.CURRENT_COORDINATES).scs_areav ip j
        = (sv2.get_me_views COORDS_TYPES.CURRENT_COORDINATES).scs_areav ip j) :
    massFlowBlend cT cS K AT sv ip = massFlowBlend cT cS K AT sv2 ip := by
  unfold massFlowBlend
  simp only
  refine Finset.sum_congr rfl (fun j hj => ?_)
  have hj2 : j < AT.nDim_ := Finset.mem_range.mp hj
  have s1 : ∑ ic in Finset.range AT.nodesPerElement_,
        K.v_shape_function (sv.get_me_views COORDS_TYPES.CURRENT_COORDINATES) ip ic *
          sv.get_scratch_view_1D K.densityNp1_ ic * sv.get_scratch_view_2D K.velocityRTM_ ic j
      = ∑ ic in Finset.range AT.nodesPerElement_,
        K.v_shape_function (sv2.get_me_views COORDS_TYPES.CURRENT_COORDINATES) ip ic *
          sv2.get_scratch_view_1D K.densityNp1_ ic *
          sv2.get_scratch_view_2D K.velocityRTM_ ic j :=
    Finset.sum_congr rfl (fun ic hic => by
      rw [hN ic (Finset.mem_range.mp hic), hrho ic (Finset.mem_range.mp hic),
        hu ic (Finset.mem_range.mp hic) j hj2])
  have s2 : ∑ ic in Finset.range AT.nodesPerElement_,
        K.v_shape_function (sv.get_me_views COORDS_TYPES.CURRENT_COORDINATES) ip ic *
          sv.get_scratch_view_1D K.densityNp1_ ic
      = ∑ ic in Finset.range AT.nodesPerElement_,
        K.v_shape_function (sv2.get_me_views COORDS_TYPES.CURRENT_COORDINATES) ip ic *
          sv2.get_scratch_view_1D K.densityNp1_ ic :=
    Finset.sum_congr rfl (fun ic hic => by
      rw [hN ic (Finset.mem_range.mp hic), hrho ic (Finset.mem_range.mp hic)])
  have s3 : ∑ ic in Finset.range AT.nodesPerElement_,
        K.v_shape_function (sv.get_me_views COORDS_TYPES.CURRENT_COORDINATES) ip ic *
          sv.get_scratch_view_2D K.velocityRTM_ ic j
      = ∑ ic in Finset.range AT.nodesPerElement_,
        K.v_shape_function (sv2.get_me_views COORDS_TYPES.CURRENT_COORDINATES) ip ic *
          sv2.get_scratch_view_2D K.velocityRTM_ ic j :=
    Finset.sum_congr rfl (fun ic hic => by
      rw [hN ic (Finset.mem_range.mp hic), hu ic (Finset.mem_range.mp hic) j hj2])
  have s4 : ∑ ic in Finset.range AT.nodesPerElement_,
        K.v_shape_function (sv.get_me_views COORDS_TYPES.CURRENT_COORDINATES) ip ic /
          sv.get_scratch_view_1D K.Udiag_ ic
      = ∑ ic in Finset.range AT.nodesPerElement_,
        K.v_shape_function (sv2.get_me_views COORDS_TYPES.CURRENT_COORDINATES) ip ic /
          sv2.get_scratch_view_1D K.Udiag_ ic :=
    Finset.sum_congr rfl (fun ic hic => by
      rw [hN ic (Finset.mem_range.mp hic), hud ic (Finset.mem_range.mp hic)])
  have s5 : ∑ ic in Finset.range AT.nodesPerElement_,
        K.v_dndx (sv.get_me_views COORDS_TYPES.CURRENT_COORDINATES) ip ic j *
          sv.get_scratch_view_1D K.pressure_ ic
      = ∑ ic in Finset.range AT.nodesPerElement_,
        K.v_dndx (sv2.get_me_views COORDS_TYPES.CURRENT_COORDINATES) ip ic j *
          sv2.get_scratch_view_1D K.pressure_ ic :=
    Finset.sum_congr rfl (fun ic hic => by
      rw [hd ic (Finset.mem_range.mp hic) j hj2, hp ic (Finset.mem_range.mp hic)])
  have s6 : ∑ ic in Finset.range AT.nodesPerElement_,
        K.v_shape_function (sv.get_me_views COORDS_TYPES.CURRENT_COORDINATES) ip ic *
          sv.get_scratch_view_2D K.Gpdx_ ic j / sv.get_scratch_view_1D K.Udiag_ ic
      = ∑ ic in Finset.range AT.nodesPerElement_,
        K.v_shape_function (sv2.get_me_views COORDS_TYPES.CURRENT_COORDINATES) ip ic *
          sv2.get_scratch_view_2D K.Gpdx_ ic j / sv2.get_scratch_view_1D K.Udiag_ ic :=
    Finset.sum_congr rfl (fun ic hic => by
      rw [hN ic (Finset.mem_range.mp hic), hG ic (Finset.mem_range.mp hic) j hj2,
        hud ic (Finset.mem_range.mp hic)])
  rw [s1, s2, s3, s4, s5, s6, hA j hj2]

theorem lhsFactorFormula_congr (K : ContinuityAdvElemKernel) (AT : AlgTraits)
    (sv sv2 : ScratchViews) (ip ic : Nat)
    (hN : ∀ k, k < AT.nodesPerElement_ →
      K.v_shape_function (sv.get_me_views COORDS_TYPES.CURRENT_COORDINATES) ip k
        = K.v_shape_function (sv2.get_me_views COORDS_TYPES.CURRENT_COORDINATES) ip k)
    (hud : ∀ k, k < AT.nodesPerElement_ →
      sv.get_scratch_view_1D K.Udiag_ k = sv2.get_scratch_view_1D K.Udiag_ k)
    (hdl : ∀ j, j < AT.nDim_ →
      K.v_dndx_lhs (sv.get_me_views COORDS_TYPES.CURRENT_COORDINATES) ip ic j
        = K.v_dndx_lhs (sv2.get_me_views COORDS_TYPES.CURRENT_COORDINATES) ip ic j)
    (hA : ∀ j, j < AT.nDim_ →
      (sv.get_me_views COORDS_TYPES.CURRENT_COORDINATES).scs_areav ip j
        = (sv2.get_me_views COORDS_TYPES.CURRENT_COORDINATES).scs_areav ip j) :
    lhsFactorFormula K AT sv ip ic = lhsFactorFormula K AT sv2 ip ic := by
  unfold lhsFactorFormula
  have s1 : ∑ k in Finset.range AT.nodesPerElement_,
        K.v_shape_function (sv.get_me_views COORDS_TYPES.CURRENT_COORDINATES) ip k /
          sv.get_scratch_view_1D K.Udiag_ k
      = ∑ k in Finset.range AT.nodesPerElement_,
        K.v_shape_function (sv2.get_me_views COORDS_TYPES.CURRENT_COORDINATES) ip k /
          sv2.get_scratch_view_1D K.Udiag_ k :=
    Finset.sum_congr rfl (fun k hk => by
      rw [hN k (Finset.mem_range.mp hk), hud k (Finset.mem_range.mp hk)])
  have s2 : ∑ j in Finset.range AT.nDim_,
        K.v_dndx_lhs (sv.get_me_views COORDS_TYPES.CURRENT_COORDINATES) ip ic j *
          (sv.get_me_views COORDS_TYPES.CURRENT_COORDINATES).scs_areav ip j
      = ∑ j in Finset.range AT.nDim_,
        K.v_dndx_lhs (sv2.get_me_views COORDS_TYPES.CURRENT_COORDINATES) ip ic j *
          (sv2.get_me_views COORDS_TYPES.CURRENT_COORDINATES).scs_areav ip j :=
    Finset.sum_congr rfl (fun j hj => by
      rw [hdl j (Finset.mem_range.mp hj), hA j (Finset.mem_range.mp hj)])
  rw [s1, s2]

/-- The result of `execute` is a function of the declared data alone: two scratch
stagings that agree on everything a declaration covers give the same buffers,
provided the declaration covers every access of `execute`. -/
theorem execute_congr_of_declared (K : ContinuityAdvElemKernel) (AT : AlgTraits)
    (d : ElemDataRequests) (hdecl : ∀ r, r ∈ K.executeReads → d.declares AT r)
    (sv sv2 : ScratchViews) (hagree : ScratchViews.agreeOnDeclared AT d sv sv2)
    (lhs : Nat → Nat → ℚ) (rhs : Nat → ℚ) :
    K.execute AT lhs rhs sv = K.execute AT lhs rhs sv2 := by
  obtain ⟨h1D, h2D, hme⟩ := hagree
  have hrho := h1D K.densityNp1_
    (hdecl (ScratchRead.view1D K.densityNp1_) (by simp [ContinuityAdvElemKernel.executeReads]))
  have hp := h1D K.pressure_
    (hdecl (ScratchRead.view1D K.pressure_) (by simp [ContinuityAdvElemKernel.executeReads]))
  have hud := h1D K.Udiag_
    (hdecl (ScratchRead.view1D K.Udiag_) (by simp [ContinuityAdvElemKernel.executeReads]))
  have hu := h2D K.velocityRTM_
    (hdecl (ScratchRead.view2D K.velocityRTM_) (by simp [ContinuityAdvElemKernel.executeReads]))
  have hG := h2D K.Gpdx_
    (hdecl (ScratchRead.view2D K.Gpdx_) (by simp [ContinuityAdvElemKernel.executeReads]))
  have hA : ∀ ip, ip < AT.numScsIp_ → ∀ j, j < AT.nDim_ →
      (sv.get_me_views COORDS_TYPES.CURRENT_COORDINATES).scs_areav ip j
        = (sv2.get_me_views COORDS_TYPES.CURRENT_COORDINATES).scs_areav ip j :=
    hme ELEM_DATA_NEEDED.SCS_AREAV COORDS_TYPES.CURRENT_COORDINATES
      (hdecl (ScratchRead.meView COORDS_TYPES.CURRENT_COORDINATES ELEM_DATA_NEEDED.SCS_AREAV)
        (by simp [ContinuityAdvElemKernel.executeReads]))
  have hd : ∀ ip, ip < AT.numScsIp_ → ∀ ic, ic < AT.nodesPerElement_ → ∀ j, j < AT.nDim_ →
      K.v_dndx (sv.get_me_views COORDS_TYPES.CURRENT_COORDINATES) ip ic j
        = K.v_dndx (sv2.get_me_views COORDS_TYPES.CURRENT_COORDINATES) ip ic j := by
    have h := hme _ COORDS_TYPES.CURRENT_COORDINATES
      (hdecl (ScratchRead.meView COORDS_TYPES.CURRENT_COORDINATES
        (if K.shiftPoisson_ then ELEM_DATA_NEEDED.SCS_SHIFTED_GRAD_OP
          else ELEM_DATA_NEEDED.SCS_GRAD_OP))
        (by simp [ContinuityAdvElemKernel.executeReads]))
    unfold ContinuityAdvElemKernel.v_dndx
    rcases Bool.eq_false_or_eq_true K.shiftPoisson_ with hb | hb
    · rw [hb] at h ⊢; exact h
    · rw [hb] at h ⊢; exact h
  have hdl : ∀ ip, ip < AT.numScsIp_ → ∀ ic, ic < AT.nodesPerElement_ → ∀ j, j < AT.nDim_ →
      K.v_dndx_lhs (sv.get_me_views COORDS_TYPES.CURRENT_COORDINATES) ip ic j
        = K.v_dndx_lhs (sv2.get_me_views COORDS_TYPES.CURRENT_COORDINATES) ip ic j := by
    have h := hme _ COORDS_TYPES.CURRENT_COORDINATES
      (hdecl (ScratchRead.meView COORDS_TYPES.CURRENT_COORDINATES
        (if K.shiftPoisson_ || K.reducedSensitivities_ then
          ELEM_DATA_NEEDED.SCS_SHIFTED_GRAD_OP else ELEM_DATA_NEEDED.SCS_GRAD_OP))
        (by simp [ContinuityAdvElemKernel.executeReads]))
    unfold ContinuityAdvElemKernel.v_dndx_lhs
    rcases Bool.eq_false_or_eq_true (K.shiftPoisson_ || K.reducedSensitivities_) with hb | hb
    · rw [hb] at h ⊢; exact h
    · rw [hb] at h ⊢; exact h
  have hN : ∀ ip, ip < AT.numScsIp_ → ∀ ic, ic < AT.nodesPerElement_ →
      K.v_shape_function (sv.get_me_views COORDS_TYPES.CURRENT_COORDINATES) ip ic
        = K.v_shape_function (sv2.get_me_views COORDS_TYPES.CURRENT_COORDINATES) ip ic := by
    have h := hme _ COORDS_TYPES.CURRENT_COORDINATES
      (hdecl (ScratchRead.meView COORDS_TYPES.CURRENT_COORDINATES
        (if K.shiftMdot_ then ELEM_DATA_NEEDED.SCS_SHIFTED_SHAPE_FCN
          else ELEM_DATA_NEEDED.SCS_SHAPE_FCN))
        (by simp [ContinuityAdvElemKernel.executeReads]))
    unfold ContinuityAdvElemKernel.v_shape_function
    rcases Bool.eq_false_or_eq_true K.shiftMdot_ with hb | hb
    · rw [hb] at h ⊢; exact h
    · rw [hb] at h ⊢; exact h
  rw [execute_eq, execute_eq]
  refine Prod.ext ?_ ?_
  · funext a b
    simp only
    congr 1
    refine Finset.sum_congr rfl (fun ip hip => ?_)
    have hip2 := Finset.mem_range.mp hip
    unfold ipLhsDelta
    by_cases hb : b < AT.nodesPerElement_
    · rw [lhsFactorFormula_congr K AT sv sv2 ip b (hN ip hip2) hud
        (hdl ip hip2 b hb) (hA ip hip2)]
    · simp [hb]
  · funext i
    simp only
    congr 1
    refine Finset.sum_congr rfl (fun ip hip => ?_)
    have hip2 := Finset.mem_range.mp hip
    unfold ipRhsDelta
    rw [massFlowBlend_congr K.interpTogether_ K.om_interpTogether_ K AT sv sv2 ip
      (hN ip hip2) hrho hp hud hu hG (hd ip hip2) (hA ip hip2)]

/-- C10 (declared requirements cover every read).  For all solver options, hence
for every combination of the flags `meshMotion_`, `shiftMdot_`, `shiftPoisson_` and
`reducedSensitivities_`, every access of `execute` to the scratch staging (each
gathered nodal field at the width it is read at, the area vectors, the gradient
operator of the residual, the gradient operator of the Jacobian and the shape
function, each in the variant the flags select) is registered in the
data-requirement declaration the constructor leaves under the same options.
Accordingly `execute` is a function of the declared data alone: two scratch
stagings that agree on what the constructor declared give the same buffers. -/
theorem continuity_declared_covers_reads (AT : AlgTraits) (repo : MasterElementRepo)
    (projTimeScale0 : ℚ) (metaData : MetaData) (solnOpts : SolutionOptions)
    (dataPreReqs : ElemDataRequests) :
    (∀ r, r ∈ (ContinuityAdvElemKernel.construct AT repo projTimeScale0 metaData solnOpts
          dataPreReqs).1.executeReads →
        (ContinuityAdvElemKernel.construct AT repo projTimeScale0 metaData solnOpts
          dataPreReqs).2.declares AT r)
    ∧ (∀ (timeIntegrator : TimeIntegrator) (sv sv2 : ScratchViews)
        (lhs : Nat → Nat → ℚ) (rhs : Nat → ℚ),
        ScratchViews.agreeOnDeclared AT
          (ContinuityAdvElemKernel.construct AT repo projTimeScale0 metaData solnOpts
            dataPreReqs).2 sv sv2 →
        (ContinuityAdvElemKernel.constructed AT repo projTimeScale0 metaData solnOpts
            dataPreReqs timeIntegrator).execute AT lhs rhs sv
          = (ContinuityAdvElemKernel.constructed AT repo projTimeScale0 metaData solnOpts
              dataPreReqs timeIntegrator).execute AT lhs rhs sv2) := by
  refine ⟨fun r hr => construct_declares_reads AT repo projTimeScale0 metaData solnOpts
    dataPreReqs r hr, ?_⟩
  intro timeIntegrator sv sv2 lhs rhs hagree
  exact execute_congr_of_declared
    (ContinuityAdvElemKernel.constructed AT repo projTimeScale0 metaData solnOpts
      dataPreReqs timeIntegrator) AT
    (ContinuityAdvElemKernel.construct AT repo projTimeScale0 metaData solnOpts
      dataPreReqs).2
    (fun r hr => construct_declares_reads AT repo projTimeScale0 metaData solnOpts
      dataPreReqs r hr) sv sv2 hagree lhs rhs

/-- Witness of C10 on the example element: the altered scratch staging agrees with
the original one on everything the example kernel declared, and `execute` gives the
same buffers on both. -/
theorem continuity_declared_covers_reads_witness :
    ScratchViews.agreeOnDeclared exampleTraits
        (ContinuityAdvElemKernel.construct exampleTraits exampleRepo 1 exampleMetaData
          exampleOptions emptyRequests).2 exampleScratch exampleScratchAltered
    ∧ (ContinuityAdvElemKernel.constructed exampleTraits exampleRepo 1 exampleMetaData
          exampleOptions emptyRequests exampleTimeIntegrator).execute exampleTraits
          exampleLhs exampleRhs exampleScratch
        = (ContinuityAdvElemKernel.constructed exampleTraits exampleRepo 1 exampleMetaData
            exampleOptions emptyRequests exampleTimeIntegrator).execute exampleTraits
            exampleLhs exampleRhs exampleScratchAltered := by
  have hf : (ContinuityAdvElemKernel.construct exampleTraits exampleRepo 1 exampleMetaData
      exampleOptions emptyRequests).2.fields = [(0, 2), (4, 1), (3, 1), (6, 1), (2, 2)] := by
    decide
  have hm : (ContinuityAdvElemKernel.construct exampleTraits exampleRepo 1 exampleMetaData
      exampleOptions emptyRequests).2.meCalls
      = [(ELEM_DATA_NEEDED.SCS_AREAV, COORDS_TYPES.CURRENT_COORDINATES),
         (ELEM_DATA_NEEDED.SCS_GRAD_OP, COORDS_TYPES.CURRENT_COORDINATES),
         (ELEM_DATA_NEEDED.SCS_SHIFTED_GRAD_OP, COORDS_TYPES.CURRENT_COORDINATES),
         (ELEM_DATA_NEEDED.SCS_SHAPE_FCN, COORDS_TYPES.CURRENT_COORDINATES)] := by
    decide
  have hagree : ScratchViews.agreeOnDeclared exampleTraits
      (ContinuityAdvElemKernel.construct exampleTraits exampleRepo 1 exampleMetaData
        exampleOptions emptyRequests).2 exampleScratch exampleScratchAltered := by
    refine ⟨?_, ?_, ?_⟩
    · intro field hfield ic _
      rw [hf] at hfield
      simp at hfield
      rcases hfield with h | h | h <;> subst h <;> simp [exampleScratchAltered]
    · intro field hfield ic _ j _
      rw [hf] at hfield
      simp [exampleTraits] at hfield
      rcases hfield with h | h <;> subst h <;> simp [exampleScratchAltered]
    · intro data cType hdata
      rw [hm] at hdata
      simp at hdata
      rcases hdata with ⟨h1, h2⟩ | ⟨h1, h2⟩ | ⟨h1, h2⟩ | ⟨h1, h2⟩ <;> subst h1 <;> subst h2 <;>
        simp [MasterElementViews.agreeOn, exampleScratchAltered, exampleScratch]
  exact ⟨hagree,
    (continuity_declared_covers_reads exampleTraits exampleRepo 1 exampleMetaData
      exampleOptions emptyRequests).2 exampleTimeIntegrator exampleScratch
      exampleScratchAltered exampleLhs exampleRhs hagree⟩

/-! ## Lemmas on `EffSSTDiffFluxCoeffAlg` -/

theorem nodeBody_values (visc tvisc evisc fOneBlend : Nat) (sigmaOne sigmaTwo : ℚ)
    (fm : NgpFieldManager) (n field m : Nat) :
    (EffSSTDiffFluxCoeffAlg.nodeBody visc tvisc evisc fOneBlend sigmaOne sigmaTwo fm n).values
        field m
      = if field = evisc ∧ m = n then blendLaw visc tvisc fOneBlend sigmaOne sigmaTwo fm n
        else fm.values field m := by
  unfold EffSSTDiffFluxCoeffAlg.nodeBody NgpFieldManager.set blendLaw
  by_cases h1 : field = evisc
  · subst h1
    by_cases h2 : m = n
    · subst h2; simp
    · simp [Function.update_noteq h2, h2]
  · simp [Function.update_noteq h1, h1]

theorem nodeBody_modified (visc tvisc evisc fOneBlend : Nat) (sigmaOne sigmaTwo : ℚ)
    (fm : NgpFieldManager) (n : Nat) :
    (EffSSTDiffFluxCoeffAlg.nodeBody visc tvisc evisc fOneBlend sigmaOne
        sigmaTwo fm n).modifiedOnDevice = fm.modifiedOnDevice := rfl

/-- Running the functor over a list of distinct nodes: the effective-diffusivity
value of each listed node becomes the blend law of the initial storage at that
node; every other value stays. -/
theorem foldl_nodeBody_values (visc tvisc evisc fOneBlend : Nat) (sigmaOne sigmaTwo : ℚ)
    (l : List Nat) (hl : l.Nodup) (fm : NgpFieldManager) (field m : Nat) :
    (l.foldl (EffSSTDiffFluxCoeffAlg.nodeBody visc tvisc evisc fOneBlend sigmaOne sigmaTwo)
        fm).values field m
      = if field = evisc ∧ m ∈ l then blendLaw visc tvisc fOneBlend sigmaOne sigmaTwo fm m
        else fm.values field m := by
  induction l generalizing fm with
  | nil => simp
  | cons n l ih =>
    have hn : n ∉ l := (List.nodup_cons.mp hl).1
    rw [List.foldl_cons, ih (List.nodup_cons.mp hl).2]
    by_cases h1 : field = evisc ∧ m ∈ l
    · have hmn : m ≠ n := fun h => hn (h ▸ h1.2)
      have hb : blendLaw visc tvisc fOneBlend sigmaOne sigmaTwo
          (EffSSTDiffFluxCoeffAlg.nodeBody visc tvisc evisc fOneBlend sigmaOne sigmaTwo fm n) m
          = blendLaw visc tvisc fOneBlend sigmaOne sigmaTwo fm m := by
        unfold blendLaw NgpFieldManager.get
        simp only [nodeBody_values, hmn, and_false, if_false]
      simp [h1, hb]
    · rw [if_neg h1, nodeBody_values]
      by_cases h2 : field = evisc
      · have hml : m ∉ l := fun h => h1 ⟨h2, h⟩
        by_cases h3 : m = n
        · simp [h2, h3]
        · simp [h2, h3, hml]
      · simp [h2]

theorem selectedEntities_nodup (mesh : NgpMesh) (sel : Selector) :
    (selectedEntities mesh sel).Nodup :=
  (List.nodup_range mesh.numNodes).filter _

theorem mem_selectedEntities (mesh : NgpMesh) (sel : Selector) (n : Nat) :
    n ∈ selectedEntities mesh sel ↔ n < mesh.numNodes ∧ sel.selects n = true := by
  simp [selectedEntities, List.mem_filter]

/-- The field values after `execute`, in closed form. -/
theorem effSST_execute_values (A : EffSSTDiffFluxCoeffAlg) (fm : NgpFieldManager)
    (field m : Nat) :
    (A.execute fm).get field m
      = if field = A.evisc_ ∧ m ∈ A.writtenNodes then
          blendLaw A.visc_ A.tvisc_ A.fOneBlend_ A.sigmaOne_ A.sigmaTwo_ fm m
        else fm.get field m := by
  unfold EffSSTDiffFluxCoeffAlg.execute run_entity_algorithm NgpFieldManager.modify_on_device
    NgpFieldManager.get EffSSTDiffFluxCoeffAlg.writtenNodes
  simp only
  rw [foldl_nodeBody_values _ _ _ _ _ _ _ (selectedEntities_nodup _ _)]

theorem mem_writtenNodes (A : EffSSTDiffFluxCoeffAlg) (n : Nat) :
    n ∈ A.writtenNodes ↔
      n < A.realm_.ngp_mesh.numNodes ∧
      (A.realm_.meta_data.locally_owned_part.containsNode n = true ∨
        A.realm_.meta_data.globally_shared_part.containsNode n = true) ∧
      A.viscField_.definedOn n = true := by
  unfold EffSSTDiffFluxCoeffAlg.writtenNodes
  rw [mem_selectedEntities]
  simp [EffSSTDiffFluxCoeffAlg.sel, Selector.inter, Selector.union, Selector.ofPart,
    selectField]

/-! ## Claims on `EffSSTDiffFluxCoeffAlg` -/

/-- C6 (blend law).  For an algorithm built by the constructor with coefficients
`sigmaOne`, `sigmaTwo`, at every selected node `n` (a node of the mesh that is
locally owned or shared and passes the field selector) `execute` leaves
`evisc[n] = visc[n] + tvisc[n] * (fOneBlend[n]*sigmaOne + (1 - fOneBlend[n])*sigmaTwo)`,
the right-hand side read before the call.  The value is determined by the three
input values at `n`: any other storage that agrees with this one on `visc`,
`tvisc` and `fOneBlend` at `n` yields the same `evisc[n]`, whatever its other
nodes and its previous `evisc` hold. -/
theorem effSST_execute_blend_law (realm : Realm) (part : Part)
    (visc tvisc evisc : ScalarFieldType) (sigmaOne sigmaTwo : ℚ)
    (fm : NgpFieldManager) (n : Nat)
    (hn : n < realm.ngp_mesh.numNodes)
    (hown : realm.meta_data.locally_owned_part.containsNode n = true ∨
      realm.meta_data.globally_shared_part.containsNode n = true)
    (hfield : visc.definedOn n = true) :
    ((EffSSTDiffFluxCoeffAlg.construct realm part visc tvisc evisc sigmaOne
        sigmaTwo).execute fm).get evisc.mesh_meta_data_ordinal n
      = fm.get visc.mesh_meta_data_ordinal n
        + fm.get tvisc.mesh_meta_data_ordinal n *
          (fm.get (realm.meta_data.get_field_ordinal "sst_f_one_blending") n * sigmaOne
            + (1 - fm.get (realm.meta_data.get_field_ordinal "sst_f_one_blending") n)
              * sigmaTwo)
    ∧ ∀ fm2 : NgpFieldManager,
        fm2.get visc.mesh_meta_data_ordinal n = fm.get visc.mesh_meta_data_ordinal n →
        fm2.get tvisc.mesh_meta_data_ordinal n = fm.get tvisc.mesh_meta_data_ordinal n →
        fm2.get (realm.meta_data.get_field_ordinal "sst_f_one_blending") n
          = fm.get (realm.meta_data.get_field_ordinal "sst_f_one_blending") n →
        ((EffSSTDiffFluxCoeffAlg.construct realm part visc tvisc evisc sigmaOne
            sigmaTwo).execute fm2).get evisc.mesh_meta_data_ordinal n
          = ((EffSSTDiffFluxCoeffAlg.construct realm part visc tvisc evisc sigmaOne
              sigmaTwo).execute fm).get evisc.mesh_meta_data_ordinal n := by
  have hmem : n ∈ (EffSSTDiffFluxCoeffAlg.construct realm part visc tvisc evisc sigmaOne
      sigmaTwo).writtenNodes :=
    (mem_writtenNodes _ n).mpr ⟨hn, hown, hfield⟩
  have key : ∀ g : NgpFieldManager,
      ((EffSSTDiffFluxCoeffAlg.construct realm part visc tvisc evisc sigmaOne
          sigmaTwo).execute g).get evisc.mesh_meta_data_ordinal n
        = g.get visc.mesh_meta_data_ordinal n
          + g.get tvisc.mesh_meta_data_ordinal n *
            (g.get (realm.meta_data.get_field_ordinal "sst_f_one_blending") n * sigmaOne
              + (1 - g.get (realm.meta_data.get_field_ordinal "sst_f_one_blending") n)
                * sigmaTwo) := by
    intro g
    rw [effSST_execute_values]
    have he : (EffSSTDiffFluxCoeffAlg.construct realm part visc tvisc evisc sigmaOne
        sigmaTwo).evisc_ = evisc.mesh_meta_data_ordinal := rfl
    rw [if_pos ⟨he.symm, hmem⟩]
    rfl
  refine ⟨key fm, ?_⟩
  intro fm2 h1 h2 h3
  rw [key fm2, key fm, h1, h2, h3]

/-- Witness of C6 on the example mesh: node 3 is locally owned and carries the
molecular viscosity, and its effective viscosity becomes `1 + 10 * (1/2*2 + 1/2*3)`. -/
theorem effSST_execute_blend_law_witness :
    (3 < exampleRealm.ngp_mesh.numNodes
      ∧ (exampleRealm.meta_data.locally_owned_part.containsNode 3 = true ∨
          exampleRealm.meta_data.globally_shared_part.containsNode 3 = true)
      ∧ exampleVisc.definedOn 3 = true)
    ∧ (exampleAlg.execute exampleFields).get 9 3 = 26 := by
  refine ⟨⟨by decide, Or.inl (by decide), by decide⟩, ?_⟩
  have h := (effSST_execute_blend_law exampleRealm { containsNode := fun _ => true }
    exampleVisc exampleTvisc exampleEvisc 2 3 exampleFields 3 (by decide)
    (Or.inl (by decide)) (by decide)).1
  have e : exampleRealm.meta_data.get_field_ordinal "sst_f_one_blending" = 10 := by decide
  rw [e] at h
  rw [show exampleAlg = EffSSTDiffFluxCoeffAlg.construct exampleRealm
      { containsNode := fun _ => true } exampleVisc exampleTvisc exampleEvisc 2 3 from rfl]
  rw [show (9 : Nat) = exampleEvisc.mesh_meta_data_ordinal from rfl, h]
  norm_num [NgpFieldManager.get, exampleFields, exampleVisc, exampleTvisc]

/-- C7 (boundary cases of the blend law).  At every selected node, `execute` leaves
`visc + tvisc*sigmaTwo` when the blending value is 0, `visc + tvisc*sigmaOne` when it
is 1, and `visc + tvisc*(sigmaOne + sigmaTwo)/2` when it is 1/2. -/
theorem effSST_execute_blend_boundary (realm : Realm) (part : Part)
    (visc tvisc evisc : ScalarFieldType) (sigmaOne sigmaTwo : ℚ)
    (fm : NgpFieldManager) (n : Nat)
    (hn : n < realm.ngp_mesh.numNodes)
    (hown : realm.meta_data.locally_owned_part.containsNode n = true ∨
      realm.meta_data.globally_shared_part.containsNode n = true)
    (hfield : visc.definedOn n = true) :
    (fm.get (realm.meta_data.get_field_ordinal "sst_f_one_blending") n = 0 →
      ((EffSSTDiffFluxCoeffAlg.construct realm part visc tvisc evisc sigmaOne
          sigmaTwo).execute fm).get evisc.mesh_meta_data_ordinal n
        = fm.get visc.mesh_meta_data_ordinal n
          + fm.get tvisc.mesh_meta_data_ordinal n * sigmaTwo)
    ∧ (fm.get (realm.meta_data.get_field_ordinal "sst_f_one_blending") n = 1 →
      ((EffSSTDiffFluxCoeffAlg.construct realm part visc tvisc evisc sigmaOne
          sigmaTwo).execute fm).get evisc.mesh_meta_data_ordinal n
        = fm.get visc.mesh_meta_data_ordinal n
          + fm.get tvisc.mesh_meta_data_ordinal n * sigmaOne)
    ∧ (fm.get (realm.meta_data.get_field_ordinal "sst_f_one_blending") n = 1 / 2 →
      ((EffSSTDiffFluxCoeffAlg.construct realm part visc tvisc evisc sigmaOne
          sigmaTwo).execute fm).get evisc.mesh_meta_data_ordinal n
        = fm.get visc.mesh_meta_data_ordinal n
          + fm.get tvisc.mesh_meta_data_ordinal n * (sigmaOne + sigmaTwo) / 2) := by
  have hmem : n ∈ (EffSSTDiffFluxCoeffAlg.construct realm part visc tvisc evisc sigmaOne
      sigmaTwo).writtenNodes :=
    (mem_writtenNodes _ n).mpr ⟨hn, hown, hfield⟩
  have he : (EffSSTDiffFluxCoeffAlg.construct realm part visc tvisc evisc sigmaOne
      sigmaTwo).evisc_ = evisc.mesh_meta_data_ordinal := rfl
  have key : ((EffSSTDiffFluxCoeffAlg.construct realm part visc tvisc evisc sigmaOne
        sigmaTwo).execute fm).get evisc.mesh_meta_data_ordinal n
      = fm.get visc.mesh_meta_data_ordinal n
        + fm.get tvisc.mesh_meta_data_ordinal n *
          (fm.get (realm.meta_data.get_field_ordinal "sst_f_one_blending") n * sigmaOne
            + (1 - fm.get (realm.meta_data.get_field_ordinal "sst_f_one_blending") n)
              * sigmaTwo) := by
    rw [effSST_execute_values, if_pos ⟨he.symm, hmem⟩]
    rfl
  refine ⟨?_, ?_, ?_⟩
  · intro h
    rw [key, h]
    ring
  · intro h
    rw [key, h]
    ring
  · intro h
    rw [key, h]
    ring

/-- Witness of C7 on the example mesh: nodes 0, 4 and 3 are selected and have
blending values 0, 1 and 1/2; their effective viscosity becomes
`visc + tvisc * sigmaTwo`, `visc + tvisc * sigmaOne` and
`visc + tvisc * (sigmaOne + sigmaTwo) / 2`. -/
theorem effSST_execute_blend_boundary_witness :
    ((0 < exampleRealm.ngp_mesh.numNodes
        ∧ exampleRealm.meta_data.locally_owned_part.containsNode 0 = true
        ∧ exampleVisc.definedOn 0 = true
        ∧ exampleFields.get
            (exampleRealm.meta_data.get_field_ordinal "sst_f_one_blending") 0 = 0)
      ∧ ((EffSSTDiffFluxCoeffAlg.construct exampleRealm { containsNode := fun _ => true }
            exampleVisc exampleTvisc exampleEvisc 2 3).execute exampleFields).get
            exampleEvisc.mesh_meta_data_ordinal 0
          = exampleFields.get exampleVisc.mesh_meta_data_ordinal 0
            + exampleFields.get exampleTvisc.mesh_meta_data_ordinal 0 * 3)
    ∧ ((4 < exampleRealm.ngp_mesh.numNodes
        ∧ exampleRealm.meta_data.globally_shared_part.containsNode 4 = true
        ∧ exampleVisc.definedOn 4 = true
        ∧ exampleFields.get
            (exampleRealm.meta_data.get_field_ordinal "sst_f_one_blending") 4 = 1)
      ∧ ((EffSSTDiffFluxCoeffAlg.construct exampleRealm { containsNode := fun _ => true }
            exampleVisc exampleTvisc exampleEvisc 2 3).execute exampleFields).get
            exampleEvisc.mesh_meta_data_ordinal 4
          = exampleFields.get exampleVisc.mesh_meta_data_ordinal 4
            + exampleFields.get exampleTvisc.mesh_meta_data_ordinal 4 * 2)
    ∧ ((3 < exampleRealm.ngp_mesh.numNodes
        ∧ exampleRealm.meta_data.locally_owned_part.containsNode 3 = true
        ∧ exampleVisc.definedOn 3 = true
        ∧ exampleFields.get
            (exampleRealm.meta_data.get_field_ordinal "sst_f_one_blending") 3 = 1 / 2)
      ∧ ((EffSSTDiffFluxCoeffAlg.construct exampleRealm { containsNode := fun _ => true }
            exampleVisc exampleTvisc exampleEvisc 2 3).execute exampleFields).get
            exampleEvisc.mesh_meta_data_ordinal 3
          = exampleFields.get exampleVisc.mesh_meta_data_ordinal 3
            + exampleFields.get exampleTvisc.mesh_meta_data_ordinal 3 * (2 + 3) / 2) := by
  have e : exampleRealm.meta_data.get_field_ordinal "sst_f_one_blending" = 10 := by decide
  have f0 : exampleFields.get
      (exampleRealm.meta_data.get_field_ordinal "sst_f_one_blending") 0 = 0 := by
    rw [e]; simp [NgpFieldManager.get, exampleFields]
  have f4 : exampleFields.get
      (exampleRealm.meta_data.get_field_ordinal "sst_f_one_blending") 4 = 1 := by
    rw [e]; simp [NgpFieldManager.get, exampleFields]
  have f3 : exampleFields.get
      (exampleRealm.meta_data.get_field_ordinal "sst_f_one_blending") 3 = 1 / 2 := by
    rw [e]; simp [NgpFieldManager.get, exampleFields]
  exact
    ⟨⟨⟨by decide, by decide, by decide, f0⟩,
      (effSST_execute_blend_boundary exampleRealm { containsNode := fun _ => true }
        exampleVisc exampleTvisc exampleEvisc 2 3 exampleFields 0 (by decide)
        (Or.inl (by decide)) (by decide)).1 f0⟩,
     ⟨⟨by decide, by decide, by decide, f4⟩,
      (effSST_execute_blend_boundary exampleRealm { containsNode := fun _ => true }
        exampleVisc exampleTvisc exampleEvisc 2 3 exampleFields 4 (by decide)
        (Or.inr (by decide)) (by decide)).2.1 f4⟩,
     ⟨⟨by decide, by decide, by decide, f3⟩,
      (effSST_execute_blend_boundary exampleRealm { containsNode := fun _ => true }
        exampleVisc exampleTvisc exampleEvisc 2 3 exampleFields 3 (by decide)
        (Or.inl (by decide)) (by decide)).2.2 f3⟩⟩

/-- C8 as stated fails.  On the example mesh node 1 is shared and carries the
effective-viscosity field, yet `execute` does not write it: its value stays `7`
while the blend law would give `21`.  Hence the written set is not the set of owned
or shared nodes that carry the effective-viscosity field. -/
theorem effSST_selector_not_target_field :
    (1 < exampleRealm.ngp_mesh.numNodes
      ∧ exampleRealm.meta_data.globally_shared_part.containsNode 1 = true
      ∧ exampleEvisc.definedOn 1 = true
      ∧ (exampleAlg.execute exampleFields).get exampleEvisc.mesh_meta_data_ordinal 1 = 7
      ∧ blendLaw exampleAlg.visc_ exampleAlg.tvisc_ exampleAlg.fOneBlend_
          exampleAlg.sigmaOne_ exampleAlg.sigmaTwo_ exampleFields 1 = 21)
    ∧ ¬ (∀ n, n ∈ exampleAlg.writtenNodes ↔
          (n < exampleRealm.ngp_mesh.numNodes
            ∧ (exampleRealm.meta_data.locally_owned_part.containsNode n = true ∨
                exampleRealm.meta_data.globally_shared_part.containsNode n = true)
            ∧ exampleEvisc.definedOn n = true)) := by
  have hnot : (1 : Nat) ∉ exampleAlg.writtenNodes := by
    rw [mem_writtenNodes]
    rintro ⟨_, _, h⟩
    revert h
    decide
  refine ⟨⟨by decide, by decide, by decide, ?_, ?_⟩, ?_⟩
  · rw [effSST_execute_values, if_neg (fun h => hnot h.2)]
    norm_num [NgpFieldManager.get, exampleFields, exampleEvisc]
  · have e : exampleAlg.fOneBlend_ = 10 := by decide
    rw [e]
    norm_num [blendLaw, NgpFieldManager.get, exampleFields, exampleAlg,
      EffSSTDiffFluxCoeffAlg.construct, exampleVisc, exampleTvisc]
  · intro h
    exact hnot ((h 1).mpr ⟨by decide, Or.inr (by decide), by decide⟩)

/-- C8, amended.  For an algorithm built by the constructor, the nodes written by
`execute` are exactly the nodes of the mesh that are locally owned or shared and
carry the molecular-viscosity field (the field `visc` handed to the constructor and
kept as `viscField_`); each of them receives the blend law; and at every node
outside that set every field value, the effective diffusivity included, is
unchanged. -/
theorem effSST_execute_selector (realm : Realm) (part : Part)
    (visc tvisc evisc : ScalarFieldType) (sigmaOne sigmaTwo : ℚ) (fm : NgpFieldManager) :
    (∀ n, n ∈ (EffSSTDiffFluxCoeffAlg.construct realm part visc tvisc evisc sigmaOne
          sigmaTwo).writtenNodes ↔
        (n < realm.ngp_mesh.numNodes
          ∧ (realm.meta_data.locally_owned_part.containsNode n = true ∨
              realm.meta_data.globally_shared_part.containsNode n = true)
          ∧ visc.definedOn n = true))
    ∧ (∀ n, n ∈ (EffSSTDiffFluxCoeffAlg.construct realm part visc tvisc evisc sigmaOne
          sigmaTwo).writtenNodes →
        ((EffSSTDiffFluxCoeffAlg.construct realm part visc tvisc evisc sigmaOne
            sigmaTwo).execute fm).get evisc.mesh_meta_data_ordinal n
          = blendLaw visc.mesh_meta_data_ordinal tvisc.mesh_meta_data_ordinal
              (realm.meta_data.get_field_ordinal "sst_f_one_blending") sigmaOne sigmaTwo fm n)
    ∧ (∀ n, n ∉ (EffSSTDiffFluxCoeffAlg.construct realm part visc tvisc evisc sigmaOne
          sigmaTwo).writtenNodes →
        ∀ field,
          ((EffSSTDiffFluxCoeffAlg.construct realm part visc tvisc evisc sigmaOne
            sigmaTwo).execute fm).get field n = fm.get field n) := by
  refine ⟨fun n => mem_writtenNodes _ n, ?_, ?_⟩
  · intro n hmem
    have he : (EffSSTDiffFluxCoeffAlg.construct realm part visc tvisc evisc sigmaOne
        sigmaTwo).evisc_ = evisc.mesh_meta_data_ordinal := rfl
    rw [effSST_execute_values, if_pos ⟨he.symm, hmem⟩]
    rfl
  · intro n hmem field
    rw [effSST_execute_values, if_neg (fun h => hmem h.2)]

/-- Witness of the amended C8 on the example mesh: the ghosted node 2 is not
written, and its effective viscosity is unchanged. -/
theorem effSST_execute_selector_witness :
    (2 : Nat) ∉ (EffSSTDiffFluxCoeffAlg.construct exampleRealm
        { containsNode := fun _ => true } exampleVisc exampleTvisc exampleEvisc 2
        3).writtenNodes
    ∧ ((EffSSTDiffFluxCoeffAlg.construct exampleRealm { containsNode := fun _ => true }
          exampleVisc exampleTvisc exampleEvisc 2 3).execute exampleFields).get 9 2
        = exampleFields.get 9 2 :=
  have hnot : (2 : Nat) ∉ (EffSSTDiffFluxCoeffAlg.construct exampleRealm
      { containsNode := fun _ => true } exampleVisc exampleTvisc exampleEvisc 2
      3).writtenNodes := by
    rw [mem_writtenNodes]
    rintro ⟨_, h, _⟩
    revert h
    decide
  ⟨hnot,
   (effSST_execute_selector exampleRealm { containsNode := fun _ => true }
      exampleVisc exampleTvisc exampleEvisc 2 3 exampleFields).2.2 2 hnot 9⟩

/-! ## Device marks and repeated calls of `EffSSTDiffFluxCoeffAlg::execute` -/

theorem foldl_nodeBody_modified (visc tvisc evisc fOneBlend : Nat) (sigmaOne sigmaTwo : ℚ)
    (l : List Nat) (fm : NgpFieldManager) :
    (l.foldl (EffSSTDiffFluxCoeffAlg.nodeBody visc tvisc evisc fOneBlend sigmaOne sigmaTwo)
        fm).modifiedOnDevice = fm.modifiedOnDevice := by
  induction l generalizing fm with
  | nil => rfl
  | cons n l ih => rw [List.foldl_cons, ih, nodeBody_modified]

/-- The modified-on-device marks after `execute`, in closed form. -/
theorem effSST_execute_modified (A : EffSSTDiffFluxCoeffAlg) (fm : NgpFieldManager)
    (field : Nat) :
    (A.execute fm).modifiedOnDevice field
      = if field = A.evisc_ then true else fm.modifiedOnDevice field := by
  unfold EffSSTDiffFluxCoeffAlg.execute run_entity_algorithm NgpFieldManager.modify_on_device
  simp only
  rw [foldl_nodeBody_modified]
  by_cases h : field = A.evisc_
  · subst h; simp
  · simp [Function.update_noteq h, h]

/-- C11 (device mark).  For an algorithm built by the constructor, every call of
`execute` leaves the effective-diffusivity field marked as modified on the device,
also when the selector picks no node; the mark is applied to the storage left by
the nodal writes and does not alter any value.  Every field other than the
effective-diffusivity field (the molecular viscosity, the turbulent viscosity and
the blending field, when they are distinct from it) keeps its mark and all its
values.  `execute` clears no mark, so it performs no host synchronization, and
after it a synchronization to the host is owed for the effective-diffusivity
field until an explicit `sync_to_host` clears the mark. -/
theorem effSST_execute_marks_device (realm : Realm) (part : Part)
    (visc tvisc evisc : ScalarFieldType) (sigmaOne sigmaTwo : ℚ) (fm : NgpFieldManager) :
    ((EffSSTDiffFluxCoeffAlg.construct realm part visc tvisc evisc sigmaOne
        sigmaTwo).execute fm).modifiedOnDevice evisc.mesh_meta_data_ordinal = true
    ∧ ((EffSSTDiffFluxCoeffAlg.construct realm part visc tvisc evisc sigmaOne
          sigmaTwo).writtenNodes = [] →
        (EffSSTDiffFluxCoeffAlg.construct realm part visc tvisc evisc sigmaOne
          sigmaTwo).execute fm = fm.modify_on_device evisc.mesh_meta_data_ordinal)
    ∧ ((EffSSTDiffFluxCoeffAlg.construct realm part visc tvisc evisc sigmaOne
          sigmaTwo).execute fm
        = ((EffSSTDiffFluxCoeffAlg.construct realm part visc tvisc evisc sigmaOne
            sigmaTwo).afterNodalWrites fm).modify_on_device evisc.mesh_meta_data_ordinal
      ∧ ((EffSSTDiffFluxCoeffAlg.construct realm part visc tvisc evisc sigmaOne
            sigmaTwo).execute fm).values
          = ((EffSSTDiffFluxCoeffAlg.construct realm part visc tvisc evisc sigmaOne
              sigmaTwo).afterNodalWrites fm).values)
    ∧ (∀ field, field ≠ evisc.mesh_meta_data_ordinal →
        ((EffSSTDiffFluxCoeffAlg.construct realm part visc tvisc evisc sigmaOne
            sigmaTwo).execute fm).modifiedOnDevice field = fm.modifiedOnDevice field
        ∧ ∀ n, ((EffSSTDiffFluxCoeffAlg.construct realm part visc tvisc evisc sigmaOne
            sigmaTwo).execute fm).get field n = fm.get field n)
    ∧ (∀ field, fm.modifiedOnDevice field = true →
        ((EffSSTDiffFluxCoeffAlg.construct realm part visc tvisc evisc sigmaOne
            sigmaTwo).execute fm).modifiedOnDevice field = true)
    ∧ (((EffSSTDiffFluxCoeffAlg.construct realm part visc tvisc evisc sigmaOne
          sigmaTwo).execute fm).need_sync_to_host evisc.mesh_meta_data_ordinal = true
      ∧ (((EffSSTDiffFluxCoeffAlg.construct realm part visc tvisc evisc sigmaOne
          sigmaTwo).execute fm).sync_to_host
            evisc.mesh_meta_data_ordinal).need_sync_to_host evisc.mesh_meta_data_ordinal
          = false) := by
  have he : (EffSSTDiffFluxCoeffAlg.construct realm part visc tvisc evisc sigmaOne
      sigmaTwo).evisc_ = evisc.mesh_meta_data_ordinal := rfl
  have hmark : ((EffSSTDiffFluxCoeffAlg.construct realm part visc tvisc evisc sigmaOne
      sigmaTwo).execute fm).modifiedOnDevice evisc.mesh_meta_data_ordinal = true := by
    rw [effSST_execute_modified, he, if_pos rfl]
  refine ⟨hmark, ?_, ⟨rfl, rfl⟩, ?_, ?_, hmark, ?_⟩
  rotate_right
  · simp [NgpFieldManager.need_sync_to_host, NgpFieldManager.sync_to_host]
  · intro hempty
    unfold EffSSTDiffFluxCoeffAlg.writtenNodes at hempty
    unfold EffSSTDiffFluxCoeffAlg.execute run_entity_algorithm
    simp only [hempty, List.foldl_nil]
    rfl
  · intro field hfield
    refine ⟨?_, ?_⟩
    · rw [effSST_execute_modified, he, if_neg hfield]
    · intro n
      rw [effSST_execute_values, he, if_neg (fun h => hfield h.1)]
  · intro field hfield
    rw [effSST_execute_modified]
    split_ifs
    · rfl
    · exact hfield

/-- Witness of C11 on the example mesh: with every node ghosted the selector is
empty and `execute` only sets the mark; on the example mesh the molecular
viscosity (ordinal 7, distinct from the effective viscosity, ordinal 9) keeps its
mark and its value at node 0. -/
theorem effSST_execute_marks_device_witness :
    ((EffSSTDiffFluxCoeffAlg.construct exampleRealmGhosted { containsNode := fun _ => true }
          exampleVisc exampleTvisc exampleEvisc 2 3).writtenNodes = []
      ∧ (EffSSTDiffFluxCoeffAlg.construct exampleRealmGhosted
            { containsNode := fun _ => true } exampleVisc exampleTvisc exampleEvisc 2
            3).execute exampleFields
          = exampleFields.modify_on_device exampleEvisc.mesh_meta_data_ordinal)
    ∧ ((7 : Nat) ≠ exampleEvisc.mesh_meta_data_ordinal
      ∧ ((EffSSTDiffFluxCoeffAlg.construct exampleRealm { containsNode := fun _ => true }
            exampleVisc exampleTvisc exampleEvisc 2 3).execute
            exampleFields).modifiedOnDevice 7 = exampleFields.modifiedOnDevice 7
      ∧ ((EffSSTDiffFluxCoeffAlg.construct exampleRealm { containsNode := fun _ => true }
            exampleVisc exampleTvisc exampleEvisc 2 3).execute exampleFields).get 7 0
          = exampleFields.get 7 0) := by
  have hempty : (EffSSTDiffFluxCoeffAlg.construct exampleRealmGhosted
      { containsNode := fun _ => true } exampleVisc exampleTvisc exampleEvisc 2
      3).writtenNodes = [] := by decide
  have h7 : (7 : Nat) ≠ exampleEvisc.mesh_meta_data_ordinal := by decide
  exact
    ⟨⟨hempty,
      (effSST_execute_marks_device exampleRealmGhosted { containsNode := fun _ => true }
        exampleVisc exampleTvisc exampleEvisc 2 3 exampleFields).2.1 hempty⟩,
     ⟨h7,
      ((effSST_execute_marks_device exampleRealm { containsNode := fun _ => true }
        exampleVisc exampleTvisc exampleEvisc 2 3 exampleFields).2.2.2.1 7 h7).1,
      ((effSST_execute_marks_device exampleRealm { containsNode := fun _ => true }
        exampleVisc exampleTvisc exampleEvisc 2 3 exampleFields).2.2.2.1 7 h7).2 0⟩⟩

theorem NgpFieldManager.eq_of_fields (a b : NgpFieldManager) (hv : a.values = b.values)
    (hm : a.modifiedOnDevice = b.modifiedOnDevice) : a = b := by
  cases a
  cases b
  simp only at hv hm
  subst hv
  subst hm
  rfl

/-- C17 (idempotence).  For an algorithm built by the constructor whose
effective-diffusivity field is distinct from the molecular-viscosity, the
turbulent-viscosity and the blending field, running `execute` twice in a row leaves
the same storage as running it once: every field value and every
modified-on-device mark agree. -/
theorem effSST_execute_idempotent (realm : Realm) (part : Part)
    (visc tvisc evisc : ScalarFieldType) (sigmaOne sigmaTwo : ℚ) (fm : NgpFieldManager)
    (hvisc : evisc.mesh_meta_data_ordinal ≠ visc.mesh_meta_data_ordinal)
    (htvisc : evisc.mesh_meta_data_ordinal ≠ tvisc.mesh_meta_data_ordinal)
    (hblend : evisc.mesh_meta_data_ordinal
      ≠ realm.meta_data.get_field_ordinal "sst_f_one_blending") :
    (EffSSTDiffFluxCoeffAlg.construct realm part visc tvisc evisc sigmaOne sigmaTwo).execute
        ((EffSSTDiffFluxCoeffAlg.construct realm part visc tvisc evisc sigmaOne
          sigmaTwo).execute fm)
      = (EffSSTDiffFluxCoeffAlg.construct realm part visc tvisc evisc sigmaOne
          sigmaTwo).execute fm
    ∧ (∀ field n,
        ((EffSSTDiffFluxCoeffAlg.construct realm part visc tvisc evisc sigmaOne
            sigmaTwo).execute
          ((EffSSTDiffFluxCoeffAlg.construct realm part visc tvisc evisc sigmaOne
            sigmaTwo).execute fm)).get field n
          = ((EffSSTDiffFluxCoeffAlg.construct realm part visc tvisc evisc sigmaOne
              sigmaTwo).execute fm).get field n)
    ∧ (∀ field,
        ((EffSSTDiffFluxCoeffAlg.construct realm part visc tvisc evisc sigmaOne
            sigmaTwo).execute
          ((EffSSTDiffFluxCoeffAlg.construct realm part visc tvisc evisc sigmaOne
            sigmaTwo).execute fm)).modifiedOnDevice field
          = ((EffSSTDiffFluxCoeffAlg.construct realm part visc tvisc evisc sigmaOne
              sigmaTwo).execute fm).modifiedOnDevice field) := by
  have he : (EffSSTDiffFluxCoeffAlg.construct realm part visc tvisc evisc sigmaOne
      sigmaTwo).evisc_ = evisc.mesh_meta_data_ordinal := rfl
  have hvals : ∀ field n,
      ((EffSSTDiffFluxCoeffAlg.construct realm part visc tvisc evisc sigmaOne
          sigmaTwo).execute
        ((EffSSTDiffFluxCoeffAlg.construct realm part visc tvisc evisc sigmaOne
          sigmaTwo).execute fm)).get field n
        = ((EffSSTDiffFluxCoeffAlg.construct realm part visc tvisc evisc sigmaOne
            sigmaTwo).execute fm).get field n := by
    intro field n
    rw [effSST_execute_values _ ((EffSSTDiffFluxCoeffAlg.construct realm part visc tvisc
      evisc sigmaOne sigmaTwo).execute fm)]
    by_cases h : field = (EffSSTDiffFluxCoeffAlg.construct realm part visc tvisc evisc
        sigmaOne sigmaTwo).evisc_ ∧ n ∈ (EffSSTDiffFluxCoeffAlg.construct realm part visc
        tvisc evisc sigmaOne sigmaTwo).writtenNodes
    · rw [if_pos h, effSST_execute_values _ fm, if_pos h]
      unfold blendLaw
      rw [effSST_execute_values _ fm, effSST_execute_values _ fm, effSST_execute_values _ fm]
      have h1 : ¬ ((EffSSTDiffFluxCoeffAlg.construct realm part visc tvisc evisc sigmaOne
          sigmaTwo).visc_ = (EffSSTDiffFluxCoeffAlg.construct realm part visc tvisc evisc
          sigmaOne sigmaTwo).evisc_ ∧ n ∈ (EffSSTDiffFluxCoeffAlg.construct realm part visc
          tvisc evisc sigmaOne sigmaTwo).writtenNodes) := fun hh => hvisc hh.1.symm
      have h2 : ¬ ((EffSSTDiffFluxCoeffAlg.construct realm part visc tvisc evisc sigmaOne
          sigmaTwo).tvisc_ = (EffSSTDiffFluxCoeffAlg.construct realm part visc tvisc evisc
          sigmaOne sigmaTwo).evisc_ ∧ n ∈ (EffSSTDiffFluxCoeffAlg.construct realm part visc
          tvisc evisc sigmaOne sigmaTwo).writtenNodes) := fun hh => htvisc hh.1.symm
      have h3 : ¬ ((EffSSTDiffFluxCoeffAlg.construct realm part visc tvisc evisc sigmaOne
          sigmaTwo).fOneBlend_ = (EffSSTDiffFluxCoeffAlg.construct realm part visc tvisc
          evisc sigmaOne sigmaTwo).evisc_ ∧ n ∈ (EffSSTDiffFluxCoeffAlg.construct realm part
          visc tvisc evisc sigmaOne sigmaTwo).writtenNodes) := fun hh => hblend hh.1.symm
      rw [if_neg h1, if_neg h2, if_neg h3]
    · rw [if_neg h]
  have hmarks : ∀ field,
      ((EffSSTDiffFluxCoeffAlg.construct realm part visc tvisc evisc sigmaOne
          sigmaTwo).execute
        ((EffSSTDiffFluxCoeffAlg.construct realm part visc tvisc evisc sigmaOne
          sigmaTwo).execute fm)).modifiedOnDevice field
        = ((EffSSTDiffFluxCoeffAlg.construct realm part visc tvisc evisc sigmaOne
            sigmaTwo).execute fm).modifiedOnDevice field := by
    intro field
    rw [effSST_execute_modified _ ((EffSSTDiffFluxCoeffAlg.construct realm part visc tvisc
      evisc sigmaOne sigmaTwo).execute fm), effSST_execute_modified _ fm]
    split_ifs <;> rfl
  refine ⟨?_, hvals, hmarks⟩
  apply NgpFieldManager.eq_of_fields
  · funext field n
    exact hvals field n
  · funext field
    exact hmarks field

/-- Witness of C17 on the example mesh, where the effective viscosity has ordinal
9, the molecular viscosity 7, the turbulent viscosity 8 and the blending field
10. -/
theorem effSST_execute_idempotent_witness :
    (exampleEvisc.mesh_meta_data_ordinal ≠ exampleVisc.mesh_meta_data_ordinal
      ∧ exampleEvisc.mesh_meta_data_ordinal ≠ exampleTvisc.mesh_meta_data_ordinal
      ∧ exampleEvisc.mesh_meta_data_ordinal
          ≠ exampleRealm.meta_data.get_field_ordinal "sst_f_one_blending")
    ∧ (EffSSTDiffFluxCoeffAlg.construct exampleRealm { containsNode := fun _ => true }
          exampleVisc exampleTvisc exampleEvisc 2 3).execute
        ((EffSSTDiffFluxCoeffAlg.construct exampleRealm { containsNode := fun _ => true }
          exampleVisc exampleTvisc exampleEvisc 2 3).execute exampleFields)
      = (EffSSTDiffFluxCoeffAlg.construct exampleRealm { containsNode := fun _ => true }
          exampleVisc exampleTvisc exampleEvisc 2 3).execute exampleFields :=
  ⟨⟨by decide, by decide, by decide⟩,
   (effSST_execute_idempotent exampleRealm { containsNode := fun _ => true }
      exampleVisc exampleTvisc exampleEvisc 2 3 exampleFields (by decide) (by decide)
      (by decide)).1⟩

theorem blend_between (f sigmaOne sigmaTwo : ℚ) (hf0 : 0 ≤ f) (hf1 : f ≤ 1) :
    min sigmaOne sigmaTwo ≤ f * sigmaOne + (1 - f) * sigmaTwo
    ∧ f * sigmaOne + (1 - f) * sigmaTwo ≤ max sigmaOne sigmaTwo := by
  have hg : 0 ≤ 1 - f := by linarith
  have a1 := mul_le_mul_of_nonneg_left (min_le_left sigmaOne sigmaTwo) hf0
  have a2 := mul_le_mul_of_nonneg_left (min_le_right sigmaOne sigmaTwo) hg
  have b1 := mul_le_mul_of_nonneg_left (le_max_left sigmaOne sigmaTwo) hf0
  have b2 := mul_le_mul_of_nonneg_left (le_max_right sigmaOne sigmaTwo) hg
  constructor
  · linarith
  · linarith

/-- C16, amended to exact arithmetic (bounded blend).  With every operation of the
functor exact: for an algorithm built by the constructor and a selected
node whose blending value `f` satisfies `0 <= f <= 1`, the blended coefficient
`f*sigmaOne + (1-f)*sigmaTwo` lies between `min(sigmaOne, sigmaTwo)` and
`max(sigmaOne, sigmaTwo)`; when `tvisc >= 0` at the node the effective diffusivity
left by `execute` lies between `visc + tvisc*min(sigmaOne, sigmaTwo)` and
`visc + tvisc*max(sigmaOne, sigmaTwo)`, and it is at least `visc` when in addition
both coefficients are non-negative. -/
theorem effSST_execute_blend_bounded (realm : Realm) (part : Part)
    (visc tvisc evisc : ScalarFieldType) (sigmaOne sigmaTwo : ℚ)
    (fm : NgpFieldManager) (n : Nat)
    (hn : n < realm.ngp_mesh.numNodes)
    (hown : realm.meta_data.locally_owned_part.containsNode n = true ∨
      realm.meta_data.globally_shared_part.containsNode n = true)
    (hfield : visc.definedOn n = true)
    (hf0 : 0 ≤ fm.get (realm.meta_data.get_field_ordinal "sst_f_one_blending") n)
    (hf1 : fm.get (realm.meta_data.get_field_ordinal "sst_f_one_blending") n ≤ 1) :
    (min sigmaOne sigmaTwo
        ≤ fm.get (realm.meta_data.get_field_ordinal "sst_f_one_blending") n * sigmaOne
          + (1 - fm.get (realm.meta_data.get_field_ordinal "sst_f_one_blending") n)
            * sigmaTwo
      ∧ fm.get (realm.meta_data.get_field_ordinal "sst_f_one_blending") n * sigmaOne
          + (1 - fm.get (realm.meta_data.get_field_ordinal "sst_f_one_blending") n)
            * sigmaTwo
        ≤ max sigmaOne sigmaTwo)
    ∧ (0 ≤ fm.get tvisc.mesh_meta_data_ordinal n →
        fm.get visc.mesh_meta_data_ordinal n
            + fm.get tvisc.mesh_meta_data_ordinal n * min sigmaOne sigmaTwo
          ≤ ((EffSSTDiffFluxCoeffAlg.construct realm part visc tvisc evisc sigmaOne
              sigmaTwo).execute fm).get evisc.mesh_meta_data_ordinal n
        ∧ ((EffSSTDiffFluxCoeffAlg.construct realm part visc tvisc evisc sigmaOne
              sigmaTwo).execute fm).get evisc.mesh_meta_data_ordinal n
          ≤ fm.get visc.mesh_meta_data_ordinal n
            + fm.get tvisc.mesh_meta_data_ordinal n * max sigmaOne sigmaTwo)
    ∧ (0 ≤ fm.get tvisc.mesh_meta_data_ordinal n → 0 ≤ sigmaOne → 0 ≤ sigmaTwo →
        fm.get visc.mesh_meta_data_ordinal n
          ≤ ((EffSSTDiffFluxCoeffAlg.construct realm part visc tvisc evisc sigmaOne
              sigmaTwo).execute fm).get evisc.mesh_meta_data_ordinal n) := by
  have hmem : n ∈ (EffSSTDiffFluxCoeffAlg.construct realm part visc tvisc evisc sigmaOne
      sigmaTwo).writtenNodes :=
    (mem_writtenNodes _ n).mpr ⟨hn, hown, hfield⟩
  have he : (EffSSTDiffFluxCoeffAlg.construct realm part visc tvisc evisc sigmaOne
      sigmaTwo).evisc_ = evisc.mesh_meta_data_ordinal := rfl
  have key : ((EffSSTDiffFluxCoeffAlg.construct realm part visc tvisc evisc sigmaOne
        sigmaTwo).execute fm).get evisc.mesh_meta_data_ordinal n
      = fm.get visc.mesh_meta_data_ordinal n
        + fm.get tvisc.mesh_meta_data_ordinal n *
          (fm.get (realm.meta_data.get_field_ordinal "sst_f_one_blending") n * sigmaOne
            + (1 - fm.get (realm.meta_data.get_field_ordinal "sst_f_one_blending") n)
              * sigmaTwo) := by
    rw [effSST_execute_values, if_pos ⟨he.symm, hmem⟩]
    rfl
  have hb := blend_between
    (fm.get (realm.meta_data.get_field_ordinal "sst_f_one_blending") n) sigmaOne sigmaTwo
    hf0 hf1
  refine ⟨hb, ?_, ?_⟩
  · intro ht
    rw [key]
    have c1 := mul_le_mul_of_nonneg_left hb.1 ht
    have c2 := mul_le_mul_of_nonneg_left hb.2 ht
    constructor
    · linarith
    · linarith
  · intro ht h1 h2
    rw [key]
    have hm : 0 ≤ min sigmaOne sigmaTwo := le_min h1 h2
    have c1 := mul_nonneg ht (le_trans hm hb.1)
    linarith

/-- Witness of C16 on the example mesh: node 3 is selected, its blending value is
`1/2` and its turbulent viscosity is `10`, and the effective viscosity left by
`execute` lies between `visc + tvisc * min 2 3` and `visc + tvisc * max 2 3`. -/
theorem effSST_execute_blend_bounded_witness :
    (3 < exampleRealm.ngp_mesh.numNodes
      ∧ exampleRealm.meta_data.locally_owned_part.containsNode 3 = true
      ∧ exampleVisc.definedOn 3 = true
      ∧ 0 ≤ exampleFields.get
          (exampleRealm.meta_data.get_field_ordinal "sst_f_one_blending") 3
      ∧ exampleFields.get
          (exampleRealm.meta_data.get_field_ordinal "sst_f_one_blending") 3 ≤ 1
      ∧ 0 ≤ exampleFields.get exampleTvisc.mesh_meta_data_ordinal 3)
    ∧ (exampleFields.get exampleVisc.mesh_meta_data_ordinal 3
            + exampleFields.get exampleTvisc.mesh_meta_data_ordinal 3 * min 2 3
          ≤ ((EffSSTDiffFluxCoeffAlg.construct exampleRealm
              { containsNode := fun _ => true } exampleVisc exampleTvisc exampleEvisc 2
              3).execute exampleFields).get exampleEvisc.mesh_meta_data_ordinal 3
        ∧ ((EffSSTDiffFluxCoeffAlg.construct exampleRealm
              { containsNode := fun _ => true } exampleVisc exampleTvisc exampleEvisc 2
              3).execute exampleFields).get exampleEvisc.mesh_meta_data_ordinal 3
          ≤ exampleFields.get exampleVisc.mesh_meta_data_ordinal 3
            + exampleFields.get exampleTvisc.mesh_meta_data_ordinal 3 * max 2 3) := by
  have e : exampleRealm.meta_data.get_field_ordinal "sst_f_one_blending" = 10 := by decide
  have f0 : 0 ≤ exampleFields.get
      (exampleRealm.meta_data.get_field_ordinal "sst_f_one_blending") 3 := by
    rw [e]; norm_num [NgpFieldManager.get, exampleFields]
  have f1 : exampleFields.get
      (exampleRealm.meta_data.get_field_ordinal "sst_f_one_blending") 3 ≤ 1 := by
    rw [e]; norm_num [NgpFieldManager.get, exampleFields]
  have ht : 0 ≤ exampleFields.get exampleTvisc.mesh_meta_data_ordinal 3 := by
    norm_num [NgpFieldManager.get, exampleFields, exampleTvisc]
  exact
    ⟨⟨by decide, by decide, by decide, f0, f1, ht⟩,
     (effSST_execute_blend_bounded exampleRealm { containsNode := fun _ => true }
        exampleVisc exampleTvisc exampleEvisc 2 3 exampleFields 3 (by decide)
        (Or.inl (by decide)) (by decide) f0 f1).2.1 ht⟩

/-- C16, counterexample in binary64.  Both coefficients are the binary64 number
`sigma = 7710162562058289 / 2^53` nearest to `0.856`, the viscosity is `0` and the
turbulent viscosity `1`.  At the selected node 0 the blending value is `0.375`: the
blended coefficient `f*sigmaOne + (1.0-f)*sigmaTwo` evaluates in binary64 to
`7710162562058290 / 2^53`, above `max(sigmaOne, sigmaTwo)`, and the effective
diffusivity written by the binary64 `execute` is above
`visc + tvisc*max(sigmaOne, sigmaTwo)`.  At the selected node 3 the blending value
is the binary64 number nearest to `0.3` and the written value
`7710162562058288 / 2^53` is below `visc + tvisc*min(sigmaOne, sigmaTwo)`. -/
theorem effSST_blend_bounds_binary64 :
    ((0 < exampleRealm.ngp_mesh.numNodes
        ∧ exampleRealm.meta_data.locally_owned_part.containsNode 0 = true
        ∧ exampleVisc.definedOn 0 = true)
      ∧ (3 < exampleRealm.ngp_mesh.numNodes
        ∧ exampleRealm.meta_data.locally_owned_part.containsNode 3 = true
        ∧ exampleVisc.definedOn 3 = true)
      ∧ exampleAlgDouble.sigmaOne_ = 7710162562058289 / 2 ^ 53
      ∧ exampleAlgDouble.sigmaTwo_ = 7710162562058289 / 2 ^ 53
      ∧ exampleFieldsDouble.get
          (exampleRealm.meta_data.get_field_ordinal "sst_f_one_blending") 0 = 3 / 8
      ∧ exampleFieldsDouble.get
          (exampleRealm.meta_data.get_field_ordinal "sst_f_one_blending") 3
          = 5404319552844595 / 2 ^ 54
      ∧ (∀ n, exampleFieldsDouble.get exampleVisc.mesh_meta_data_ordinal n = 0)
      ∧ (∀ n, exampleFieldsDouble.get exampleTvisc.mesh_meta_data_ordinal n = 1))
    ∧ dadd
        (dmul
          (exampleFieldsDouble.get
            (exampleRealm.meta_data.get_field_ordinal "sst_f_one_blending") 0)
          exampleAlgDouble.sigmaOne_)
        (dmul
          (dsub 1
            (exampleFieldsDouble.get
              (exampleRealm.meta_data.get_field_ordinal "sst_f_one_blending") 0))
          exampleAlgDouble.sigmaTwo_)
      = 7710162562058290 / 2 ^ 53
    ∧ max exampleAlgDouble.sigmaOne_ exampleAlgDouble.sigmaTwo_
      < dadd
          (dmul
            (exampleFieldsDouble.get
              (exampleRealm.meta_data.get_field_ordinal "sst_f_one_blending") 0)
            exampleAlgDouble.sigmaOne_)
          (dmul
            (dsub 1
              (exampleFieldsDouble.get
                (exampleRealm.meta_data.get_field_ordinal "sst_f_one_blending") 0))
            exampleAlgDouble.sigmaTwo_)
    ∧ (exampleAlgDouble.executeDouble exampleFieldsDouble).get
          exampleEvisc.mesh_meta_data_ordinal 0 = 7710162562058290 / 2 ^ 53
    ∧ exampleFieldsDouble.get exampleVisc.mesh_meta_data_ordinal 0
          + exampleFieldsDouble.get exampleTvisc.mesh_meta_data_ordinal 0
            * max exampleAlgDouble.sigmaOne_ exampleAlgDouble.sigmaTwo_
        < (exampleAlgDouble.executeDouble exampleFieldsDouble).get
            exampleEvisc.mesh_meta_data_ordinal 0
    ∧ (exampleAlgDouble.executeDouble exampleFieldsDouble).get
          exampleEvisc.mesh_meta_data_ordinal 3 = 7710162562058288 / 2 ^ 53
    ∧ (exampleAlgDouble.executeDouble exampleFieldsDouble).get
          exampleEvisc.mesh_meta_data_ordinal 3
        < exampleFieldsDouble.get exampleVisc.mesh_meta_data_ordinal 3
          + exampleFieldsDouble.get exampleTvisc.mesh_meta_data_ordinal 3
            * min exampleAlgDouble.sigmaOne_ exampleAlgDouble.sigmaTwo_ := by
  have s1 : exampleAlgDouble.sigmaOne_ = 7710162562058289 / 2 ^ 53 := by decide!
  have s2 : exampleAlgDouble.sigmaTwo_ = 7710162562058289 / 2 ^ 53 := by decide!
  have f0 : exampleFieldsDouble.get
      (exampleRealm.meta_data.get_field_ordinal "sst_f_one_blending") 0 = 3 / 8 := by decide!
  have f3 : exampleFieldsDouble.get
      (exampleRealm.meta_data.get_field_ordinal "sst_f_one_blending") 3
      = 5404319552844595 / 2 ^ 54 := by decide!
  have hv : ∀ n, exampleFieldsDouble.get exampleVisc.mesh_meta_data_ordinal n = 0 := by
    intro n
    simp [NgpFieldManager.get, exampleFieldsDouble, exampleVisc]
  have ht : ∀ n, exampleFieldsDouble.get exampleTvisc.mesh_meta_data_ordinal n = 1 := by
    intro n
    simp [NgpFieldManager.get, exampleFieldsDouble, exampleTvisc]
  have b0 : dadd
      (dmul
        (exampleFieldsDouble.get
          (exampleRealm.meta_data.get_field_ordinal "sst_f_one_blending") 0)
        exampleAlgDouble.sigmaOne_)
      (dmul
        (dsub 1
          (exampleFieldsDouble.get
            (exampleRealm.meta_data.get_field_ordinal "sst_f_one_blending") 0))
        exampleAlgDouble.sigmaTwo_)
      = 7710162562058290 / 2 ^ 53 := by decide!
  have e0 : (exampleAlgDouble.executeDouble exampleFieldsDouble).get
      exampleEvisc.mesh_meta_data_ordinal 0 = 7710162562058290 / 2 ^ 53 := by decide!
  have e3 : (exampleAlgDouble.executeDouble exampleFieldsDouble).get
      exampleEvisc.mesh_meta_data_ordinal 3 = 7710162562058288 / 2 ^ 53 := by decide!
  refine ⟨⟨by decide, by decide, s1, s2, f0, f3, hv, ht⟩, b0, ?_, e0, ?_, e3, ?_⟩
  · rw [b0, s1, s2, max_self]
    norm_num
  · rw [e0, hv, ht, s1, s2, max_self]
    norm_num
  · rw [e3, hv, ht, s1, s2, min_self]
    norm_num

/-! ## Linearization in pressure -/

/-- The algebra behind the linearization: the mass flow is affine in the nodal
pressures, with slope the Jacobian factor. -/
theorem mdot_affine_in_pressure (n m : Nat) (T : ℚ) (B W a : Nat → ℚ) (d : Nat → Nat → ℚ)
    (p p2 : Nat → ℚ) :
    (∑ j in Finset.range m, (B j - (T * (∑ ic in Finset.range n, d ic j * p2 ic) - W j)) * a j)
      - (∑ j in Finset.range m,
          (B j - (T * (∑ ic in Finset.range n, d ic j * p ic) - W j)) * a j)
      = ∑ ic in Finset.range n,
          (-T * ∑ j in Finset.range m, d ic j * a j) * (p2 ic - p ic) := by
  rw [← Finset.sum_sub_distrib]
  have h1 : ∀ j, (B j - (T * (∑ ic in Finset.range n, d ic j * p2 ic) - W j)) * a j
        - (B j - (T * (∑ ic in Finset.range n, d ic j * p ic) - W j)) * a j
      = ∑ ic in Finset.range n, -T * (d ic j * a j) * (p2 ic - p ic) := by
    intro j
    have h2 : ∑ ic in Finset.range n, -T * (d ic j * a j) * (p2 ic - p ic)
        = -T * a j * ((∑ ic in Finset.range n, d ic j * p2 ic)
            - (∑ ic in Finset.range n, d ic j * p ic)) := by
      rw [← Finset.sum_sub_distrib, Finset.mul_sum]
      refine Finset.sum_congr rfl (fun ic _ => ?_)
      ring
    rw [h2]
    ring
  simp only [h1]
  rw [Finset.sum_comm]
  refine Finset.sum_congr rfl (fun ic _ => ?_)
  rw [Finset.mul_sum, Finset.sum_mul]

theorem massFlowBlend_pressure_diff (cT cS : ℚ) (K : ContinuityAdvElemKernel)
    (AT : AlgTraits) (sv sv2 : ScratchViews) (ip : Nat)
    (hflag : K.reducedSensitivities_ = false ∨ K.shiftPoisson_ = true)
    (hrho : sv2.get_scratch_view_1D K.densityNp1_ = sv.get_scratch_view_1D K.densityNp1_)
    (hud : sv2.get_scratch_view_1D K.Udiag_ = sv.get_scratch_view_1D K.Udiag_)
    (h2D : sv2.get_scratch_view_2D = sv.get_scratch_view_2D)
    (hme : sv2.get_me_views = sv.get_me_views) :
    massFlowBlend cT cS K AT sv2 ip - massFlowBlend cT cS K AT sv ip
      = ∑ ic in Finset.range AT.nodesPerElement_,
          lhsFactorFormula K AT sv ip ic *
            (sv2.get_scratch_view_1D K.pressure_ ic - sv.get_scratch_view_1D K.pressure_ ic) := by
  have hl : ∀ me, K.v_dndx_lhs me = K.v_dndx me := by
    intro me
    unfold ContinuityAdvElemKernel.v_dndx_lhs ContinuityAdvElemKernel.v_dndx
    rcases hflag with h | h <;> simp [h]
  unfold massFlowBlend lhsFactorFormula
  simp only [hrho, hud, h2D, hme, hl]
  exact mdot_affine_in_pressure AT.nodesPerElement_ AT.nDim_ _ _ _ _ _ _ _

theorem ipDelta_pressure_diff (K : ContinuityAdvElemKernel)
    (AT : AlgTraits) (sv sv2 : ScratchViews) (ip i : Nat)
    (hflag : K.reducedSensitivities_ = false ∨ K.shiftPoisson_ = true)
    (hrho : sv2.get_scratch_view_1D K.densityNp1_ = sv.get_scratch_view_1D K.densityNp1_)
    (hud : sv2.get_scratch_view_1D K.Udiag_ = sv.get_scratch_view_1D K.Udiag_)
    (h2D : sv2.get_scratch_view_2D = sv.get_scratch_view_2D)
    (hme : sv2.get_me_views = sv.get_me_views) :
    ipRhsDelta K AT sv2 ip i - ipRhsDelta K AT sv ip i
      = -∑ ic in Finset.range AT.nodesPerElement_,
          ipLhsDelta K AT sv ip i ic *
            (sv2.get_scratch_view_1D K.pressure_ ic - sv.get_scratch_view_1D K.pressure_ ic) := by
  have hS := massFlowBlend_pressure_diff K.interpTogether_ K.om_interpTogether_ K AT sv sv2
    ip hflag hrho hud h2D hme
  have hsum : ∑ ic in Finset.range AT.nodesPerElement_,
        ipLhsDelta K AT sv ip i ic *
          (sv2.get_scratch_view_1D K.pressure_ ic - sv.get_scratch_view_1D K.pressure_ ic)
      = ((if i = K.meSCS_.adjacentNodes (2 * ip) then 1 else 0)
          - (if i = K.meSCS_.adjacentNodes (2 * ip + 1) then 1 else 0))
        * ((∑ ic in Finset.range AT.nodesPerElement_,
            lhsFactorFormula K AT sv ip ic *
              (sv2.get_scratch_view_1D K.pressure_ ic
                - sv.get_scratch_view_1D K.pressure_ ic)) / K.projTimeScale_) := by
    rw [Finset.sum_div, Finset.mul_sum]
    refine Finset.sum_congr rfl (fun ic hic => ?_)
    have hic2 : ic < AT.nodesPerElement_ := Finset.mem_range.mp hic
    unfold ipLhsDelta
    simp only [hic2, and_true]
    split_ifs <;> ring
  rw [hsum, ← hS]
  unfold ipRhsDelta
  split_ifs <;> ring

/-- C12, amended to exact arithmetic (the Jacobian linearizes the residual in
pressure).  Let every operation of `execute` and of the identity below be exact, let
`reducedSensitivities_` be false or `shiftPoisson_` be true, and let two scratch
stagings differ in the nodal pressures only (density, momentum_diag, the vector
fields and the reference-element bundle are equal).  With `L` and `R` the `lhs` and
`rhs` that `execute` leaves in buffers that start at zero,
`R(p2)[i] - R(p)[i] = - sum_ic L(i,ic) * (p2_ic - p_ic)` for every row `i`, and `L`
is the same for both.  Moreover `L` depends on momentum_diag and the
reference-element bundle alone: a staging with other pressure, density, velocity
and dpdx gives the same `L`. -/
theorem continuity_jacobian_linearizes_pressure (K : ContinuityAdvElemKernel)
    (AT : AlgTraits) (sv sv2 : ScratchViews)
    (hflag : K.reducedSensitivities_ = false ∨ K.shiftPoisson_ = true)
    (hrho : sv2.get_scratch_view_1D K.densityNp1_ = sv.get_scratch_view_1D K.densityNp1_)
    (hud : sv2.get_scratch_view_1D K.Udiag_ = sv.get_scratch_view_1D K.Udiag_)
    (h2D : sv2.get_scratch_view_2D = sv.get_scratch_view_2D)
    (hme : sv2.get_me_views = sv.get_me_views) :
    (∀ i, (K.execute AT (fun _ _ => 0) (fun _ => 0) sv2).2 i
          - (K.execute AT (fun _ _ => 0) (fun _ => 0) sv).2 i
        = -∑ ic in Finset.range AT.nodesPerElement_,
            (K.execute AT (fun _ _ => 0) (fun _ => 0) sv).1 i ic *
              (sv2.get_scratch_view_1D K.pressure_ ic
                - sv.get_scratch_view_1D K.pressure_ ic))
    ∧ (K.execute AT (fun _ _ => 0) (fun _ => 0) sv2).1
        = (K.execute AT (fun _ _ => 0) (fun _ => 0) sv).1
    ∧ (∀ sv3 : ScratchViews,
        sv3.get_scratch_view_1D K.Udiag_ = sv.get_scratch_view_1D K.Udiag_ →
        sv3.get_me_views = sv.get_me_views →
        (K.execute AT (fun _ _ => 0) (fun _ => 0) sv3).1
          = (K.execute AT (fun _ _ => 0) (fun _ => 0) sv).1) := by
  have hL : ∀ sv3 : ScratchViews,
      sv3.get_scratch_view_1D K.Udiag_ = sv.get_scratch_view_1D K.Udiag_ →
      sv3.get_me_views = sv.get_me_views →
      (K.execute AT (fun _ _ => 0) (fun _ => 0) sv3).1
        = (K.execute AT (fun _ _ => 0) (fun _ => 0) sv).1 := by
    intro sv3 h1 h2
    funext a b
    rw [execute_lhs_eq, execute_lhs_eq]
    unfold ipLhsDelta lhsFactorFormula
    simp only [h1, h2]
  refine ⟨?_, hL sv2 hud hme, hL⟩
  intro i
  rw [execute_rhs_eq, execute_rhs_eq]
  simp only [execute_lhs_eq, zero_add, Finset.sum_mul]
  rw [← Finset.sum_sub_distrib, Finset.sum_comm, ← Finset.sum_neg_distrib]
  refine Finset.sum_congr rfl (fun ip _ => ?_)
  exact ipDelta_pressure_diff K AT sv sv2 ip i hflag hrho hud h2D hme

/-- Witness of C12 on the example element, with the reduced-sensitivity flag
cleared and the nodal pressures replaced. -/
theorem continuity_jacobian_linearizes_pressure_witness :
    ((ContinuityAdvElemKernel.constructed exampleTraits exampleRepo 1 exampleMetaData
          exampleOptionsStandard emptyRequests exampleTimeIntegrator).reducedSensitivities_
        = false
      ∧ exampleScratchPressure.get_scratch_view_1D 4 = exampleScratch.get_scratch_view_1D 4
      ∧ exampleScratchPressure.get_scratch_view_1D 6 = exampleScratch.get_scratch_view_1D 6
      ∧ exampleScratchPressure.get_scratch_view_2D = exampleScratch.get_scratch_view_2D
      ∧ exampleScratchPressure.get_me_views = exampleScratch.get_me_views)
    ∧ ((ContinuityAdvElemKernel.constructed exampleTraits exampleRepo 1 exampleMetaData
            exampleOptionsStandard emptyRequests exampleTimeIntegrator).execute
            exampleTraits (fun _ _ => 0) (fun _ => 0) exampleScratchPressure).2 1
        - ((ContinuityAdvElemKernel.constructed exampleTraits exampleRepo 1 exampleMetaData
            exampleOptionsStandard emptyRequests exampleTimeIntegrator).execute
            exampleTraits (fun _ _ => 0) (fun _ => 0) exampleScratch).2 1
      = -∑ ic in Finset.range exampleTraits.nodesPerElement_,
          ((ContinuityAdvElemKernel.constructed exampleTraits exampleRepo 1 exampleMetaData
              exampleOptionsStandard emptyRequests exampleTimeIntegrator).execute
              exampleTraits (fun _ _ => 0) (fun _ => 0) exampleScratch).1 1 ic *
            (exampleScratchPressure.get_scratch_view_1D
                (ContinuityAdvElemKernel.constructed exampleTraits exampleRepo 1
                  exampleMetaData exampleOptionsStandard emptyRequests
                  exampleTimeIntegrator).pressure_ ic
              - exampleScratch.get_scratch_view_1D
                (ContinuityAdvElemKernel.constructed exampleTraits exampleRepo 1
                  exampleMetaData exampleOptionsStandard emptyRequests
                  exampleTimeIntegrator).pressure_ ic) := by
  have h4 : exampleScratchPressure.get_scratch_view_1D 4
      = exampleScratch.get_scratch_view_1D 4 := by
    funext ic
    simp [exampleScratchPressure]
  have h6 : exampleScratchPressure.get_scratch_view_1D 6
      = exampleScratch.get_scratch_view_1D 6 := by
    funext ic
    simp [exampleScratchPressure]
  exact
    ⟨⟨rfl, h4, h6, rfl, rfl⟩,
     (continuity_jacobian_linearizes_pressure
        (ContinuityAdvElemKernel.constructed exampleTraits exampleRepo 1 exampleMetaData
          exampleOptionsStandard emptyRequests exampleTimeIntegrator)
        exampleTraits exampleScratch exampleScratchPressure (Or.inl rfl) h4 h6 rfl rfl).1 1⟩

/-- C12, counterexample in binary64.  On the example element with the
reduced-sensitivity flag cleared, the nodal pressures `4, 5, 6` replaced by
`-7, -5, 1` and all else equal, the binary64 `execute` on zero buffers leaves the
same `L` for both pressures and, in row 0,
`R(p2)[0] - R(p)[0] = -85.89285714285715` (subtracted in binary64) while
`-sum_ic L(0,ic) * (p2_ic - p_ic) = -85.89285714285714` (evaluated in binary64, in
the order of `ic`); evaluated exactly on the binary64 results the two sides differ
as well. -/
theorem continuity_linearization_binary64 :
    (exampleKernelStandardDouble.reducedSensitivities_ = false
      ∧ exampleKernelStandardDouble.pressure_ = 3
      ∧ exampleScratchPressure.get_scratch_view_1D exampleKernelStandardDouble.densityNp1_
          = exampleScratch.get_scratch_view_1D exampleKernelStandardDouble.densityNp1_
      ∧ exampleScratchPressure.get_scratch_view_1D exampleKernelStandardDouble.Udiag_
          = exampleScratch.get_scratch_view_1D exampleKernelStandardDouble.Udiag_
      ∧ exampleScratchPressure.get_scratch_view_2D = exampleScratch.get_scratch_view_2D
      ∧ exampleScratchPressure.get_me_views = exampleScratch.get_me_views)
    ∧ ((exampleKernelStandardDouble.executeDouble exampleTraits (fun _ _ => 0) (fun _ => 0)
          exampleScratchPressure).2 0 = 7658464991335765 / 2 ^ 48
      ∧ (exampleKernelStandardDouble.executeDouble exampleTraits (fun _ _ => 0) (fun _ => 0)
          exampleScratch).2 0 = 994848592351037 / 2 ^ 43
      ∧ (exampleKernelStandardDouble.executeDouble exampleTraits (fun _ _ => 0) (fun _ => 0)
          exampleScratch).1 0 0 = -4992829944034255 / 2 ^ 50
      ∧ (exampleKernelStandardDouble.executeDouble exampleTraits (fun _ _ => 0) (fun _ => 0)
          exampleScratch).1 0 1 = -6674978019138413 / 2 ^ 51
      ∧ (exampleKernelStandardDouble.executeDouble exampleTraits (fun _ _ => 0) (fun _ => 0)
          exampleScratch).1 0 2 = -3364296150208317 / 2 ^ 51
      ∧ (∀ ic, ic < exampleTraits.nodesPerElement_ →
          (exampleKernelStandardDouble.executeDouble exampleTraits (fun _ _ => 0)
              (fun _ => 0) exampleScratchPressure).1 0 ic
            = (exampleKernelStandardDouble.executeDouble exampleTraits (fun _ _ => 0)
                (fun _ => 0) exampleScratch).1 0 ic))
    ∧ dsub
        ((exampleKernelStandardDouble.executeDouble exampleTraits (fun _ _ => 0) (fun _ => 0)
          exampleScratchPressure).2 0)
        ((exampleKernelStandardDouble.executeDouble exampleTraits (fun _ _ => 0) (fun _ => 0)
          exampleScratch).2 0)
      = -6044172490974355 / 2 ^ 46
    ∧ -(List.range exampleTraits.nodesPerElement_).foldl
          (fun acc ic =>
            dadd acc
              (dmul
                ((exampleKernelStandardDouble.executeDouble exampleTraits (fun _ _ => 0)
                  (fun _ => 0) exampleScratch).1 0 ic)
                (dsub
                  (exampleScratchPressure.get_scratch_view_1D
                    exampleKernelStandardDouble.pressure_ ic)
                  (exampleScratch.get_scratch_view_1D
                    exampleKernelStandardDouble.pressure_ ic))))
          0
      = -6044172490974354 / 2 ^ 46
    ∧ (exampleKernelStandardDouble.executeDouble exampleTraits (fun _ _ => 0) (fun _ => 0)
          exampleScratchPressure).2 0
        - (exampleKernelStandardDouble.executeDouble exampleTraits (fun _ _ => 0)
            (fun _ => 0) exampleScratch).2 0
      ≠ -∑ ic in Finset.range exampleTraits.nodesPerElement_,
          (exampleKernelStandardDouble.executeDouble exampleTraits (fun _ _ => 0)
              (fun _ => 0) exampleScratch).1 0 ic *
            (exampleScratchPressure.get_scratch_view_1D
                exampleKernelStandardDouble.pressure_ ic
              - exampleScratch.get_scratch_view_1D
                exampleKernelStandardDouble.pressure_ ic) := by
  have hp : exampleKernelStandardDouble.pressure_ = 3 := by decide
  have hd : exampleKernelStandardDouble.densityNp1_ = 4 := by decide
  have hU : exampleKernelStandardDouble.Udiag_ = 6 := by decide
  have h4 : exampleScratchPressure.get_scratch_view_1D 4
      = exampleScratch.get_scratch_view_1D 4 := by
    funext ic
    simp [exampleScratchPressure]
  have h6 : exampleScratchPressure.get_scratch_view_1D 6
      = exampleScratch.get_scratch_view_1D 6 := by
    funext ic
    simp [exampleScratchPressure]
  have r2 : (exampleKernelStandardDouble.executeDouble exampleTraits (fun _ _ => 0)
      (fun _ => 0) exampleScratchPressure).2 0 = 7658464991335765 / 2 ^ 48 := by decide!
  have r1 : (exampleKernelStandardDouble.executeDouble exampleTraits (fun _ _ => 0)
      (fun _ => 0) exampleScratch).2 0 = 994848592351037 / 2 ^ 43 := by decide!
  have l0 : (exampleKernelStandardDouble.executeDouble exampleTraits (fun _ _ => 0)
      (fun _ => 0) exampleScratch).1 0 0 = -4992829944034255 / 2 ^ 50 := by decide!
  have l1 : (exampleKernelStandardDouble.executeDouble exampleTraits (fun _ _ => 0)
      (fun _ => 0) exampleScratch).1 0 1 = -6674978019138413 / 2 ^ 51 := by decide!
  have l2 : (exampleKernelStandardDouble.executeDouble exampleTraits (fun _ _ => 0)
      (fun _ => 0) exampleScratch).1 0 2 = -3364296150208317 / 2 ^ 51 := by decide!
  have n3 : exampleTraits.nodesPerElement_ = 3 := rfl
  refine ⟨⟨rfl, hp, ?_, ?_, rfl, rfl⟩, ⟨r2, r1, l0, l1, l2, ?_⟩, ?_, ?_, ?_⟩
  · rw [hd]
    exact h4
  · rw [hU]
    exact h6
  · decide!
  · rw [r2, r1]
    decide!
  · decide!
  · rw [n3, hp, r2, r1]
    simp only [Finset.sum_range_succ, Finset.sum_range_zero, l0, l1, l2]
    norm_num [exampleScratchPressure, exampleScratch]

/-! ## Blend factor and uniform density -/

theorem massFlowBlend_uniform (cT cS : ℚ) (K : ContinuityAdvElemKernel) (AT : AlgTraits)
    (sv : ScratchViews) (ip : Nat) (rho0 : ℚ)
    (huniform : ∀ ic, ic < AT.nodesPerElement_ →
      sv.get_scratch_view_1D K.densityNp1_ ic = rho0)
    (hunity : ∑ ic in Finset.range AT.nodesPerElement_,
      K.v_shape_function (sv.get_me_views COORDS_TYPES.CURRENT_COORDINATES) ip ic = 1)
    (hc : cT + cS = 1) :
    massFlowBlend cT cS K AT sv ip = massFlowBlend 1 0 K AT sv ip := by
  unfold massFlowBlend
  simp only
  refine Finset.sum_congr rfl (fun j _ => ?_)
  have s1 : ∑ ic in Finset.range AT.nodesPerElement_,
        K.v_shape_function (sv.get_me_views COORDS_TYPES.CURRENT_COORDINATES) ip ic *
          sv.get_scratch_view_1D K.densityNp1_ ic * sv.get_scratch_view_2D K.velocityRTM_ ic j
      = rho0 * ∑ ic in Finset.range AT.nodesPerElement_,
        K.v_shape_function (sv.get_me_views COORDS_TYPES.CURRENT_COORDINATES) ip ic *
          sv.get_scratch_view_2D K.velocityRTM_ ic j := by
    rw [Finset.mul_sum]
    refine Finset.sum_congr rfl (fun ic hic => ?_)
    rw [huniform ic (Finset.mem_range.mp hic)]
    ring
  have s2 : ∑ ic in Finset.range AT.nodesPerElement_,
        K.v_shape_function (sv.get_me_views COORDS_TYPES.CURRENT_COORDINATES) ip ic *
          sv.get_scratch_view_1D K.densityNp1_ ic = rho0 := by
    have : ∑ ic in Finset.range AT.nodesPerElement_,
        K.v_shape_function (sv.get_me_views COORDS_TYPES.CURRENT_COORDINATES) ip ic *
          sv.get_scratch_view_1D K.densityNp1_ ic
        = rho0 * ∑ ic in Finset.range AT.nodesPerElement_,
          K.v_shape_function (sv.get_me_views COORDS_TYPES.CURRENT_COORDINATES) ip ic := by
      rw [Finset.mul_sum]
      refine Finset.sum_congr rfl (fun ic hic => ?_)
      rw [huniform ic (Finset.mem_range.mp hic)]
      ring
    rw [this, hunity, mul_one]
  rw [s1, s2]
  have hcT : cT = 1 - cS := by linarith
  rw [hcT]
  ring

/-- C14, amended to exact arithmetic (blend-factor independence for uniform
density).  Let every operation of `execute` be exact, and take kernels built by the
constructor from options that differ in the blend factor only.  If all nodes of
the element carry the same density and the selected shape-function weights sum to
one over the nodes at every integration point, `execute` leaves the same `lhs` and
`rhs` for every two values of the blend factor.  Without the partition of unity
this fails: on a staging with uniform density `2` and weights `1/2` at three nodes,
blend factor one and blend factor zero leave `135` and `153` in `rhs(0)`. -/
theorem continuity_blend_independent_uniform_density (AT : AlgTraits)
    (repo : MasterElementRepo) (projTimeScale0 : ℚ) (metaData : MetaData)
    (solnOpts : SolutionOptions) (dataPreReqs : ElemDataRequests)
    (timeIntegrator : TimeIntegrator) (sv : ScratchViews) (lhs : Nat → Nat → ℚ)
    (rhs : Nat → ℚ) (c c2 rho0 : ℚ) :
    ((∀ ic, ic < AT.nodesPerElement_ →
        sv.get_scratch_view_1D
          (ContinuityAdvElemKernel.constructed AT repo projTimeScale0 metaData solnOpts
            dataPreReqs timeIntegrator).densityNp1_ ic = rho0) →
      (∀ ip, ip < AT.numScsIp_ →
        ∑ ic in Finset.range AT.nodesPerElement_,
          (ContinuityAdvElemKernel.constructed AT repo projTimeScale0 metaData solnOpts
            dataPreReqs timeIntegrator).v_shape_function
            (sv.get_me_views COORDS_TYPES.CURRENT_COORDINATES) ip ic = 1) →
      (ContinuityAdvElemKernel.constructed AT repo projTimeScale0 metaData
          { solnOpts with get_mdot_interp := c } dataPreReqs timeIntegrator).execute
          AT lhs rhs sv
        = (ContinuityAdvElemKernel.constructed AT repo projTimeScale0 metaData
            { solnOpts with get_mdot_interp := c2 } dataPreReqs timeIntegrator).execute
            AT lhs rhs sv)
    ∧ ((∀ ic, exampleScratchNoUnity.get_scratch_view_1D
          (ContinuityAdvElemKernel.constructed exampleTraits exampleRepo 1 exampleMetaData
            exampleOptions emptyRequests exampleTimeIntegrator).densityNp1_ ic = 2)
      ∧ ((ContinuityAdvElemKernel.constructed exampleTraits exampleRepo 1 exampleMetaData
            exampleOptionsTogether emptyRequests exampleTimeIntegrator).execute
            exampleTraits (fun _ _ => 0) (fun _ => 0) exampleScratchNoUnity).2 0 = 135
      ∧ ((ContinuityAdvElemKernel.constructed exampleTraits exampleRepo 1 exampleMetaData
            exampleOptionsSplit emptyRequests exampleTimeIntegrator).execute
            exampleTraits (fun _ _ => 0) (fun _ => 0) exampleScratchNoUnity).2 0 = 153) := by
  refine ⟨?_, fun _ => rfl, ?_, ?_⟩
  · intro huniform hunity
    rw [execute_eq, execute_eq]
    refine Prod.ext ?_ ?_
    · rfl
    · funext i
      simp only
      congr 1
      refine Finset.sum_congr rfl (fun ip hip => ?_)
      have hip2 := Finset.mem_range.mp hip
      have e1 := massFlowBlend_uniform c (1 - c)
        (ContinuityAdvElemKernel.constructed AT repo projTimeScale0 metaData solnOpts
          dataPreReqs timeIntegrator) AT sv ip rho0 huniform (hunity ip hip2) (by ring)
      have e2 := massFlowBlend_uniform c2 (1 - c2)
        (ContinuityAdvElemKernel.constructed AT repo projTimeScale0 metaData solnOpts
          dataPreReqs timeIntegrator) AT sv ip rho0 huniform (hunity ip hip2) (by ring)
      have e3 : massFlowBlend c (1 - c)
          (ContinuityAdvElemKernel.constructed AT repo projTimeScale0 metaData solnOpts
            dataPreReqs timeIntegrator) AT sv ip
          = massFlowBlend c2 (1 - c2)
            (ContinuityAdvElemKernel.constructed AT repo projTimeScale0 metaData solnOpts
              dataPreReqs timeIntegrator) AT sv ip := by
        rw [e1, e2]
      unfold ipRhsDelta
      exact congrArg
        (fun M : ℚ =>
          (if i = (repo.get_surface_master_element AT).adjacentNodes (2 * ip) then
              -(M / (timeIntegrator.get_time_step / timeIntegrator.get_gamma1)) else 0)
          + (if i = (repo.get_surface_master_element AT).adjacentNodes (2 * ip + 1) then
              M / (timeIntegrator.get_time_step / timeIntegrator.get_gamma1) else 0)) e3
  · have o1 : exampleOrdinal "velocity" = 0 := by decide
    have o2 : exampleOrdinal "dpdx" = 2 := by decide
    rw [execute_rhs_eq]
    norm_num [ipRhsDelta, massFlowBlend, ContinuityAdvElemKernel.constructed,
      ContinuityAdvElemKernel.construct, ContinuityAdvElemKernel.setup,
      exampleOptionsTogether, exampleOptions, exampleTraits,
      exampleScratchNoUnity, exampleScratch, exampleMeViews,
      ContinuityAdvElemKernel.v_shape_function, ContinuityAdvElemKernel.v_dndx,
      Finset.sum_range_succ, exampleMetaData, o1, o2, exampleRepo, exampleMasterElement,
      exampleTimeIntegrator]
  · have o1 : exampleOrdinal "velocity" = 0 := by decide
    have o2 : exampleOrdinal "dpdx" = 2 := by decide
    rw [execute_rhs_eq]
    norm_num [ipRhsDelta, massFlowBlend, ContinuityAdvElemKernel.constructed,
      ContinuityAdvElemKernel.construct, ContinuityAdvElemKernel.setup,
      exampleOptionsSplit, exampleOptions, exampleTraits,
      exampleScratchNoUnity, exampleScratch, exampleMeViews,
      ContinuityAdvElemKernel.v_shape_function, ContinuityAdvElemKernel.v_dndx,
      Finset.sum_range_succ, exampleMetaData, o1, o2, exampleRepo, exampleMasterElement,
      exampleTimeIntegrator]

/-- Witness of C14 on an element with uniform density `5`, shape-function weights
`1/2, 1/4, 1/4` and a velocity that differs from node to node: in exact arithmetic
blend factors `1/3` and `3/4` leave the same buffers.  The density hypothesis is
needed: with the density `5, 6, 7` and all else equal the two blend factors leave
different values in `rhs(0)`. -/
theorem continuity_blend_independent_uniform_density_witness :
    ((∀ ic, ic < exampleTraits.nodesPerElement_ →
        exampleScratchUniformDensity.get_scratch_view_1D
          (ContinuityAdvElemKernel.constructed exampleTraits exampleRepo 1 exampleMetaData
            exampleOptions emptyRequests exampleTimeIntegrator).densityNp1_ ic = 5)
      ∧ (∀ ip, ip < exampleTraits.numScsIp_ →
        ∑ ic in Finset.range exampleTraits.nodesPerElement_,
          (ContinuityAdvElemKernel.constructed exampleTraits exampleRepo 1 exampleMetaData
            exampleOptions emptyRequests exampleTimeIntegrator).v_shape_function
            (exampleScratchUniformDensity.get_me_views COORDS_TYPES.CURRENT_COORDINATES)
            ip ic = 1)
      ∧ exampleScratchUniformDensity.get_scratch_view_2D
            (ContinuityAdvElemKernel.constructed exampleTraits exampleRepo 1 exampleMetaData
              exampleOptions emptyRequests exampleTimeIntegrator).velocityRTM_ 0 0
          ≠ exampleScratchUniformDensity.get_scratch_view_2D
            (ContinuityAdvElemKernel.constructed exampleTraits exampleRepo 1 exampleMetaData
              exampleOptions emptyRequests exampleTimeIntegrator).velocityRTM_ 1 0)
    ∧ (ContinuityAdvElemKernel.constructed exampleTraits exampleRepo 1 exampleMetaData
          { exampleOptions with get_mdot_interp := 1 / 3 } emptyRequests
          exampleTimeIntegrator).execute exampleTraits exampleLhs exampleRhs
          exampleScratchUniformDensity
        = (ContinuityAdvElemKernel.constructed exampleTraits exampleRepo 1 exampleMetaData
            { exampleOptions with get_mdot_interp := 3 / 4 } emptyRequests
            exampleTimeIntegrator).execute exampleTraits exampleLhs exampleRhs
            exampleScratchUniformDensity
    ∧ ((ContinuityAdvElemKernel.constructed exampleTraits exampleRepo 1 exampleMetaData
          { exampleOptions with get_mdot_interp := 1 / 3 } emptyRequests
          exampleTimeIntegrator).execute exampleTraits exampleLhs exampleRhs
          exampleScratchVaryingDensity).2 0
        ≠ ((ContinuityAdvElemKernel.constructed exampleTraits exampleRepo 1 exampleMetaData
            { exampleOptions with get_mdot_interp := 3 / 4 } emptyRequests
            exampleTimeIntegrator).execute exampleTraits exampleLhs exampleRhs
            exampleScratchVaryingDensity).2 0 := by
  have hd : (ContinuityAdvElemKernel.constructed exampleTraits exampleRepo 1 exampleMetaData
      exampleOptions emptyRequests exampleTimeIntegrator).densityNp1_ = 4 := by decide
  have huniform : ∀ ic, ic < exampleTraits.nodesPerElement_ →
      exampleScratchUniformDensity.get_scratch_view_1D
        (ContinuityAdvElemKernel.constructed exampleTraits exampleRepo 1 exampleMetaData
          exampleOptions emptyRequests exampleTimeIntegrator).densityNp1_ ic = 5 := by
    intro ic _
    rw [hd]
    simp [exampleScratchUniformDensity]
  have hunity : ∀ ip, ip < exampleTraits.numScsIp_ →
      ∑ ic in Finset.range exampleTraits.nodesPerElement_,
        (ContinuityAdvElemKernel.constructed exampleTraits exampleRepo 1 exampleMetaData
          exampleOptions emptyRequests exampleTimeIntegrator).v_shape_function
          (exampleScratchUniformDensity.get_me_views COORDS_TYPES.CURRENT_COORDINATES)
          ip ic = 1 := by
    intro ip hip
    have hip3 : ip < 3 := hip
    interval_cases ip <;>
      norm_num [ContinuityAdvElemKernel.v_shape_function,
        ContinuityAdvElemKernel.constructed, ContinuityAdvElemKernel.construct,
        ContinuityAdvElemKernel.setup, exampleOptions, exampleTraits,
        exampleScratchUniformDensity, exampleScratch, exampleMeViews, Finset.sum_range_succ]
  exact
    ⟨⟨huniform, hunity, by decide!⟩,
     (continuity_blend_independent_uniform_density exampleTraits exampleRepo 1
        exampleMetaData exampleOptions emptyRequests exampleTimeIntegrator
        exampleScratchUniformDensity exampleLhs exampleRhs (1 / 3) (3 / 4) 5).1
        huniform hunity,
     by decide!⟩

/-- C14, counterexample in binary64.  The element has uniform density `5`,
shape-function weights `1/2, 1/4, 1/4` (their sum is one, exactly and in binary64)
and a velocity that differs from node to node.  Two kernels differ in the blend
factor only: the binary64 number nearest to `1/3`, and `3/4`, with
`om_interpTogether_ = 1.0 - interpTogether_` in binary64.  On zero buffers the
binary64 `execute` leaves `1569893173677885 / 2^47` in `rhs(1)` for the first and
`3139786347355771 / 2^48` for the second, and `-6632673000317319 / 2^46` against
`-6632673000317318 / 2^46` in `rhs(2)`. -/
theorem continuity_blend_dependence_binary64 :
    ((∀ c ic, ic < exampleTraits.nodesPerElement_ →
        exampleScratchUniformDensity.get_scratch_view_1D
          (exampleKernelBinary64 c).densityNp1_ ic = 5)
      ∧ (∀ c ip, ip < exampleTraits.numScsIp_ →
        ∑ ic in Finset.range exampleTraits.nodesPerElement_,
          (exampleKernelBinary64 c).v_shape_function
            (exampleScratchUniformDensity.get_me_views COORDS_TYPES.CURRENT_COORDINATES)
            ip ic = 1)
      ∧ (∀ ip, ip < exampleTraits.numScsIp_ →
        (List.range exampleTraits.nodesPerElement_).foldl
          (fun acc ic =>
            dadd acc
              ((exampleKernelBinary64 (3 / 4)).v_shape_function
                (exampleScratchUniformDensity.get_me_views
                  COORDS_TYPES.CURRENT_COORDINATES) ip ic))
          0 = 1)
      ∧ (exampleKernelBinary64 (roundDouble (1 / 3))).interpTogether_
          = 6004799503160661 / 2 ^ 54
      ∧ (exampleKernelBinary64 (3 / 4)).interpTogether_ = 3 / 4)
    ∧ ((exampleKernelBinary64 (roundDouble (1 / 3))).executeDouble exampleTraits
          (fun _ _ => 0) (fun _ => 0) exampleScratchUniformDensity).2 1
        = 1569893173677885 / 2 ^ 47
    ∧ ((exampleKernelBinary64 (3 / 4)).executeDouble exampleTraits
          (fun _ _ => 0) (fun _ => 0) exampleScratchUniformDensity).2 1
        = 3139786347355771 / 2 ^ 48
    ∧ ((exampleKernelBinary64 (roundDouble (1 / 3))).executeDouble exampleTraits
          (fun _ _ => 0) (fun _ => 0) exampleScratchUniformDensity).2 2
        = -6632673000317319 / 2 ^ 46
    ∧ ((exampleKernelBinary64 (3 / 4)).executeDouble exampleTraits
          (fun _ _ => 0) (fun _ => 0) exampleScratchUniformDensity).2 2
        = -6632673000317318 / 2 ^ 46
    ∧ ((exampleKernelBinary64 (roundDouble (1 / 3))).executeDouble exampleTraits
          (fun _ _ => 0) (fun _ => 0) exampleScratchUniformDensity).2
        ≠ ((exampleKernelBinary64 (3 / 4)).executeDouble exampleTraits
            (fun _ _ => 0) (fun _ => 0) exampleScratchUniformDensity).2 := by
  have a1 : ((exampleKernelBinary64 (roundDouble (1 / 3))).executeDouble exampleTraits
      (fun _ _ => 0) (fun _ => 0) exampleScratchUniformDensity).2 1
      = 1569893173677885 / 2 ^ 47 := by decide!
  have b1 : ((exampleKernelBinary64 (3 / 4)).executeDouble exampleTraits
      (fun _ _ => 0) (fun _ => 0) exampleScratchUniformDensity).2 1
      = 3139786347355771 / 2 ^ 48 := by decide!
  have a2 : ((exampleKernelBinary64 (roundDouble (1 / 3))).executeDouble exampleTraits
      (fun _ _ => 0) (fun _ => 0) exampleScratchUniformDensity).2 2
      = -6632673000317319 / 2 ^ 46 := by decide!
  have b2 : ((exampleKernelBinary64 (3 / 4)).executeDouble exampleTraits
      (fun _ _ => 0) (fun _ => 0) exampleScratchUniformDensity).2 2
      = -6632673000317318 / 2 ^ 46 := by decide!
  have hd : ∀ c, (exampleKernelBinary64 c).densityNp1_ = 4 := fun _ => rfl
  refine ⟨⟨?_, ?_, by decide!, by decide!, rfl⟩, a1, b1, a2, b2, ?_⟩
  · intro c ic _
    rw [hd]
    simp [exampleScratchUniformDensity]
  · intro c ip hip
    have hip3 : ip < 3 := hip
    interval_cases ip <;>
      norm_num [ContinuityAdvElemKernel.v_shape_function, exampleKernelBinary64,
        exampleKernel, ContinuityAdvElemKernel.constructed,
        ContinuityAdvElemKernel.construct, ContinuityAdvElemKernel.setup, exampleOptions,
        exampleTraits, exampleScratchUniformDensity, exampleScratch, exampleMeViews,
        Finset.sum_range_succ]
  · intro h
    have h1 := congrFun h 1
    rw [a1, b1] at h1
    norm_num at h1

/-! ## Requested and read gradient operators -/

/-- C15 (requests against reads), evaluated on the code.  With the shifted pressure
gradient switched on and the reduced sensitivities switched off, the constructor
requests the standard gradient operator `SCS_GRAD_OP`, although `execute` does not
read `meViews.dndx` under these flags: it is not among its accesses, and `execute`
leaves the same buffers whatever `dndx` holds.  For all options the shifted
gradient operator is requested exactly when it is read, the shape-function variant
that is read is requested and the other one is not, and the standard gradient
operator is requested whenever it is read. -/
theorem continuity_grad_op_requests (AT : AlgTraits) (repo : MasterElementRepo)
    (projTimeScale0 : ℚ) (metaData : MetaData) (solnOpts : SolutionOptions)
    (timeIntegrator : TimeIntegrator) (sv : ScratchViews) (lhs : Nat → Nat → ℚ)
    (rhs : Nat → ℚ) (X : Nat → Nat → Nat → ℚ) :
    ((ELEM_DATA_NEEDED.SCS_GRAD_OP, COORDS_TYPES.CURRENT_COORDINATES)
        ∈ (ContinuityAdvElemKernel.construct AT repo projTimeScale0 metaData
            { solnOpts with get_shifted_grad_op := fun _ => true,
                            cvfemReducedSensPoisson_ := false } emptyRequests).2.meCalls
      ∧ ScratchRead.meView COORDS_TYPES.CURRENT_COORDINATES ELEM_DATA_NEEDED.SCS_GRAD_OP
        ∉ (ContinuityAdvElemKernel.construct AT repo projTimeScale0 metaData
            { solnOpts with get_shifted_grad_op := fun _ => true,
                            cvfemReducedSensPoisson_ := false } emptyRequests).1.executeReads
      ∧ (ContinuityAdvElemKernel.constructed AT repo projTimeScale0 metaData
            { solnOpts with get_shifted_grad_op := fun _ => true,
                            cvfemReducedSensPoisson_ := false } emptyRequests
            timeIntegrator).execute AT lhs rhs
            (sv.withMeViews
              { sv.get_me_views COORDS_TYPES.CURRENT_COORDINATES with dndx := X })
          = (ContinuityAdvElemKernel.constructed AT repo projTimeScale0 metaData
              { solnOpts with get_shifted_grad_op := fun _ => true,
                              cvfemReducedSensPoisson_ := false } emptyRequests
              timeIntegrator).execute AT lhs rhs sv)
    ∧ ((ELEM_DATA_NEEDED.SCS_SHIFTED_GRAD_OP, COORDS_TYPES.CURRENT_COORDINATES)
          ∈ (ContinuityAdvElemKernel.construct AT repo projTimeScale0 metaData solnOpts
              emptyRequests).2.meCalls
        ↔ ScratchRead.meView COORDS_TYPES.CURRENT_COORDINATES
            ELEM_DATA_NEEDED.SCS_SHIFTED_GRAD_OP
          ∈ (ContinuityAdvElemKernel.construct AT repo projTimeScale0 metaData solnOpts
              emptyRequests).1.executeReads)
    ∧ ((ELEM_DATA_NEEDED.SCS_SHAPE_FCN, COORDS_TYPES.CURRENT_COORDINATES)
          ∈ (ContinuityAdvElemKernel.construct AT repo projTimeScale0 metaData solnOpts
              emptyRequests).2.meCalls
        ↔ ScratchRead.meView COORDS_TYPES.CURRENT_COORDINATES ELEM_DATA_NEEDED.SCS_SHAPE_FCN
          ∈ (ContinuityAdvElemKernel.construct AT repo projTimeScale0 metaData solnOpts
              emptyRequests).1.executeReads)
    ∧ ((ELEM_DATA_NEEDED.SCS_SHIFTED_SHAPE_FCN, COORDS_TYPES.CURRENT_COORDINATES)
          ∈ (ContinuityAdvElemKernel.construct AT repo projTimeScale0 metaData solnOpts
              emptyRequests).2.meCalls
        ↔ ScratchRead.meView COORDS_TYPES.CURRENT_COORDINATES
            ELEM_DATA_NEEDED.SCS_SHIFTED_SHAPE_FCN
          ∈ (ContinuityAdvElemKernel.construct AT repo projTimeScale0 metaData solnOpts
              emptyRequests).1.executeReads)
    ∧ (ScratchRead.meView COORDS_TYPES.CURRENT_COORDINATES ELEM_DATA_NEEDED.SCS_GRAD_OP
          ∈ (ContinuityAdvElemKernel.construct AT repo projTimeScale0 metaData solnOpts
              emptyRequests).1.executeReads →
        (ELEM_DATA_NEEDED.SCS_GRAD_OP, COORDS_TYPES.CURRENT_COORDINATES)
          ∈ (ContinuityAdvElemKernel.construct AT repo projTimeScale0 metaData solnOpts
              emptyRequests).2.meCalls) := by
  refine ⟨⟨?_, ?_, ?_⟩, ?_, ?_, ?_, ?_⟩
  · rcases Bool.eq_false_or_eq_true solnOpts.cvfemShiftMdot_ with h3 | h3 <;>
      simp [ContinuityAdvElemKernel.construct, ElemDataRequests.add_cvfem_surface_me,
        ElemDataRequests.add_coordinates_field, ElemDataRequests.add_gathered_nodal_field,
        ElemDataRequests.add_master_element_call, mem_insertRequest, emptyRequests, h3]
  · rcases Bool.eq_false_or_eq_true solnOpts.cvfemShiftMdot_ with h3 | h3 <;>
      simp [ContinuityAdvElemKernel.construct, ContinuityAdvElemKernel.executeReads, h3]
  · rw [execute_eq, execute_eq]
    refine Prod.ext ?_ ?_
    · funext a b
      simp only
      congr 1
    · funext i
      simp only
      congr 1
  all_goals
    rcases Bool.eq_false_or_eq_true (solnOpts.get_shifted_grad_op "pressure") with h1 | h1 <;>
    rcases Bool.eq_false_or_eq_true solnOpts.cvfemReducedSensPoisson_ with h2 | h2 <;>
    rcases Bool.eq_false_or_eq_true solnOpts.cvfemShiftMdot_ with h3 | h3 <;>
    simp [ContinuityAdvElemKernel.construct, ContinuityAdvElemKernel.executeReads,
      ElemDataRequests.add_cvfem_surface_me, ElemDataRequests.add_coordinates_field,
      ElemDataRequests.add_gathered_nodal_field, ElemDataRequests.add_master_element_call,
      mem_insertRequest, emptyRequests, h1, h2, h3]

/-! ## Inspected `execute` -/

theorem ok_bind {α β : Type} (a : α) (f : α → Except Fault β) :
    (Except.ok a >>= f) = f a := rfl

theorem error_bind {α β : Type} (e : Fault) (f : α → Except Fault β) :
    ((Except.error e : Except Fault α) >>= f) = Except.error e := rfl

theorem checkedDiv_ok (a b : ℚ) (hb : b ≠ 0) : checkedDiv a b = Except.ok (a / b) := by
  unfold checkedDiv
  rw [if_neg hb]

theorem checkedDiv_zero (a : ℚ) : checkedDiv a 0 = Except.error Fault.divisionByZero := by
  unfold checkedDiv
  rw [if_pos rfl]

theorem readIndex_ok (n : Nat) (t : Nat → Nat) (k : Nat) (h : k < n) :
    readIndex n t k = Except.ok (t k) := by
  unfold readIndex
  rw [if_pos h]

theorem read1_ok (n : Nat) (v : Nat → ℚ) (i : Nat) (h : i < n) :
    read1 n v i = Except.ok (v i) := by
  unfold read1
  rw [if_pos h]

theorem read2_ok (n1 n2 : Nat) (v : Nat → Nat → ℚ) (i j : Nat) (hi : i < n1) (hj : j < n2) :
    read2 n1 n2 v i j = Except.ok (v i j) := by
  unfold read2
  rw [if_pos ⟨hi, hj⟩]

theorem read3_ok (n1 n2 n3 : Nat) (v : Nat → Nat → Nat → ℚ) (i j k : Nat) (hi : i < n1)
    (hj : j < n2) (hk : k < n3) : read3 n1 n2 n3 v i j k = Except.ok (v i j k) := by
  unfold read3
  rw [if_pos ⟨hi, hj, hk⟩]

theorem addAtChecked_ok (n : Nat) (a : Nat → ℚ) (i : Nat) (v : ℚ) (h : i < n) :
    addAtChecked n a i v = Except.ok (addAt a i v) := by
  unfold addAtChecked
  rw [if_pos h]

theorem addAt2Checked_ok (n1 n2 : Nat) (a : Nat → Nat → ℚ) (i j : Nat) (v : ℚ) (hi : i < n1)
    (hj : j < n2) : addAt2Checked n1 n2 a i j v = Except.ok (addAt2 a i j v) := by
  unfold addAt2Checked
  rw [if_pos ⟨hi, hj⟩]

/-- A loop whose inspected body succeeds at every index with the value of the plain
body succeeds with the value of the plain loop. -/
theorem foldlM_eq_ok {σ : Type} (f : σ → Nat → Except Fault σ) (g : σ → Nat → σ)
    (l : List Nat) (h : ∀ s i, i ∈ l → f s i = Except.ok (g s i)) (s : σ) :
    l.foldlM f s = Except.ok (l.foldl g s) := by
  induction l generalizing s with
  | nil => rfl
  | cons x l ih =>
    rw [List.foldlM_cons, h s x (List.mem_cons_self x l), ok_bind, List.foldl_cons]
    exact ih (fun s i hi => h s i (List.mem_cons_of_mem x hi)) (g s x)

/-- A loop stops with the fault `e` when its body reports `e` at some index in every
state and reports nothing but `e` at the other indices. -/
theorem foldlM_eq_error {σ : Type} (f : σ → Nat → Except Fault σ) (e : Fault)
    (l : List Nat) (x : Nat) (hx : x ∈ l) (hfx : ∀ s, f s x = Except.error e)
    (hother : ∀ s i, i ∈ l → (∃ s2, f s i = Except.ok s2) ∨ f s i = Except.error e)
    (s : σ) : l.foldlM f s = Except.error e := by
  induction l generalizing s with
  | nil => exact absurd hx (List.not_mem_nil x)
  | cons y l ih =>
    rw [List.foldlM_cons]
    rcases hother s y (List.mem_cons_self y l) with ⟨s2, h2⟩ | h2
    · rw [h2, ok_bind]
      rcases List.mem_cons.mp hx with hxy | hxl
      · subst hxy
        rw [hfx s] at h2
        exact absurd h2 (by simp)
      · exact ih hxl (fun s i hi => hother s i (List.mem_cons_of_mem y hi)) s2
    · rw [h2, error_bind]

theorem projTimeScaleIPChecked_ok (AT : AlgTraits) (N : Nat → Nat → ℚ) (u : Nat → ℚ)
    (ip : Nat) (hip : ip < AT.numScsIp_) (hu : ∀ ic, ic < AT.nodesPerElement_ → u ic ≠ 0) :
    ContinuityAdvElemKernel.projTimeScaleIPChecked AT N u ip
      = Except.ok (ContinuityAdvElemKernel.projTimeScaleIP AT N u ip) := by
  unfold ContinuityAdvElemKernel.projTimeScaleIPChecked ContinuityAdvElemKernel.projTimeScaleIP
  apply foldlM_eq_ok
  intro s ic hic
  have hic2 : ic < AT.nodesPerElement_ := List.mem_range.mp hic
  simp only [read2_ok _ _ _ _ _ hip hic2, read1_ok _ _ _ hic2, checkedDiv_ok _ _ (hu ic hic2),
    ok_bind]
  rfl

theorem jBodyChecked_ok (AT : AlgTraits) (G V : Nat → Nat → ℚ) (d dl : Nat → Nat → Nat → ℚ)
    (A : Nat → Nat → ℚ) (ip ic : Nat) (r nP nR uI p : ℚ) (s : IpWork × ℚ) (j : Nat)
    (hip : ip < AT.numScsIp_) (hic : ic < AT.nodesPerElement_) (hj : j < AT.nDim_) :
    ContinuityAdvElemKernel.jBodyChecked AT G V d dl A ip ic r nP nR uI p s j
      = Except.ok (ContinuityAdvElemKernel.jBody G V d dl A ip ic r nP nR uI p s j) := by
  unfold ContinuityAdvElemKernel.jBodyChecked ContinuityAdvElemKernel.jBody
  simp only [read2_ok _ _ _ _ _ hic hj, read2_ok _ _ _ _ _ hip hj,
    read3_ok _ _ _ _ _ _ _ hip hic hj, addAtChecked_ok _ _ _ _ hj, ok_bind]
  rfl

theorem icBodyChecked_ok (K : ContinuityAdvElemKernel) (AT : AlgTraits) (rho p u : Nat → ℚ)
    (V G : Nat → Nat → ℚ) (A : Nat → Nat → ℚ) (d dl : Nat → Nat → Nat → ℚ)
    (N : Nat → Nat → ℚ) (ip il ir : Nat) (ts : ℚ) (s : IpWork × (Nat → Nat → ℚ)) (ic : Nat)
    (hip : ip < AT.numScsIp_) (hic : ic < AT.nodesPerElement_) (hu : u ic ≠ 0)
    (hpts : K.projTimeScale_ ≠ 0) (hil : il < AT.nodesPerElement_)
    (hir : ir < AT.nodesPerElement_) :
    K.icBodyChecked AT rho p u V G A d dl N ip il ir ts s ic
      = Except.ok (K.icBody AT rho p u V G A d dl N ip il ir ts s ic) := by
  unfold ContinuityAdvElemKernel.icBodyChecked ContinuityAdvElemKernel.icBody
  simp only [read2_ok _ _ _ _ _ hip hic, read1_ok _ _ _ hic, checkedDiv_ok _ _ hu, ok_bind]
  rw [foldlM_eq_ok _
    (ContinuityAdvElemKernel.jBody G V d dl A ip ic (N ip ic) (p ic) (rho ic) (1 / u ic) ts)
    _ (fun s j hj => jBodyChecked_ok AT G V d dl A ip ic _ _ _ _ _ s j hip hic
      (List.mem_range.mp hj))]
  simp only [ok_bind, checkedDiv_ok _ _ hpts, addAt2Checked_ok _ _ _ _ _ _ hil hic,
    addAt2Checked_ok _ _ _ _ _ _ hir hic]
  rfl

theorem mdotLoopChecked_ok (K : ContinuityAdvElemKernel) (AT : AlgTraits)
    (A : Nat → Nat → ℚ) (ip : Nat) (ts : ℚ) (w : IpWork) (hip : ip < AT.numScsIp_) :
    K.mdotLoopChecked AT A ip ts w = Except.ok (K.mdotLoop AT A ip ts w) := by
  unfold ContinuityAdvElemKernel.mdotLoopChecked ContinuityAdvElemKernel.mdotLoop
  apply foldlM_eq_ok
  intro s j hj
  have hj2 : j < AT.nDim_ := List.mem_range.mp hj
  simp only [read1_ok _ _ _ hj2, read2_ok _ _ _ _ _ hip hj2, ok_bind]
  rfl

theorem ipStepChecked_ok (K : ContinuityAdvElemKernel) (AT : AlgTraits) (sv : ScratchViews)
    (s : (Nat → Nat → ℚ) × (Nat → ℚ)) (ip : Nat) (hip : ip < AT.numScsIp_)
    (hu : ∀ ic, ic < AT.nodesPerElement_ → sv.get_scratch_view_1D K.Udiag_ ic ≠ 0)
    (hpts : K.projTimeScale_ ≠ 0)
    (hil : K.meSCS_.adjacentNodes (2 * ip) < AT.nodesPerElement_)
    (hir : K.meSCS_.adjacentNodes (2 * ip + 1) < AT.nodesPerElement_) :
    K.ipStepChecked AT sv s ip = Except.ok (K.ipStep AT sv s ip) := by
  unfold ContinuityAdvElemKernel.ipStepChecked ContinuityAdvElemKernel.ipStep
  have h1 : 2 * ip < 2 * AT.numScsIp_ := by omega
  have h2 : 2 * ip + 1 < 2 * AT.numScsIp_ := by omega
  simp only [readIndex_ok _ _ _ h1, readIndex_ok _ _ _ h2, ok_bind,
    projTimeScaleIPChecked_ok AT _ _ ip hip hu]
  rw [foldlM_eq_ok _
    (K.icBody AT (sv.get_scratch_view_1D K.densityNp1_) (sv.get_scratch_view_1D K.pressure_)
      (sv.get_scratch_view_1D K.Udiag_) (sv.get_scratch_view_2D K.velocityRTM_)
      (sv.get_scratch_view_2D K.Gpdx_)
      (sv.get_me_views COORDS_TYPES.CURRENT_COORDINATES).scs_areav
      (K.v_dndx (sv.get_me_views COORDS_TYPES.CURRENT_COORDINATES))
      (K.v_dndx_lhs (sv.get_me_views COORDS_TYPES.CURRENT_COORDINATES))
      (K.v_shape_function (sv.get_me_views COORDS_TYPES.CURRENT_COORDINATES))
      ip (K.meSCS_.adjacentNodes (2 * ip)) (K.meSCS_.adjacentNodes (2 * ip + 1))
      (ContinuityAdvElemKernel.projTimeScaleIP AT
        (K.v_shape_function (sv.get_me_views COORDS_TYPES.CURRENT_COORDINATES))
        (sv.get_scratch_view_1D K.Udiag_) ip))
    _ (fun s ic hic => icBodyChecked_ok K AT _ _ _ _ _ _ _ _ _ ip _ _ _ s ic hip
      (List.mem_range.mp hic) (hu ic (List.mem_range.mp hic)) hpts hil hir)]
  simp only [ok_bind, mdotLoopChecked_ok K AT _ ip _ _ hip, checkedDiv_ok _ _ hpts,
    addAtChecked_ok _ _ _ _ hil, addAtChecked_ok _ _ _ _ hir]
  rfl

theorem projTimeScaleIPChecked_zero_diag (AT : AlgTraits) (N : Nat → Nat → ℚ) (u : Nat → ℚ)
    (ip : Nat) (hip : ip < AT.numScsIp_) (ic0 : Nat) (hic0 : ic0 < AT.nodesPerElement_)
    (hzero : u ic0 = 0) :
    ContinuityAdvElemKernel.projTimeScaleIPChecked AT N u ip
      = Except.error Fault.divisionByZero := by
  unfold ContinuityAdvElemKernel.projTimeScaleIPChecked
  refine foldlM_eq_error _ Fault.divisionByZero _ ic0 (List.mem_range.mpr hic0) ?_ ?_ 0
  · intro s
    simp only [read2_ok _ _ _ _ _ hip hic0, read1_ok _ _ _ hic0, ok_bind, hzero,
      checkedDiv_zero, error_bind]
  · intro s ic hic
    have hic2 : ic < AT.nodesPerElement_ := List.mem_range.mp hic
    by_cases h : u ic = 0
    · right
      simp only [read2_ok _ _ _ _ _ hip hic2, read1_ok _ _ _ hic2, ok_bind, h,
        checkedDiv_zero, error_bind]
    · left
      refine ⟨s + N ip ic / u ic, ?_⟩
      simp only [read2_ok _ _ _ _ _ hip hic2, read1_ok _ _ _ hic2, ok_bind,
        checkedDiv_ok _ _ h]
      rfl

theorem ipStepChecked_zero_diag (K : ContinuityAdvElemKernel) (AT : AlgTraits)
    (sv : ScratchViews) (s : (Nat → Nat → ℚ) × (Nat → ℚ)) (ip : Nat)
    (hip : ip < AT.numScsIp_) (ic0 : Nat) (hic0 : ic0 < AT.nodesPerElement_)
    (hzero : sv.get_scratch_view_1D K.Udiag_ ic0 = 0) :
    K.ipStepChecked AT sv s ip = Except.error Fault.divisionByZero := by
  unfold ContinuityAdvElemKernel.ipStepChecked
  have h1 : 2 * ip < 2 * AT.numScsIp_ := by omega
  have h2 : 2 * ip + 1 < 2 * AT.numScsIp_ := by omega
  simp only [readIndex_ok _ _ _ h1, readIndex_ok _ _ _ h2, ok_bind,
    projTimeScaleIPChecked_zero_diag AT _ _ ip hip ic0 hic0 hzero, error_bind]

theorem executeChecked_ok (K : ContinuityAdvElemKernel) (AT : AlgTraits)
    (sv : ScratchViews) (lhs : Nat → Nat → ℚ) (rhs : Nat → ℚ)
    (hu : ∀ ic, ic < AT.nodesPerElement_ → sv.get_scratch_view_1D K.Udiag_ ic ≠ 0)
    (hpts : K.projTimeScale_ ≠ 0)
    (hadj : ∀ ip, ip < AT.numScsIp_ →
      K.meSCS_.adjacentNodes (2 * ip) < AT.nodesPerElement_ ∧
      K.meSCS_.adjacentNodes (2 * ip + 1) < AT.nodesPerElement_) :
    K.executeChecked AT lhs rhs sv = Except.ok (K.execute AT lhs rhs sv) := by
  unfold ContinuityAdvElemKernel.executeChecked ContinuityAdvElemKernel.execute
  apply foldlM_eq_ok
  intro s ip hip
  have hip2 : ip < AT.numScsIp_ := List.mem_range.mp hip
  rw [ipStepChecked_ok K AT sv s ip hip2 hu hpts (hadj ip hip2).1 (hadj ip hip2).2, ok_bind]
  rfl

theorem executeChecked_zero_diag (K : ContinuityAdvElemKernel) (AT : AlgTraits)
    (sv : ScratchViews) (lhs : Nat → Nat → ℚ) (rhs : Nat → ℚ) (ic0 : Nat)
    (hic0 : ic0 < AT.nodesPerElement_) (hzero : sv.get_scratch_view_1D K.Udiag_ ic0 = 0)
    (hpos : 0 < AT.numScsIp_) :
    K.executeChecked AT lhs rhs sv = Except.error Fault.divisionByZero := by
  unfold ContinuityAdvElemKernel.executeChecked
  refine foldlM_eq_error _ Fault.divisionByZero _ 0 (List.mem_range.mpr hpos) ?_ ?_ (lhs, rhs)
  · intro s
    rw [ipStepChecked_zero_diag K AT sv s 0 hpos ic0 hic0 hzero, error_bind]
  · intro s ip hip
    right
    rw [ipStepChecked_zero_diag K AT sv s ip (List.mem_range.mp hip) ic0 hic0 hzero,
      error_bind]

/-! ## Accumulation -/

/-- C4, amended to exact arithmetic and non-zero divisors (accumulation).  With every
operation of `execute` exact, for every scratch input whose gathered `momentum_diag`
values are non-zero, a non-zero `projTimeScale_` and all initial buffers `lhs0`,
`rhs0`: the buffers after `execute` are `lhs0 + L` and `rhs0 + R` entry by entry,
where `(L, R)` is what `execute` leaves in buffers that start at zero.  When in
addition the adjacent-node table is in range, the inspected `execute` meets no zero
divisor on either pair of buffers and returns exactly these results. -/
theorem continuity_execute_accumulates (K : ContinuityAdvElemKernel) (AT : AlgTraits)
    (sv : ScratchViews) (lhs0 : Nat → Nat → ℚ) (rhs0 : Nat → ℚ)
    (hu : ∀ ic, ic < AT.nodesPerElement_ → sv.get_scratch_view_1D K.Udiag_ ic ≠ 0)
    (hpts : K.projTimeScale_ ≠ 0) :
    K.execute AT lhs0 rhs0 sv
        = (fun a b => lhs0 a b + (K.execute AT (fun _ _ => 0) (fun _ => 0) sv).1 a b,
           fun i => rhs0 i + (K.execute AT (fun _ _ => 0) (fun _ => 0) sv).2 i)
    ∧ ((∀ ip, ip < AT.numScsIp_ →
          K.meSCS_.adjacentNodes (2 * ip) < AT.nodesPerElement_ ∧
          K.meSCS_.adjacentNodes (2 * ip + 1) < AT.nodesPerElement_) →
        K.executeChecked AT (fun _ _ => 0) (fun _ => 0) sv
            = Except.ok (K.execute AT (fun _ _ => 0) (fun _ => 0) sv)
        ∧ K.executeChecked AT lhs0 rhs0 sv
            = Except.ok
                (fun a b => lhs0 a b + (K.execute AT (fun _ _ => 0) (fun _ => 0) sv).1 a b,
                 fun i => rhs0 i + (K.execute AT (fun _ _ => 0) (fun _ => 0) sv).2 i)) := by
  have key : K.execute AT lhs0 rhs0 sv
      = (fun a b => lhs0 a b + (K.execute AT (fun _ _ => 0) (fun _ => 0) sv).1 a b,
         fun i => rhs0 i + (K.execute AT (fun _ _ => 0) (fun _ => 0) sv).2 i) := by
    rw [execute_eq K AT sv lhs0 rhs0, execute_eq K AT sv (fun _ _ => 0) (fun _ => 0)]
    simp only [zero_add]
  refine ⟨key, fun hadj => ⟨executeChecked_ok K AT sv _ _ hu hpts hadj, ?_⟩⟩
  rw [executeChecked_ok K AT sv lhs0 rhs0 hu hpts hadj, key]

/-- Witness of C4 on the example element: its `momentum_diag` values `7, 8, 9` and
`projTimeScale_ = 1/3` are non-zero, and the exact `execute` on the example buffers
leaves the buffers plus what it leaves in zero buffers. -/
theorem continuity_execute_accumulates_witness :
    ((∀ ic, ic < exampleTraits.nodesPerElement_ →
          exampleScratch.get_scratch_view_1D exampleKernel.Udiag_ ic ≠ 0)
      ∧ exampleKernel.projTimeScale_ ≠ 0)
    ∧ exampleKernel.execute exampleTraits exampleLhs exampleRhs exampleScratch
        = (fun a b => exampleLhs a b
              + (exampleKernel.execute exampleTraits (fun _ _ => 0) (fun _ => 0)
                  exampleScratch).1 a b,
           fun i => exampleRhs i
              + (exampleKernel.execute exampleTraits (fun _ _ => 0) (fun _ => 0)
                  exampleScratch).2 i) := by
  have hU : exampleKernel.Udiag_ = 6 := by decide
  have hu : ∀ ic, ic < exampleTraits.nodesPerElement_ →
      exampleScratch.get_scratch_view_1D exampleKernel.Udiag_ ic ≠ 0 := by
    intro ic _
    rw [hU]
    simp only [exampleScratch]
    positivity
  have hpts : exampleKernel.projTimeScale_ ≠ 0 := by
    norm_num [exampleKernel, ContinuityAdvElemKernel.constructed,
      ContinuityAdvElemKernel.setup, exampleTimeIntegrator]
  exact
    ⟨⟨hu, hpts⟩,
     (continuity_execute_accumulates exampleKernel exampleTraits exampleScratch exampleLhs
        exampleRhs hu hpts).1⟩

/-- C4, counterexample.  In binary64, on the example element with all divisors
non-zero: started from the example buffers `execute` leaves
`rhs(2) = -8990025930269063 / 2^46`; started from zero buffers it leaves
`R(2) = -1185325892439089 / 2^43`; and `rhs0(2) + R(2)` with `rhs0(2) = 7`, added
exactly or in binary64, is `-8990025930269064 / 2^46`, one unit in the last place
away.  And for a scratch input with a zero divisor (`momentum_diag` zero at node 1)
the inspected `execute` stops at the division by it, from zero buffers and from the
example buffers alike, so the run leaves no finite `L`, `R` to add. -/
theorem continuity_accumulation_binary64 :
    (exampleKernelDouble.executeDouble exampleTraits exampleLhs exampleRhs
        exampleScratch).2 2 = -8990025930269063 / 2 ^ 46
    ∧ (exampleKernelDouble.executeDouble exampleTraits (fun _ _ => 0) (fun _ => 0)
        exampleScratch).2 2 = -1185325892439089 / 2 ^ 43
    ∧ exampleRhs 2
          + (exampleKernelDouble.executeDouble exampleTraits (fun _ _ => 0) (fun _ => 0)
              exampleScratch).2 2 = -8990025930269064 / 2 ^ 46
    ∧ dadd (exampleRhs 2)
          ((exampleKernelDouble.executeDouble exampleTraits (fun _ _ => 0) (fun _ => 0)
              exampleScratch).2 2) = -8990025930269064 / 2 ^ 46
    ∧ (exampleKernelDouble.executeDouble exampleTraits exampleLhs exampleRhs
          exampleScratch).2 2
        ≠ exampleRhs 2
          + (exampleKernelDouble.executeDouble exampleTraits (fun _ _ => 0) (fun _ => 0)
              exampleScratch).2 2
    ∧ (exampleKernelDouble.executeDouble exampleTraits exampleLhs exampleRhs
          exampleScratch).2 2
        ≠ dadd (exampleRhs 2)
            ((exampleKernelDouble.executeDouble exampleTraits (fun _ _ => 0) (fun _ => 0)
                exampleScratch).2 2)
    ∧ exampleScratchZeroDiag.get_scratch_view_1D exampleKernel.Udiag_ 1 = 0
    ∧ exampleKernel.executeChecked exampleTraits (fun _ _ => 0) (fun _ => 0)
        exampleScratchZeroDiag = Except.error Fault.divisionByZero
    ∧ exampleKernel.executeChecked exampleTraits exampleLhs exampleRhs
        exampleScratchZeroDiag = Except.error Fault.divisionByZero := by
  have h1 : (exampleKernelDouble.executeDouble exampleTraits exampleLhs exampleRhs
      exampleScratch).2 2 = -8990025930269063 / 2 ^ 46 := by decide!
  have h2 : (exampleKernelDouble.executeDouble exampleTraits (fun _ _ => 0) (fun _ => 0)
      exampleScratch).2 2 = -1185325892439089 / 2 ^ 43 := by decide!
  have h3 : exampleRhs 2 = 7 := by norm_num [exampleRhs]
  have h4 : dadd (exampleRhs 2)
      ((exampleKernelDouble.executeDouble exampleTraits (fun _ _ => 0) (fun _ => 0)
          exampleScratch).2 2) = -8990025930269064 / 2 ^ 46 := by decide!
  have hU : exampleKernel.Udiag_ = 6 := by decide
  have hzero : exampleScratchZeroDiag.get_scratch_view_1D exampleKernel.Udiag_ 1 = 0 := by
    rw [hU]
    simp [exampleScratchZeroDiag]
  refine ⟨h1, h2, ?_, h4, ?_, ?_, hzero,
    executeChecked_zero_diag exampleKernel exampleTraits exampleScratchZeroDiag _ _ 1
      (by decide) hzero (by decide),
    executeChecked_zero_diag exampleKernel exampleTraits exampleScratchZeroDiag _ _ 1
      (by decide) hzero (by decide)⟩
  · rw [h2, h3]
    norm_num
  · rw [h1, h2, h3]
    norm_num
  · rw [h1, h4]
    norm_num

/-- C13 (division safety).  If every gathered `momentum_diag` value of the element
is non-zero, `projTimeScale_` is non-zero and every entry of the adjacent-node
table that is read lies below `nodesPerElement_`, the inspected `execute` meets no
zero divisor and no index outside an extent, and returns the buffers of `execute`.
Conversely nothing guards the divisor: when `momentum_diag` is zero at some node of
the element, the pass of every integration point stops at the division by that
value, and so does `execute` on an element with at least one integration point. -/
theorem continuity_execute_division_safety (K : ContinuityAdvElemKernel) (AT : AlgTraits)
    (sv : ScratchViews) (lhs : Nat → Nat → ℚ) (rhs : Nat → ℚ) :
    ((∀ ic, ic < AT.nodesPerElement_ → sv.get_scratch_view_1D K.Udiag_ ic ≠ 0) →
      K.projTimeScale_ ≠ 0 →
      (∀ ip, ip < AT.numScsIp_ →
        K.meSCS_.adjacentNodes (2 * ip) < AT.nodesPerElement_ ∧
        K.meSCS_.adjacentNodes (2 * ip + 1) < AT.nodesPerElement_) →
      K.executeChecked AT lhs rhs sv = Except.ok (K.execute AT lhs rhs sv))
    ∧ ((∃ ic, ic < AT.nodesPerElement_ ∧ sv.get_scratch_view_1D K.Udiag_ ic = 0) →
        (∀ ip, ip < AT.numScsIp_ →
          K.ipStepChecked AT sv (lhs, rhs) ip = Except.error Fault.divisionByZero)
        ∧ (0 < AT.numScsIp_ →
          K.executeChecked AT lhs rhs sv = Except.error Fault.divisionByZero)) := by
  refine ⟨?_, ?_⟩
  · intro hu hpts hadj
    unfold ContinuityAdvElemKernel.executeChecked ContinuityAdvElemKernel.execute
    apply foldlM_eq_ok
    intro s ip hip
    have hip2 : ip < AT.numScsIp_ := List.mem_range.mp hip
    rw [ipStepChecked_ok K AT sv s ip hip2 hu hpts (hadj ip hip2).1 (hadj ip hip2).2, ok_bind]
    rfl
  · rintro ⟨ic0, hic0, hzero⟩
    refine ⟨fun ip hip => ipStepChecked_zero_diag K AT sv (lhs, rhs) ip hip ic0 hic0 hzero, ?_⟩
    intro hpos
    unfold ContinuityAdvElemKernel.executeChecked
    refine foldlM_eq_error _ Fault.divisionByZero _ 0 (List.mem_range.mpr hpos) ?_ ?_ (lhs, rhs)
    · intro s
      rw [ipStepChecked_zero_diag K AT sv s 0 hpos ic0 hic0 hzero, error_bind]
    · intro s ip hip
      right
      rw [ipStepChecked_zero_diag K AT sv s ip (List.mem_range.mp hip) ic0 hic0 hzero,
        error_bind]

/-- Witness of C13 on the example element: its `momentum_diag` values `7, 8, 9` are
non-zero, `projTimeScale_ = 1/3` and the adjacent-node table is in range, so the
inspected `execute` returns the buffers of `execute`; with `momentum_diag` set to
zero at node 1 it stops at a division by zero. -/
theorem continuity_execute_division_safety_witness :
    (((∀ ic, ic < exampleTraits.nodesPerElement_ →
          exampleScratch.get_scratch_view_1D exampleKernel.Udiag_ ic ≠ 0)
        ∧ exampleKernel.projTimeScale_ ≠ 0
        ∧ (∀ ip, ip < exampleTraits.numScsIp_ →
            exampleKernel.meSCS_.adjacentNodes (2 * ip) < exampleTraits.nodesPerElement_ ∧
            exampleKernel.meSCS_.adjacentNodes (2 * ip + 1) < exampleTraits.nodesPerElement_))
      ∧ exampleKernel.executeChecked exampleTraits exampleLhs exampleRhs exampleScratch
          = Except.ok (exampleKernel.execute exampleTraits exampleLhs exampleRhs
              exampleScratch))
    ∧ (((1 : Nat) < exampleTraits.nodesPerElement_
        ∧ exampleScratchZeroDiag.get_scratch_view_1D exampleKernel.Udiag_ 1 = 0
        ∧ 0 < exampleTraits.numScsIp_)
      ∧ exampleKernel.executeChecked exampleTraits exampleLhs exampleRhs
          exampleScratchZeroDiag = Except.error Fault.divisionByZero) := by
  have hU : exampleKernel.Udiag_ = 6 := by decide
  have hu : ∀ ic, ic < exampleTraits.nodesPerElement_ →
      exampleScratch.get_scratch_view_1D exampleKernel.Udiag_ ic ≠ 0 := by
    intro ic _
    rw [hU]
    simp only [exampleScratch]
    positivity
  have hpts : exampleKernel.projTimeScale_ ≠ 0 := by
    norm_num [exampleKernel, ContinuityAdvElemKernel.constructed,
      ContinuityAdvElemKernel.setup, exampleTimeIntegrator]
  have hadj : ∀ ip, ip < exampleTraits.numScsIp_ →
      exampleKernel.meSCS_.adjacentNodes (2 * ip) < exampleTraits.nodesPerElement_ ∧
      exampleKernel.meSCS_.adjacentNodes (2 * ip + 1) < exampleTraits.nodesPerElement_ := by
    decide
  have hzero : exampleScratchZeroDiag.get_scratch_view_1D exampleKernel.Udiag_ 1 = 0 := by
    rw [hU]
    simp [exampleScratchZeroDiag]
  exact
    ⟨⟨⟨hu, hpts, hadj⟩,
      (continuity_execute_division_safety exampleKernel exampleTraits exampleScratch
        exampleLhs exampleRhs).1 hu hpts hadj⟩,
     ⟨⟨by decide, hzero, by decide⟩,
      ((continuity_execute_division_safety exampleKernel exampleTraits
        exampleScratchZeroDiag exampleLhs exampleRhs).2 ⟨1, by decide, hzero⟩).2
        (by decide)⟩⟩

/-- Witness of the last part of C15 on the example element, where the shifted
pressure gradient is off: `execute` reads `meViews.dndx` and the constructor
requested `SCS_GRAD_OP`. -/
theorem continuity_grad_op_requests_witness :
    ScratchRead.meView COORDS_TYPES.CURRENT_COORDINATES ELEM_DATA_NEEDED.SCS_GRAD_OP
        ∈ (ContinuityAdvElemKernel.construct exampleTraits exampleRepo 1 exampleMetaData
            exampleOptions emptyRequests).1.executeReads
    ∧ (ELEM_DATA_NEEDED.SCS_GRAD_OP, COORDS_TYPES.CURRENT_COORDINATES)
        ∈ (ContinuityAdvElemKernel.construct exampleTraits exampleRepo 1 exampleMetaData
            exampleOptions emptyRequests).2.meCalls :=
  have h : ScratchRead.meView COORDS_TYPES.CURRENT_COORDINATES ELEM_DATA_NEEDED.SCS_GRAD_OP
      ∈ (ContinuityAdvElemKernel.construct exampleTraits exampleRepo 1 exampleMetaData
          exampleOptions emptyRequests).1.executeReads := by decide
  ⟨h,
   (continuity_grad_op_requests exampleTraits exampleRepo 1 exampleMetaData exampleOptions
      exampleTimeIntegrator exampleScratch exampleLhs exampleRhs
      (fun _ _ _ => 0)).2.2.2.2 h⟩

end nalu
end sierra
